import Mathlib

/-!
Verification of the `soulstruct` BND binder codec
(`src/soulstruct/containers/bnd/core.py`) in a shallow embedding.

Conventions of the embedding:

* Bytes are `Nat` (values `0..255` wherever produced by the encoders);
  buffers and packed outputs are `List Nat`.
* Python `str` values (entry paths) are `List Char`; `ord` is `Char.toNat`.
  Signatures are kept as raw byte lists.
* Python exceptions are `Except String` results (the message text is
  abbreviated); logged warnings are returned explicitly where a claim
  needs them.
* The flag module `soulstruct/containers/bnd/magic.py` is not part of the
  sources; following the specification it is a pure table keyed by the
  magic byte and therefore enters as a parameter (`MagicRules`) of every
  codec function.  Likewise `zlib` and the text codecs (`shift-jis`,
  `utf-16`) are external and enter as parameters (`ZlibModel`,
  `EncodingModel`).
* The `BinaryStruct` utility is external as well ("packs/unpacks fixed
  field lists with configurable byte order; used as-is"): each struct
  declared in `core.py` is embedded as a function emitting / reading its
  fields in their declared order at their declared widths.  Out-of-range
  field values wrap modulo the field width here; the theorems about
  packing carry explicit range hypotheses instead.
* Python's stable `sorted` / `list.sort` is embedded as
  `List.insertionSort`, which is extensionally the same function on every
  input (both are stable sorts).

The file is organised as definitions first, then all theorems.
-/

namespace SoulstructBND

/-! ## Little/big endian integer codec (the `BinaryStruct` primitive) -/

/-- Little-endian byte encoding of `v` on `w` bytes (least significant first). -/
def encLE : Nat → Nat → List Nat
  | 0, _ => []
  | w + 1, v => v % 256 :: encLE w (v / 256)

/-- Little-endian byte decoding. -/
def decLE : List Nat → Nat
  | [] => 0
  | b :: bs => b + 256 * decLE bs

/-- Encoding of a (possibly signed) integer field of width `w`, two's
complement, in the requested byte order (`big = true` for big endian). -/
def encInt (w : Nat) (big : Bool) (v : Int) : List Nat :=
  let u := (v % ((2 : Int) ^ (8 * w))).toNat
  if big then (encLE w u).reverse else encLE w u

/-- Unsigned decoding of an integer field in the requested byte order. -/
def decUInt (big : Bool) (bs : List Nat) : Nat :=
  decLE (if big then bs.reverse else bs)

/-- Signed (two's complement) decoding of a `w`-byte integer field. -/
def decSInt (w : Nat) (big : Bool) (bs : List Nat) : Int :=
  let u := decUInt big bs
  if u < 2 ^ (8 * w - 1) then (u : Int) else (u : Int) - 2 ^ (8 * w)

/-- Encoding of a `?` (bool) field: one byte, 1 or 0. -/
def encBool (b : Bool) : List Nat := [if b then 1 else 0]

/-- Decoding of a `?` (bool) field. -/
def decBool (bs : List Nat) : Bool := bs.headD 0 ≠ 0

/-- Encoding of an `ns` fixed byte-string field: truncate / zero-pad to `n`. -/
def fixedBytes (n : Nat) (s : List Nat) : List Nat :=
  s.take n ++ List.replicate (n - s.length) 0

/-- Padding bytes (`nx` fields). -/
def padBytes (n : Nat) : List Nat := List.replicate n 0

/-- Reading a field slice of `len` bytes at absolute offset `off`;
`struct.unpack` fails when the buffer is too short. -/
def readBytesExact (buf : List Nat) (off len : Nat) : Except String (List Nat) :=
  if off + len ≤ buf.length then .ok ((buf.drop off).take len)
  else .error "struct error: unpack requires more bytes"

/-- Success test for an `Except` result. -/
def except_ok {ε α : Type} : Except ε α → Bool
  | .ok _ => true
  | .error _ => false

instance {ε α : Type} [DecidableEq ε] [DecidableEq α] :
    DecidableEq (Except ε α) := fun a b =>
  match a, b with
  | .error e1, .error e2 =>
      decidable_of_iff (e1 = e2) ⟨fun h => by rw [h], fun h => by injection h⟩
  | .error _, .ok _ => .isFalse (fun h => Except.noConfusion h)
  | .ok _, .error _ => .isFalse (fun h => Except.noConfusion h)
  | .ok a1, .ok a2 =>
      decidable_of_iff (a1 = a2) ⟨fun h => by rw [h], fun h => by injection h⟩

/-! ## Data model: entries, format variant rules, external codecs -/

/-- Embedding of `BNDEntry` (`core.py` lines 23-87): raw payload `data`
(always uncompressed in memory), optional engine-facing `id`, optional
virtual `path`, per-entry format flag `magic`.  Equality of the structure
is equality of the four fields, exactly the `__eq__` of the source. -/
structure BNDEntry where
  data : List Nat
  id : Option Int
  path : Option (List Char)
  magic : Int
deriving DecidableEq, Repr

/-- Modelled from the spec: the "Format Variant Rules" are pure lookup
functions keyed by the magic byte (module `soulstruct/containers/bnd/magic.py`,
whose exact bit table is not among the sources): `has_id`, `has_path`,
`has_uncompressed_size`, `is_entry_compressed`, `is_big_endian` and
`header_size`. -/
structure MagicRules where
  has_id : Int → Bool
  has_path : Int → Bool
  has_uncompressed_size : Int → Bool
  is_entry_compressed : Int → Bool
  is_big_endian : Int → Bool
  header_size : Int → Int

/-- Modelled from the spec: the external `zlib` codec ("invoke a standard
DEFLATE-compatible codec").  `compress` is `zlib.compress(data, level=7)`;
`decompress` is `zlib.decompressobj().decompress(data)` and fails on
malformed input. -/
structure ZlibModel where
  compress : List Nat → List Nat
  decompress : List Nat → Option (List Nat)

/-- Modelled from the spec: an external text codec (`shift-jis` or
`utf-16`).  `encode` maps a `str` to its byte encoding; `read_str` is
`soulstruct.utilities.core.read_chars_from_buffer` (also not among the
sources): it reads the NUL-terminated string stored at the given absolute
offset of the buffer and decodes it, without moving the caller's stream
position, failing (`ValueError`) when no terminated decodable string is
there. -/
structure EncodingModel where
  encode : List Char → List Nat
  read_str : List Nat → Nat → Option (List Char)

/-- Embedding of `BNDEntry.get_data_for_pack` (lines 53-57): compresses the
payload first when the entry's magic marks it compressed; returns the bytes
to emit and the compression flag. -/
def get_data_for_pack (R : MagicRules) (Z : ZlibModel) (e : BNDEntry) :
    List Nat × Bool :=
  if R.is_entry_compressed e.magic then (Z.compress e.data, true)
  else (e.data, false)

/-- Embedding of `BNDEntry.get_packed_path` (lines 63-65): encode the path
and append a single NUL byte.  Fails (`AttributeError`) when `path` is
`None`. -/
def get_packed_path (E : EncodingModel) (e : BNDEntry) :
    Except String (List Nat) :=
  match e.path with
  | none => .error "AttributeError: NoneType has no attribute encode"
  | some p => .ok (E.encode p ++ [0])

/-! ## `BaseBND.add_entry` and `entries_by_id` -/

/-- Embedding of the key set built by the `entries_by_id` property
(lines 239-251): walk the entries in order, failing with `BNDError` at the
first entry whose id was already seen. -/
def entries_by_id_keys (acc : List (Option Int)) :
    List BNDEntry → Except String (List (Option Int))
  | [] => .ok acc
  | e :: rest =>
      if e.id ∈ acc then .error "BNDError: there are multiple entries with this ID"
      else entries_by_id_keys (acc ++ [e.id]) rest

/-- Embedding of `BaseBND.add_entry` (lines 204-209).  Raises `BNDError`
when the new entry is already present (full four-field equality, the
`__eq__` of `BNDEntry`); otherwise consults `entries_by_id` (which itself
raises when the existing entries already contain a duplicated id) and
appends, returning the new entry list together with the flag telling
whether the duplicate-id warning was logged. -/
def add_entry (entries : List BNDEntry) (e : BNDEntry) :
    Except String (List BNDEntry × Bool) :=
  if e ∈ entries then
    .error "BNDError: given BNDEntry instance is already in this BND"
  else
    match entries_by_id_keys [] entries with
    | .error msg => .error msg
    | .ok keys => .ok (entries ++ [e], e.id ∈ keys)

/-- The `for entry in BNDEntry.unpack(...): self.add_entry(entry)` loop at
the end of `BND3.unpack` / `BND4.unpack`.  Returns the final `_entries`
state (the entries added before a failure remain) and the error, if any. -/
def add_entries_loop (st : List BNDEntry) :
    List BNDEntry → List BNDEntry × Option String
  | [] => (st, none)
  | e :: rest =>
      match add_entry st e with
      | .error msg => (st, some msg)
      | .ok (st2, _) => add_entries_loop st2 rest

/-! ## `BND4.path_hash` (lines 766-776) -/

/-- Normalisation performed by `path_hash`: replace every backslash by a
forward slash, then prepend a forward slash when the string does not
already start with one (Python `startswith` on the empty string is false,
so the empty string also gets the slash). -/
def path_hash_normalize (p : List Char) : List Char :=
  let hashable := p.map (fun c => if c = '\\' then '/' else c)
  if hashable.head? = some '/' then hashable else '/' :: hashable

/-- The accumulation loop of `path_hash`: `h += i * 37 + ord(s)` over the
enumerated characters. -/
def path_hash_loop (i h : Nat) : List Char → Nat
  | [] => h
  | c :: cs => path_hash_loop (i + 1) (h + (i * 37 + c.toNat)) cs

/-- Embedding of the static method `BND4.path_hash`. -/
def path_hash (p : List Char) : Nat :=
  path_hash_loop 0 0 (path_hash_normalize p)

/-- Declarative restatement of the spec's formula: the sum over 0-based
positions `i` of the normalised string of `i * 37 + ord(char_i)`. -/
def path_hash_spec (p : List Char) : Nat :=
  ((path_hash_normalize p).enum.map (fun ic => ic.1 * 37 + ic.2.toNat)).sum

/-! ## `BND4.is_prime` (lines 709-722) and the hash group count -/

/-- The `for i in range(3, p // 2, 2)` trial-division loop of
`BND4.is_prime`.  The explicit fuel argument bounds the iteration count
(the Python range is finite); with fuel at least `p / 2` the loop always
exits through one of its own tests before the fuel runs out. -/
def is_prime_trial (p : Nat) : Nat → Nat → Bool
  | 0, _ => true
  | fuel + 1, i =>
      if i < p / 2 then
        if p % i = 0 then false
        else if i * i > p then true
        else is_prime_trial p fuel (i + 2)
      else true

/-- Embedding of the static method `BND4.is_prime`: reject below 2, accept
2, reject even numbers, then trial division by odd numbers from 3. -/
def is_prime (p : Nat) : Bool :=
  if p < 2 then false
  else if p = 2 then true
  else if p % 2 = 0 then false
  else is_prime_trial p (p / 2) 3

/-- The `for p in range(len(self._entries) // 7, 100000)` search of
`BND4.build_hash_table` (lines 728-734), with the remaining range length
as the structural fuel; `none` is the `ValueError` raised by the loop's
`else` clause when the range is exhausted. -/
def find_group_count_from : Nat → Nat → Option Nat
  | 0, _ => none
  | steps + 1, p => if is_prime p then some p else find_group_count_from steps (p + 1)

/-- Group count chosen by `build_hash_table` for `n` entries: the first
`p` in `range(n // 7, 100000)` passing `is_prime`. -/
def hash_group_count (n : Nat) : Option Nat :=
  find_group_count_from (100000 - n / 7) (n / 7)

/-! ## `BND4.build_hash_table` (lines 724-764) -/

/-- Lexicographic order on `(hashed_value, entry_index)` pairs: Python's
`hash_list.sort()` sorts tuples lexicographically. -/
def pair_le (a b : Nat × Nat) : Prop :=
  a.1 < b.1 ∨ (a.1 = b.1 ∧ a.2 ≤ b.2)

instance : DecidableRel pair_le := fun a b =>
  decidable_of_iff (a.1 < b.1 ∨ (a.1 = b.1 ∧ a.2 ≤ b.2)) Iff.rfl

/-- The bucket-filling loop: `hash_lists[hash % group_count].append((hash,
entry_index))` over the enumerated entries, starting at index `i` with the
current list-of-buckets `ls`. -/
def build_hash_lists (gc : Nat) : List Nat → Nat → List (List (Nat × Nat)) →
    List (List (Nat × Nat))
  | [], _, ls => ls
  | h :: hs, i, ls =>
      build_hash_lists gc hs (i + 1) (ls.set (h % gc) (ls.getD (h % gc) [] ++ [(h, i)]))

/-- A `hash_groups` record: `index` is the first flat index of the group,
`length` the number of path hashes in it. -/
structure HashGroupRec where
  index : Nat
  length : Nat
deriving DecidableEq, Repr

/-- The `total_hash_count` loop of `build_hash_table`: flattens the sorted
buckets into `path_hashes` and records each group's `(index, length)`. -/
def build_groups : List (List (Nat × Nat)) → Nat →
    List HashGroupRec × List (Nat × Nat)
  | [], _ => ([], [])
  | hl :: rest, total =>
      let res := build_groups rest (total + hl.length)
      (⟨total, hl.length⟩ :: res.1, hl ++ res.2)

/-- Serialisation of one `HASH_GROUP_STRUCT` record.  The struct declares
its fields in the order `("length", "i")`, `("index", "i")` (line 520), so
the length is emitted before the index.  The struct is created without an
explicit byte order and is emitted little-endian. -/
def pack_hash_group (g : HashGroupRec) : List Nat :=
  encInt 4 false (g.length : Int) ++ encInt 4 false (g.index : Int)

/-- Serialisation of one `PATH_HASH_STRUCT` record: `("hashed_value", "I")`
then `("entry_index", "i")` (line 519), little-endian. -/
def pack_path_hash (ph : Nat × Nat) : List Nat :=
  encInt 4 false (ph.1 : Int) ++ encInt 4 false (ph.2 : Int)

/-- Serialisation of `HASH_TABLE_HEADER` (lines 516-518): 8 pad bytes,
`path_hashes_offset` (`q`, equal to the 24-byte header size plus the 8
bytes of every group record), `hash_group_count` (`I`), and the constant
tag `0x00080810` (`i`), little-endian. -/
def pack_hash_table_header (gc : Nat) : List Nat :=
  padBytes 8 ++ encInt 8 false ((24 : Int) + 8 * gc) ++
    encInt 4 false (gc : Int) ++ encInt 4 false 0x00080810

/-- Embedding of `BND4.build_hash_table`: choose the group count, hash
every entry path (`AttributeError` when a path is `None`), bucket by
`hash % group_count`, sort each bucket, flatten, and serialise header,
group records and path-hash records. -/
def build_hash_table (entries : List BNDEntry) : Except String (List Nat) := do
  let gc ← match hash_group_count entries.length with
    | none => .error "ValueError: hash group count could not be determined"
    | some g => .ok g
  let paths ← entries.mapM (fun e =>
    match e.path with
    | none => .error "AttributeError: NoneType has no attribute replace"
    | some p => Except.ok p)
  let hashes := paths.map path_hash
  let hash_lists := build_hash_lists gc hashes 0 (List.replicate gc [])
  let sorted_lists := hash_lists.map (List.insertionSort pair_le)
  let gp := build_groups sorted_lists 0
  .ok (pack_hash_table_header gc ++ (gp.1.map pack_hash_group).flatten ++
    (gp.2.map pack_path_hash).flatten)

/-- Spec-side bucket description for the hash table: the pairs
`(hash, entry_index)` whose hash falls in bucket `g`, in entry order. -/
def bucket_spec (gc : Nat) (hashes : List Nat) (g : Nat) : List (Nat × Nat) :=
  (hashes.enum.map (fun ih => (ih.2, ih.1))).filter (fun hi => hi.1 % gc = g)

/-- Spec-side first flat index of bucket `g`: the total size of the
earlier buckets. -/
def bucket_start (gc : Nat) (hashes : List Nat) (g : Nat) : Nat :=
  ((List.range g).map (fun g2 => (bucket_spec gc hashes g2).length)).sum

/-- Serialisation of one group record in the order stated by the claim
under examination: start index before length. -/
def pack_hash_group_claim (g : HashGroupRec) : List Nat :=
  encInt 4 false (g.index : Int) ++ encInt 4 false (g.length : Int)

/-- The hash table as the examined claim describes it: identical to
`build_hash_table` except that each group record is written as
`(start_index, length)`. -/
def build_hash_table_claim (entries : List BNDEntry) : Except String (List Nat) := do
  let gc ← match hash_group_count entries.length with
    | none => .error "ValueError: hash group count could not be determined"
    | some g => .ok g
  let paths ← entries.mapM (fun e =>
    match e.path with
    | none => .error "AttributeError: NoneType has no attribute replace"
    | some p => Except.ok p)
  let hashes := paths.map path_hash
  let hash_lists := build_hash_lists gc hashes 0 (List.replicate gc [])
  let sorted_lists := hash_lists.map (List.insertionSort pair_le)
  let gp := build_groups sorted_lists 0
  .ok (pack_hash_table_header gc ++ (gp.1.map pack_hash_group_claim).flatten ++
    (gp.2.map pack_path_hash).flatten)

/-! ## Shared entry-table machinery (`BNDEntry.unpack`, lines 33-51) -/

/-- An `entry_header_dict` as produced by `entry_header_struct.unpack_count`
or built by the pack loops; optional fields are present exactly when the
magic-flag rules include them. -/
structure EntryHeaderDict where
  entry_magic : Int
  compressed_data_size : Int
  data_offset : Int
  uncompressed_data_size : Option Int := none
  entry_id : Option Int := none
  path_offset : Option Int := none
deriving DecidableEq, Repr

/-- Splitting a byte run into `n` consecutive records of `sz` bytes
(`unpack_count`). -/
def split_records (sz : Nat) : Nat → List Nat → List (List Nat)
  | 0, _ => []
  | n + 1, bs => bs.take sz :: split_records sz n (bs.drop sz)

/-- Embedding of one iteration of `BNDEntry.unpack` (lines 39-49): read the
NUL-terminated path at `path_offset` when the layout has one, read
`compressed_data_size` bytes at `data_offset` (Python `read` returns what
is available), and inflate them when the entry's magic marks it
compressed. -/
def bnd_entry_unpack_one (R : MagicRules) (Z : ZlibModel) (E : EncodingModel)
    (buf : List Nat) (d : EntryHeaderDict) : Except String BNDEntry :=
  (match d.path_offset with
    | none => Except.ok none
    | some po =>
        if po < 0 then Except.error "ValueError: negative seek"
        else match E.read_str buf po.toNat with
          | none => Except.error "ValueError: could not read chars from buffer"
          | some p => Except.ok (some p)) >>= fun path =>
  if d.data_offset < 0 then Except.error "ValueError: negative seek"
  else
    let raw := (buf.drop d.data_offset.toNat).take d.compressed_data_size.toNat
    (if R.is_entry_compressed d.entry_magic then
        match Z.decompress raw with
        | none => Except.error "zlib error: invalid compressed data"
        | some dd => Except.ok dd
      else Except.ok raw) >>= fun data =>
    Except.ok { data := data, id := d.entry_id, path := path, magic := d.entry_magic }

/-- Embedding of `BNDEntry.unpack`: materialise the whole entry list (the
`for` loop appends; any failure aborts the classmethod before the caller
sees anything). -/
def bnd_entry_unpack (R : MagicRules) (Z : ZlibModel) (E : EncodingModel)
    (buf : List Nat) (dicts : List EntryHeaderDict) :
    Except String (List BNDEntry) :=
  dicts.mapM (bnd_entry_unpack_one R Z E buf)

/-! ## Archive V3 (`BND3`, lines 346-484) -/

/-- The archive-level state of a `BND3` instance (manifest fields only;
`header_struct` / `entry_header_struct` are determined by `magic` and
`big_endian` as in `create_header_structs`). -/
structure BND3 where
  signature : List Nat := []
  magic : Int := -1
  big_endian : Bool := false
  unknown : Bool := false
  entries : List BNDEntry := []
deriving DecidableEq, Repr

/-- Size of the packed `BND3` header struct
(`HEADER_STRUCT_START` ++ `HEADER_STRUCT_ENDIAN`): 4+8+1+1+1+1+4+4+8. -/
def bnd3_header_size : Nat := 32

/-- Size of a packed `BND3` entry header: the fixed `BND_ENTRY_HEADER`
(1+3+4+4) plus the conditional id / path-offset / uncompressed-size
fields. -/
def bnd3_entry_header_size (R : MagicRules) (magic : Int) : Nat :=
  12 + (if R.has_id magic then 4 else 0) + (if R.has_path magic then 4 else 0) +
    (if R.has_uncompressed_size magic then 4 else 0)

/-- Packing the `BND3` header: `HEADER_STRUCT_START` is always
little-endian, `HEADER_STRUCT_ENDIAN` follows the archive byte order. -/
def bnd3_pack_header (b : BND3) (entry_count file_size : Int) : List Nat :=
  fixedBytes 4 [66, 78, 68, 51]
  ++ fixedBytes 8 b.signature
  ++ encInt 1 false b.magic
  ++ encBool b.big_endian
  ++ encBool b.unknown
  ++ encInt 1 b.big_endian 0
  ++ encInt 4 b.big_endian entry_count
  ++ encInt 4 b.big_endian file_size
  ++ padBytes 8

/-- Packing one `BND3` entry header in the declared field order.  When a
conditional field is enabled the pack loop always put a value in the dict,
so the `getD` defaults are never consulted on packs the code performs. -/
def bnd3_pack_entry_header (R : MagicRules) (magic : Int) (bo : Bool)
    (d : EntryHeaderDict) : List Nat :=
  encInt 1 bo d.entry_magic
  ++ padBytes 3
  ++ encInt 4 bo d.compressed_data_size
  ++ encInt 4 bo d.data_offset
  ++ (if R.has_id magic then encInt 4 bo (d.entry_id.getD 0) else [])
  ++ (if R.has_path magic then encInt 4 bo (d.path_offset.getD 0) else [])
  ++ (if R.has_uncompressed_size magic then encInt 4 bo (d.uncompressed_data_size.getD 0) else [])

/-- Comparison key of `sorted(self._entries, key=lambda e: e.id)`. -/
def id_le (a b : BNDEntry) : Prop := a.id.getD 0 ≤ b.id.getD 0

instance : DecidableRel id_le := fun a b =>
  decidable_of_iff (a.id.getD 0 ≤ b.id.getD 0) Iff.rfl

/-- The entry sort at the top of `BND3.pack`.  Comparing `None` ids raises
`TypeError` whenever at least two entries exist and one id is `None`;
otherwise the stable sort by id. -/
def bnd3_sorted_entries (entries : List BNDEntry) : Except String (List BNDEntry) :=
  if 2 ≤ entries.length ∧ entries.any (fun e => e.id.isNone) then
    .error "TypeError: NoneType is not orderable"
  else .ok (entries.insertionSort id_le)

/-- The per-entry loop of `BND3.pack` (lines 428-448), carried out with the
running lengths of the packed path and data sections.  Produces the
relative entry-header dicts, the packed path bytes and the packed data
bytes. -/
def bnd3_entry_loop (R : MagicRules) (Z : ZlibModel) (E : EncodingModel)
    (magic : Int) :
    Nat → Nat → List BNDEntry →
    Except String (List EntryHeaderDict × List Nat × List Nat)
  | _, _, [] => .ok ([], [], [])
  | paths_len, data_len, e :: rest =>
      (if R.has_id magic then
          match e.id with
          | none => Except.error "struct error: required argument is not an integer"
          | some i => Except.ok (some i)
        else Except.ok (none : Option Int)) >>= fun eid =>
      (if R.has_path magic then get_packed_path E e
        else Except.ok ([] : List Nat)) >>= fun pp =>
      let dataPair := get_data_for_pack R Z e
      let d : EntryHeaderDict :=
        { entry_magic := e.magic
          compressed_data_size :=
            if dataPair.2 then (dataPair.1.length : Int) else (e.data.length : Int)
          data_offset := (data_len : Int)
          uncompressed_data_size :=
            if R.has_uncompressed_size magic then some (e.data.length : Int) else none
          entry_id := eid
          path_offset := if R.has_path magic then some (paths_len : Int) else none }
      bnd3_entry_loop R Z E magic (paths_len + pp.length)
        (data_len + dataPair.1.length) rest >>= fun res =>
      .ok (d :: res.1, pp ++ res.2.1, dataPair.1 ++ res.2.2)

/-- Embedding of `BND3.pack` (lines 420-473): sort by id, run the entry
loop, compute the table offsets, pack the header, rebase the per-entry
offsets to absolute and emit header ++ entry headers ++ paths ++ data. -/
def bnd3_pack (R : MagicRules) (Z : ZlibModel) (E : EncodingModel) (b : BND3) :
    Except String (List Nat) :=
  bnd3_sorted_entries b.entries >>= fun sorted =>
  bnd3_entry_loop R Z E b.magic 0 0 sorted >>= fun loop_res =>
  let entry_header_table_offset := bnd3_header_size
  let entry_path_table_offset :=
    entry_header_table_offset + bnd3_entry_header_size R b.magic * b.entries.length
  let entry_packed_data_offset := entry_path_table_offset + loop_res.2.1.length
  let bnd_file_size := entry_packed_data_offset + loop_res.2.2.length
  let packed_header := bnd3_pack_header b (b.entries.length : Int) (bnd_file_size : Int)
  let abs_dicts := loop_res.1.map (fun d =>
    { d with
        data_offset := d.data_offset + (entry_packed_data_offset : Int)
        path_offset :=
          if R.has_path b.magic then
            d.path_offset.map (fun po => po + (entry_path_table_offset : Int))
          else d.path_offset })
  let packed_entry_headers :=
    (abs_dicts.map (bnd3_pack_entry_header R b.magic b.big_endian)).flatten
  .ok (packed_header ++ packed_entry_headers ++ loop_res.2.1 ++ loop_res.2.2)

/-- Parsing one `BND3` entry-header record in the declared field order. -/
def bnd3_parse_entry_header (R : MagicRules) (magic : Int) (bo : Bool)
    (bs : List Nat) : EntryHeaderDict :=
  let id_off := 12
  let path_off := id_off + (if R.has_id magic then 4 else 0)
  let unc_off := path_off + (if R.has_path magic then 4 else 0)
  { entry_magic := ((bs.headD 0 : Nat) : Int)
    compressed_data_size := decSInt 4 bo ((bs.drop 4).take 4)
    data_offset := decSInt 4 bo ((bs.drop 8).take 4)
    entry_id := if R.has_id magic then some (decSInt 4 bo ((bs.drop id_off).take 4)) else none
    path_offset := if R.has_path magic then some (decSInt 4 bo ((bs.drop path_off).take 4)) else none
    uncompressed_data_size :=
      if R.has_uncompressed_size magic then some (decSInt 4 bo ((bs.drop unc_off).take 4)) else none }

/-- The parsing stages of `BND3.unpack` (lines 382-405) up to and including
`BNDEntry.unpack`: everything that happens before any entry is added to
the archive. -/
def bnd3_parse (R : MagicRules) (Z : ZlibModel) (E : EncodingModel)
    (buf : List Nat) : Except String (List BNDEntry) :=
  readBytesExact buf 0 14 >>= fun start =>
  if start.take 4 ≠ [66, 78, 68, 51] then
    Except.error "BNDError: version of file does not match BND class version"
  else
    let magic := decSInt 1 false ((start.drop 12).take 1)
    let big_endian_flag := decBool ((start.drop 13).take 1)
    let bo := big_endian_flag || R.is_big_endian magic
    readBytesExact buf 14 18 >>= fun part2 =>
    let entry_count := decSInt 4 bo ((part2.drop 2).take 4)
    let eh_size := bnd3_entry_header_size R magic
    readBytesExact buf 32 (eh_size * entry_count.toNat) >>= fun header_bytes =>
    let dicts := (split_records eh_size entry_count.toNat header_bytes).map
      (bnd3_parse_entry_header R magic bo)
    bnd_entry_unpack R Z E buf dicts

/-- Embedding of `BND3.unpack`: parse, then add the parsed entries one by
one through `add_entry`.  The first component is the final `_entries`
state of the archive, the second the raised error, if any. -/
def bnd3_unpack (R : MagicRules) (Z : ZlibModel) (E : EncodingModel)
    (st : List BNDEntry) (buf : List Nat) : List BNDEntry × Option String :=
  match bnd3_parse R Z E buf with
  | .error msg => (st, some msg)
  | .ok parsed => add_entries_loop st parsed

/-! ## Archive V4 (`BND4`, lines 487-776) -/

/-- The archive-level state of a `BND4` instance, including the cached raw
hash table and the entry count / path snapshot used for change
detection. -/
structure BND4 where
  signature : List Nat := []
  magic : Int := -1
  big_endian : Bool := false
  flag1 : Bool := false
  flag2 : Bool := false
  utf16_paths : Bool := false
  hash_table_type : Int := 0
  hash_table_offset : Int := 0
  most_recent_hash_table : List Nat := []
  most_recent_entry_count : Nat := 0
  most_recent_paths : List (Option (List Char)) := []
  entries : List BNDEntry := []
deriving DecidableEq, Repr

/-- Size of the packed `BND4` header struct: 12 bytes of
`HEADER_STRUCT_START` plus 52 bytes of `HEADER_STRUCT_ENDIAN`. -/
def bnd4_header_size : Nat := 64

/-- Size of a packed `BND4` entry header: the fixed `BND_ENTRY_HEADER`
(1+3+4+8), the conditional uncompressed size (`q`), the always-present
`data_offset` (`I`), the conditional id and path-offset fields, and the
extra 8 pad bytes for magic `0x20`. -/
def bnd4_entry_header_size (R : MagicRules) (magic : Int) : Nat :=
  16 + (if R.has_uncompressed_size magic then 8 else 0) + 4 +
    (if R.has_id magic then 4 else 0) + (if R.has_path magic then 4 else 0) +
    (if magic = 0x20 then 8 else 0)

/-- Packing the `BND4` header.  `HEADER_STRUCT_START` is little-endian; its
`("big_endian", "i")` field receives the Python bool `self.big_endian`,
which struct packing converts to the integer 1 or 0 (not the 0x00010000 /
0x00000100 markers the format prescribes and `unpack` tests for). -/
def bnd4_pack_header (b : BND4)
    (entry_count entry_header_size data_offset hash_table_offset : Int) :
    List Nat :=
  fixedBytes 4 [66, 78, 68, 52]
  ++ encBool b.flag1
  ++ encBool b.flag2
  ++ padBytes 2
  ++ encInt 4 false (if b.big_endian then 1 else 0)
  ++ encInt 4 b.big_endian entry_count
  ++ encInt 8 b.big_endian 64
  ++ fixedBytes 8 b.signature
  ++ encInt 8 b.big_endian entry_header_size
  ++ encInt 8 b.big_endian data_offset
  ++ encBool b.utf16_paths
  ++ encInt 1 b.big_endian b.magic
  ++ encInt 1 b.big_endian b.hash_table_type
  ++ padBytes 5
  ++ encInt 8 b.big_endian hash_table_offset

/-- Packing one `BND4` entry header in the declared field order (including
the constant `minus_one` sentinel). -/
def bnd4_pack_entry_header (R : MagicRules) (magic : Int) (bo : Bool)
    (d : EntryHeaderDict) : List Nat :=
  encInt 1 bo d.entry_magic
  ++ padBytes 3
  ++ encInt 4 bo (-1)
  ++ encInt 8 bo d.compressed_data_size
  ++ (if R.has_uncompressed_size magic then encInt 8 bo (d.uncompressed_data_size.getD 0) else [])
  ++ encInt 4 bo d.data_offset
  ++ (if R.has_id magic then encInt 4 bo (d.entry_id.getD 0) else [])
  ++ (if R.has_path magic then encInt 4 bo (d.path_offset.getD 0) else [])
  ++ (if magic = 0x20 then padBytes 8 else [])

/-- The per-entry loop of `BND4.pack` (lines 632-655): identical to the V3
loop except that ten zero pad bytes are appended to the data section before
each entry's data, and the recorded (relative) data offset points past
them. -/
def bnd4_entry_loop (R : MagicRules) (Z : ZlibModel) (E : EncodingModel)
    (magic : Int) :
    Nat → Nat → List BNDEntry →
    Except String (List EntryHeaderDict × List Nat × List Nat)
  | _, _, [] => .ok ([], [], [])
  | paths_len, data_len, e :: rest =>
      let data_len1 := data_len + 10
      (if R.has_id magic then
          match e.id with
          | none => Except.error "struct error: required argument is not an integer"
          | some i => Except.ok (some i)
        else Except.ok (none : Option Int)) >>= fun eid =>
      (if R.has_path magic then get_packed_path E e
        else Except.ok ([] : List Nat)) >>= fun pp =>
      let dataPair := get_data_for_pack R Z e
      let d : EntryHeaderDict :=
        { entry_magic := e.magic
          compressed_data_size :=
            if dataPair.2 then (dataPair.1.length : Int) else (e.data.length : Int)
          data_offset := (data_len1 : Int)
          uncompressed_data_size :=
            if R.has_uncompressed_size magic then some (e.data.length : Int) else none
          entry_id := eid
          path_offset := if R.has_path magic then some (paths_len : Int) else none }
      bnd4_entry_loop R Z E magic (paths_len + pp.length)
        (data_len1 + dataPair.1.length) rest >>= fun res =>
      .ok (d :: res.1, pp ++ res.2.1, (padBytes 10 ++ dataPair.1) ++ res.2.2)

/-- The hash-table rebuild test at the top of `BND4.pack` (lines 620-627):
rebuild when there is no cached table, when the entry count changed, or
when some entry's path differs from the snapshot.  (The source compares
paths pointwise under the snapshot indices; on the states the code
produces — snapshot count equal to snapshot list length — that is list
equality whenever the count check passes.) -/
def bnd4_rebuild_needed (b : BND4) : Bool :=
  b.most_recent_hash_table.isEmpty ||
  b.entries.length != b.most_recent_entry_count ||
  (b.entries.map (fun e => e.path)) != b.most_recent_paths

/-- The `packed_hash_table` chosen by `BND4.pack` (lines 661-664): the
freshly built table when rebuilding, the cached raw bytes otherwise.  The
cache itself is not updated by `pack` in either case. -/
def bnd4_packed_hash_table (b : BND4) (rebuild : Bool) : Except String (List Nat) :=
  if rebuild then build_hash_table b.entries else .ok b.most_recent_hash_table

/-- Embedding of `BND4.pack` (lines 613-693).  Returns the packed bytes
together with the updated archive state: `pack` overwrites the entry-count
and path snapshots (before packing) and nothing else.  The caller supplies
the `EncodingModel` corresponding to `utf16_paths` / `big_endian`. -/
def bnd4_pack (R : MagicRules) (Z : ZlibModel) (E : EncodingModel) (b : BND4) :
    Except String (List Nat × BND4) :=
  let rebuild := bnd4_rebuild_needed b
  let b2 := { b with most_recent_entry_count := b.entries.length
                     most_recent_paths := b.entries.map (fun e => e.path) }
  bnd4_entry_loop R Z E b.magic 0 0 b.entries >>= fun loop_res =>
  let eh_size := bnd4_entry_header_size R b.magic
  let entry_header_table_offset := bnd4_header_size
  let entry_path_table_offset :=
    entry_header_table_offset + eh_size * b.entries.length
  (if b.hash_table_type = 4 then
      bnd4_packed_hash_table b rebuild >>= fun ht =>
      Except.ok (entry_path_table_offset + loop_res.2.1.length, ht,
        entry_path_table_offset + loop_res.2.1.length + ht.length)
    else Except.ok (0, ([] : List Nat),
      entry_path_table_offset + loop_res.2.1.length)) >>= fun trip =>
  let hash_table_offset := trip.1
  let packed_ht := trip.2.1
  let entry_packed_data_offset := trip.2.2
  let packed_header := bnd4_pack_header b (b.entries.length : Int) (eh_size : Int)
    (entry_packed_data_offset : Int) (hash_table_offset : Int)
  let abs_dicts := loop_res.1.map (fun d =>
    { d with
        data_offset := d.data_offset + (entry_packed_data_offset : Int)
        path_offset :=
          if R.has_path b.magic then
            d.path_offset.map (fun po => po + (entry_path_table_offset : Int))
          else d.path_offset })
  let packed_entry_headers :=
    (abs_dicts.map (bnd4_pack_entry_header R b.magic b.big_endian)).flatten
  .ok (packed_header ++ packed_entry_headers ++ loop_res.2.1 ++ packed_ht ++ loop_res.2.2, b2)

/-- Parsing one `BND4` entry-header record in the declared field order. -/
def bnd4_parse_entry_header (R : MagicRules) (magic : Int) (bo : Bool)
    (bs : List Nat) : EntryHeaderDict :=
  let data_off_off := 16 + (if R.has_uncompressed_size magic then 8 else 0)
  let id_off := data_off_off + 4
  let path_off := id_off + (if R.has_id magic then 4 else 0)
  { entry_magic := ((bs.headD 0 : Nat) : Int)
    compressed_data_size := decSInt 8 bo ((bs.drop 8).take 8)
    uncompressed_data_size :=
      if R.has_uncompressed_size magic then some (decSInt 8 bo ((bs.drop 16).take 8)) else none
    data_offset := ((decUInt bo ((bs.drop data_off_off).take 4) : Nat) : Int)
    entry_id := if R.has_id magic then some (decSInt 4 bo ((bs.drop id_off).take 4)) else none
    path_offset := if R.has_path magic then some (decSInt 4 bo ((bs.drop path_off).take 4)) else none }

/-- Dropping trailing NUL bytes (`rstrip(b"\0")` applied to signatures). -/
def rstrip_zero (s : List Nat) : List Nat :=
  (s.reverse.dropWhile (fun b => b = 0)).reverse

/-- Embedding of `BND4.unpack` (lines 539-591).  Returns the final archive
state, the list of logged warnings, and the raised error, if any.  Scalar
header fields are assigned at the points the source assigns them; the
entry list is extended through `add_entry`; on success the raw hash-table
bytes (for `hash_table_type == 4`) and the entry count / path snapshots
are recorded. -/
def bnd4_unpack (R : MagicRules) (Z : ZlibModel) (E : EncodingModel)
    (b : BND4) (buf : List Nat) : BND4 × List String × Option String :=
  match readBytesExact buf 0 12 with
  | .error m => (b, [], some m)
  | .ok start =>
    if start.take 4 ≠ [66, 78, 68, 52] then
      (b, [], some "BNDError: version of file does not match BND class version")
    else
      let flag1 := decBool ((start.drop 4).take 1)
      let flag2 := decBool ((start.drop 5).take 1)
      let big_endian := decSInt 4 false ((start.drop 8).take 4) = 0x00000100
      let b1 := { b with flag1 := flag1, flag2 := flag2, big_endian := big_endian }
      let bo := big_endian
      match readBytesExact buf 12 52 with
      | .error m => (b1, [], some m)
      | .ok p2 =>
        let entry_count := decSInt 4 bo (p2.take 4)
        let signature := rstrip_zero ((p2.drop 12).take 8)
        let eh_size_decl := decSInt 8 bo ((p2.drop 20).take 8)
        let data_offset := decSInt 8 bo ((p2.drop 28).take 8)
        let utf16 := decBool ((p2.drop 36).take 1)
        let magic := decSInt 1 false ((p2.drop 37).take 1)
        let htt := ((decUInt bo ((p2.drop 38).take 1) : Nat) : Int)
        let hto := decSInt 8 bo ((p2.drop 44).take 8)
        let b2 := { b1 with signature := signature, magic := magic,
                            utf16_paths := utf16, hash_table_type := htt,
                            hash_table_offset := hto }
        if eh_size_decl ≠ R.header_size magic then
          (b2, [], some "ValueError: expected BND entry header size does not match header")
        else
          let warns0 := if htt ≠ 4 ∧ hto ≠ 0 then
              ["found non-zero hash table offset, but header says this BND has no hash table"]
            else []
          let eh_size := bnd4_entry_header_size R magic
          let warns := warns0 ++ (if eh_size_decl ≠ (eh_size : Int) then
              ["entry header size in BND header does not match actual entry header size"]
            else [])
          match readBytesExact buf 64 (eh_size * entry_count.toNat) with
          | .error m => (b2, warns, some m)
          | .ok hb =>
            let dicts := (split_records eh_size entry_count.toNat hb).map
              (bnd4_parse_entry_header R magic bo)
            match bnd_entry_unpack R Z E buf dicts with
            | .error m => (b2, warns, some m)
            | .ok parsed =>
              let lr := add_entries_loop b2.entries parsed
              match lr.2 with
              | some m => ({ b2 with entries := lr.1 }, warns, some m)
              | none =>
                let cache := if htt = 4 then
                    (if data_offset < hto then buf.drop hto.toNat
                     else (buf.drop hto.toNat).take (data_offset - hto).toNat)
                  else b2.most_recent_hash_table
                ({ b2 with entries := lr.1
                           most_recent_hash_table := cache
                           most_recent_entry_count := lr.1.length
                           most_recent_paths := lr.1.map (fun e => e.path) },
                 warns, none)

/-- The parsing stages of `BND4.unpack` (lines 539-580) up to and including
`BNDEntry.unpack`: everything that happens before any entry is added to
the archive.  Byte-identical to the reads and decodes `bnd4_unpack`
performs; only the archive-state updates and warnings are omitted (they
touch no entry). -/
def bnd4_parse (R : MagicRules) (Z : ZlibModel) (E : EncodingModel)
    (buf : List Nat) : Except String (List BNDEntry) :=
  match readBytesExact buf 0 12 with
  | .error m => .error m
  | .ok start =>
    if start.take 4 ≠ [66, 78, 68, 52] then
      .error "BNDError: version of file does not match BND class version"
    else
      let big_endian := decSInt 4 false ((start.drop 8).take 4) = 0x00000100
      let bo := big_endian
      match readBytesExact buf 12 52 with
      | .error m => .error m
      | .ok p2 =>
        let entry_count := decSInt 4 bo (p2.take 4)
        let eh_size_decl := decSInt 8 bo ((p2.drop 20).take 8)
        let magic := decSInt 1 false ((p2.drop 37).take 1)
        if eh_size_decl ≠ R.header_size magic then
          .error "ValueError: expected BND entry header size does not match header"
        else
          let eh_size := bnd4_entry_header_size R magic
          match readBytesExact buf 64 (eh_size * entry_count.toNat) with
          | .error m => .error m
          | .ok hb =>
            let dicts := (split_records eh_size entry_count.toNat hb).map
              (bnd4_parse_entry_header R magic bo)
            bnd_entry_unpack R Z E buf dicts

/-! ## Declarative shapes of the pack loops (used to state their effect) -/

/-- Bytes one entry contributes to the packed path section. -/
def packed_path_of (R : MagicRules) (E : EncodingModel) (magic : Int)
    (e : BNDEntry) : List Nat :=
  if R.has_path magic then E.encode (e.path.getD []) ++ [0] else []

/-- Bytes one entry contributes to the packed data section (without the V4
inter-entry padding). -/
def packed_data_of (R : MagicRules) (Z : ZlibModel) (e : BNDEntry) : List Nat :=
  (get_data_for_pack R Z e).1

/-- The relative header dict `BND3.pack` builds for one entry, given the
current path-section and data-section lengths. -/
def bnd3_dict_of (R : MagicRules) (Z : ZlibModel) (magic : Int) (e : BNDEntry)
    (poff doff : Nat) : EntryHeaderDict :=
  { entry_magic := e.magic
    compressed_data_size := ((packed_data_of R Z e).length : Int)
    data_offset := (doff : Int)
    uncompressed_data_size :=
      if R.has_uncompressed_size magic then some (e.data.length : Int) else none
    entry_id := if R.has_id magic then e.id else none
    path_offset := if R.has_path magic then some (poff : Int) else none }

/-- The header dicts `BND3.pack` builds, with the running offsets. -/
def bnd3_dicts_spec (R : MagicRules) (Z : ZlibModel) (E : EncodingModel)
    (magic : Int) : Nat → Nat → List BNDEntry → List EntryHeaderDict
  | _, _, [] => []
  | poff, doff, e :: rest =>
      bnd3_dict_of R Z magic e poff doff ::
        bnd3_dicts_spec R Z E magic (poff + (packed_path_of R E magic e).length)
          (doff + (packed_data_of R Z e).length) rest

/-- The relative header dict `BND4.pack` builds for one entry: as in V3 but
the data offset points past the ten pad bytes. -/
def bnd4_dict_of (R : MagicRules) (Z : ZlibModel) (magic : Int) (e : BNDEntry)
    (poff doff : Nat) : EntryHeaderDict :=
  { entry_magic := e.magic
    compressed_data_size := ((packed_data_of R Z e).length : Int)
    data_offset := ((doff + 10 : Nat) : Int)
    uncompressed_data_size :=
      if R.has_uncompressed_size magic then some (e.data.length : Int) else none
    entry_id := if R.has_id magic then e.id else none
    path_offset := if R.has_path magic then some (poff : Int) else none }

/-- The header dicts `BND4.pack` builds, with the running offsets. -/
def bnd4_dicts_spec (R : MagicRules) (Z : ZlibModel) (E : EncodingModel)
    (magic : Int) : Nat → Nat → List BNDEntry → List EntryHeaderDict
  | _, _, [] => []
  | poff, doff, e :: rest =>
      bnd4_dict_of R Z magic e poff doff ::
        bnd4_dicts_spec R Z E magic (poff + (packed_path_of R E magic e).length)
          (doff + 10 + (packed_data_of R Z e).length) rest

/-! ## Concrete instances of the external parameters, for evaluation -/

/-- A fresh `BND4()` instance (constructor defaults, lines 531-537 and
108-116). -/
def bnd4_new : BND4 := {}

/-- A concrete rule table with id, path enabled and a compression bit on
magic `0x41`; `header_size` agrees with the `BND4` entry-header layout, as
the real table does for valid magics. -/
def testRules : MagicRules where
  has_id := fun _ => true
  has_path := fun _ => true
  has_uncompressed_size := fun _ => false
  is_entry_compressed := fun m => m = 0x41
  is_big_endian := fun _ => false
  header_size := fun m => if m = 0x20 then 36 else 28

/-- A concrete rule table with neither ids nor paths. -/
def testRulesNoId : MagicRules where
  has_id := fun _ => false
  has_path := fun _ => false
  has_uncompressed_size := fun _ => false
  is_entry_compressed := fun _ => false
  is_big_endian := fun _ => false
  header_size := fun m => if m = 0x20 then 28 else 20

/-- A concrete invertible compression codec (two marker bytes). -/
def testZlib : ZlibModel where
  compress := fun d => 120 :: 156 :: d
  decompress := fun d =>
    if 2 ≤ d.length ∧ d.take 2 = [120, 156] then some (d.drop 2) else none

/-- A concrete single-byte text codec: code points are bytes, reading scans
to the next NUL. -/
def testEncoding : EncodingModel where
  encode := fun p => p.map Char.toNat
  read_str := fun buf off =>
    if (buf.drop off).contains 0 then
      some (((buf.drop off).takeWhile (fun b => b ≠ 0)).map (fun b => Char.ofNat b))
    else none

/-- The hashes of all entry paths, in entry order (paths assumed present;
`getD` is only a total stand-in for the `AttributeError` case that
`build_hash_table` itself rules out). -/
def entry_hashes (entries : List BNDEntry) : List Nat :=
  entries.map (fun e => path_hash (e.path.getD []))

/-- Bucket `g` after the in-place `hash_list.sort()`. -/
def sorted_bucket (gc : Nat) (hashes : List Nat) (g : Nat) : List (Nat × Nat) :=
  (bucket_spec gc hashes g).insertionSort pair_le

instance : IsTotal (Nat × Nat) pair_le where
  total := by
    intro a b
    unfold pair_le
    omega

instance : IsTrans (Nat × Nat) pair_le where
  trans := by
    intro a b c hab hbc
    unfold pair_le at hab hbc ⊢
    omega

/-!
# Theorems

Everything below is proof; no further definitions are introduced except
where a statement needs none.
-/

/-! ## Codec lemmas -/

theorem length_encLE (w v : Nat) : (encLE w v).length = w := by
  induction w generalizing v with
  | zero => rfl
  | succ w ih => simp [encLE, ih]

theorem decLE_encLE (w v : Nat) : decLE (encLE w v) = v % 2 ^ (8 * w) := by
  induction w generalizing v with
  | zero => simp [encLE, decLE, Nat.mod_one]
  | succ w ih =>
      simp only [encLE, decLE, ih]
      have hpow : 2 ^ (8 * (w + 1)) = 256 * 2 ^ (8 * w) := by
        rw [Nat.mul_succ, Nat.pow_add]
        norm_num [Nat.mul_comm]
      rw [hpow, Nat.mod_mul]

theorem length_encInt (w : Nat) (big : Bool) (v : Int) :
    (encInt w big v).length = w := by
  cases big <;> simp [encInt, length_encLE]

theorem length_encBool (b : Bool) : (encBool b).length = 1 := by
  cases b <;> rfl

theorem length_fixedBytes (n : Nat) (s : List Nat) (h : s.length ≤ n) :
    (fixedBytes n s).length = n := by
  simp [fixedBytes]
  omega

theorem length_padBytes (n : Nat) : (padBytes n).length = n := by
  simp [padBytes]

theorem decUInt_encInt (w : Nat) (big : Bool) (v : Int)
    (h0 : 0 ≤ v) (h1 : v < 2 ^ (8 * w)) :
    decUInt big (encInt w big v) = v.toNat := by
  have hmod : v % ((2 : Int) ^ (8 * w)) = v := by
    apply Int.emod_eq_of_lt h0 h1
  have hc : ((2 ^ (8 * w) : Nat) : Int) = (2 : Int) ^ (8 * w) := by
    push_cast; ring
  have hlt : v.toNat < 2 ^ (8 * w) := by
    omega
  cases big <;>
    simp [decUInt, encInt, hmod, List.reverse_reverse, decLE_encLE,
      Nat.mod_eq_of_lt hlt]

theorem decSInt_encInt (w : Nat) (big : Bool) (v : Int) (hw : 0 < w)
    (h0 : -(2 ^ (8 * w - 1)) ≤ v) (h1 : v < 2 ^ (8 * w - 1)) :
    decSInt w big (encInt w big v) = v := by
  obtain ⟨k, hk⟩ : ∃ k, 8 * w = k + 1 := ⟨8 * w - 1, by omega⟩
  have hk1 : 8 * w - 1 = k := by omega
  have hpow : (2 : Int) ^ (8 * w) = 2 ^ (8 * w - 1) * 2 := by
    rw [hk1, hk, pow_succ]
  have hpowN : (2 : Nat) ^ (8 * w) = 2 ^ (8 * w - 1) * 2 := by
    rw [hk1, hk, pow_succ]
  rcases le_or_lt 0 v with hpos | hneg
  · have hv1 : v < 2 ^ (8 * w) := by
      rw [hpow]; nlinarith [h1]
    have hdec := decUInt_encInt w big v hpos hv1
    have hlt : v.toNat < 2 ^ (8 * w - 1) := by
      have hcast : ((2 ^ (8 * w - 1) : Nat) : Int) = (2 : Int) ^ (8 * w - 1) := by
        push_cast; ring
      omega
    simp [decSInt, hdec, hlt]
    omega
  · have hmod : v % ((2 : Int) ^ (8 * w)) = v + 2 ^ (8 * w) := by
      have h2 : (0 : Int) < 2 ^ (8 * w) := by positivity
      have hshift : (v + 2 ^ (8 * w)) % (2 ^ (8 * w)) = v % 2 ^ (8 * w) := by
        simp [Int.add_mul_emod_self_left]
      rw [← hshift]
      apply Int.emod_eq_of_lt
      · rw [hpow]; nlinarith [h0]
      · omega
    have hvN : ((v % ((2 : Int) ^ (8 * w))).toNat) = (v + 2 ^ (8 * w)).toNat := by
      rw [hmod]
    have hcast : ((2 ^ (8 * w) : Nat) : Int) = (2 : Int) ^ (8 * w) := by
      push_cast; ring
    have hcast1 : ((2 ^ (8 * w - 1) : Nat) : Int) = (2 : Int) ^ (8 * w - 1) := by
      push_cast; ring
    have hlow : (2 : Int) ^ (8 * w - 1) ≤ v + 2 ^ (8 * w) := by
      rw [hpow]; nlinarith [h0]
    have hhigh : v + 2 ^ (8 * w) < 2 ^ (8 * w) := by omega
    have hltN : (v + 2 ^ (8 * w)).toNat < 2 ^ (8 * w) := by omega
    have hdec : decUInt big (encInt w big v) = (v + 2 ^ (8 * w)).toNat := by
      cases big <;>
        simp [decUInt, encInt, hvN, List.reverse_reverse, decLE_encLE,
          Nat.mod_eq_of_lt hltN]
    simp only [decSInt, hdec]
    rw [if_neg (by omega)]
    omega

theorem decBool_encBool (b : Bool) : decBool (encBool b) = b := by
  cases b <;> rfl

/-! ## Correctness of `is_prime` and the hash group count (claim C2) -/

theorem trial_div_complete (p i : Nat) (hp3 : 3 ≤ p) (hodd : p % 2 = 1)
    (hi : p / 2 ≤ i) (hinv : ∀ m, 1 < m → m < i → ¬ m ∣ p) : Nat.Prime p := by
  rw [Nat.prime_def_lt]
  refine ⟨by omega, ?_⟩
  intro m hm hdvd
  by_contra hne
  have hm0 : m ≠ 0 := by
    intro h0
    subst h0
    have := Nat.eq_zero_of_zero_dvd hdvd
    omega
  have h1 : 1 < m := by omega
  obtain ⟨k, hk⟩ := hdvd
  have hk2 : 2 ≤ k := by
    rcases Nat.lt_or_ge k 2 with hlt | hge
    · interval_cases k <;> omega
    · exact hge
  have hk3 : 3 ≤ k := by
    rcases Nat.lt_or_ge k 3 with hlt | hge
    · exfalso
      have hk2' : k = 2 := by omega
      subst hk2'
      omega
    · exact hge
  have h3m : 3 * m ≤ p := by nlinarith
  exact hinv m h1 (by omega) ⟨k, hk⟩

theorem is_prime_trial_correct (p : Nat) (hp3 : 3 ≤ p) (hodd : p % 2 = 1) :
    ∀ fuel i, 3 ≤ i → i % 2 = 1 → p / 2 ≤ i + 2 * fuel →
      (∀ m, 1 < m → m < i → ¬ m ∣ p) →
      (is_prime_trial p fuel i = true ↔ Nat.Prime p) := by
  intro fuel
  induction fuel with
  | zero =>
      intro i hi3 hiodd hfuel hinv
      simp only [is_prime_trial]
      exact iff_of_true trivial (trial_div_complete p i hp3 hodd (by omega) hinv)
  | succ fuel ih =>
      intro i hi3 hiodd hfuel hinv
      by_cases hlt : i < p / 2
      · by_cases hdvd : p % i = 0
        · have hres : is_prime_trial p (fuel + 1) i = false := by
            simp [is_prime_trial, hlt, hdvd]
          rw [hres]
          apply iff_of_false (by simp)
          intro hP
          have hidvd : i ∣ p := Nat.dvd_of_mod_eq_zero hdvd
          have := (Nat.Prime.eq_one_or_self_of_dvd hP i hidvd)
          omega
        · by_cases hsq : i * i > p
          · have hres : is_prime_trial p (fuel + 1) i = true := by
              simp [is_prime_trial, hlt, hdvd, hsq]
            rw [hres]
            apply iff_of_true rfl
            by_contra hnp
            have hq := Nat.minFac_dvd p
            have hqp : Nat.Prime p.minFac := Nat.minFac_prime (by omega)
            have hq1 : 1 < p.minFac := hqp.one_lt
            have hqs : p.minFac ^ 2 ≤ p := Nat.minFac_sq_le_self (by omega) hnp
            have hqi : p.minFac < i := by nlinarith [hqs]
            exact hinv p.minFac hq1 hqi hq
          · have hres : is_prime_trial p (fuel + 1) i = is_prime_trial p fuel (i + 2) := by
              simp [is_prime_trial, hlt, hdvd, hsq]
            rw [hres]
            apply ih (i + 2) (by omega) (by omega) (by omega)
            intro m hm1 hm2
            rcases Nat.lt_or_ge m i with hmi | hmi
            · exact hinv m hm1 hmi
            · rcases Nat.eq_or_lt_of_le hmi with hmi' | hmi'
              · subst hmi'
                intro hmd
                exact hdvd (Nat.dvd_iff_mod_eq_zero.mp hmd)
              · have hmeq : m = i + 1 := by omega
                subst hmeq
                intro hmd
                have h2m : 2 ∣ i + 1 := by omega
                have h2p : 2 ∣ p := h2m.trans hmd
                omega
      · have hres : is_prime_trial p (fuel + 1) i = true := by
          simp [is_prime_trial, hlt]
        rw [hres]
        exact iff_of_true rfl (trial_div_complete p i hp3 hodd (by omega) hinv)

theorem is_prime_correct (p : Nat) : is_prime p = true ↔ Nat.Prime p := by
  unfold is_prime
  by_cases h2 : p < 2
  · rw [if_pos h2]
    apply iff_of_false (by simp)
    intro hP
    have := hP.two_le
    omega
  · rw [if_neg h2]
    by_cases hp2 : p = 2
    · subst hp2
      simp [Nat.prime_two]
    · rw [if_neg hp2]
      by_cases heven : p % 2 = 0
      · rw [if_pos heven]
        apply iff_of_false (by simp)
        intro hP
        have hdvd : 2 ∣ p := Nat.dvd_of_mod_eq_zero heven
        have := Nat.Prime.eq_one_or_self_of_dvd hP 2 hdvd
        omega
      · rw [if_neg heven]
        apply is_prime_trial_correct p (by omega) (by omega) (p / 2) 3
          (by omega) (by omega) (by omega)
        intro m hm1 hm2
        have hmeq : m = 2 := by omega
        subst hmeq
        intro hdvd
        exact heven (Nat.dvd_iff_mod_eq_zero.mp hdvd)

theorem find_group_count_some (steps start q : Nat) (hq : Nat.Prime q)
    (h1 : start ≤ q) (h2 : q < start + steps) :
    ∃ g, find_group_count_from steps start = some g ∧ is_prime g = true ∧
      start ≤ g ∧ ∀ r, Nat.Prime r → start ≤ r → g ≤ r := by
  induction steps generalizing start with
  | zero => omega
  | succ steps ih =>
      by_cases hp : is_prime start = true
      · refine ⟨start, ?_, hp, le_refl _, ?_⟩
        · simp [find_group_count_from, hp]
        · intro r _ hr
          exact hr
      · have hne : start ≠ q := by
          intro h
          subst h
          exact hp ((is_prime_correct start).mpr hq)
        obtain ⟨g, hg1, hg2, hg3, hg4⟩ := ih (start + 1) (by omega) (by omega)
        refine ⟨g, ?_, hg2, by omega, ?_⟩
        · simp only [find_group_count_from]
          rw [if_neg (by simpa using hp)]
          exact hg1
        · intro r hr hrs
          rcases Nat.eq_or_lt_of_le hrs with h | h
          · exfalso
            apply hp
            rw [← h] at hr
            exact (is_prime_correct start).mpr hr
          · exact hg4 r hr (by omega)

/-- Claim C2 (confirmed): whenever the V4 hash table is rebuilt for `n`
entries (and the bounded prime search of the source can succeed, i.e.
`n / 7 ≤ 99991`, the largest prime below the hard-coded `100000` bound),
the chosen group count is the smallest prime that is at least `n / 7`
(Python floor division, as in `range(len(self._entries) // 7, 100000)`);
in the degenerate case `n < 7` the group count is 2, the smallest prime at
least 0. -/
theorem bnd4_hash_group_count_least (n : Nat) (h : n / 7 ≤ 99991) :
    ∃ g, hash_group_count n = some g ∧ Nat.Prime g ∧ n / 7 ≤ g ∧
      (∀ r, Nat.Prime r → n / 7 ≤ r → g ≤ r) ∧ (n < 7 → g = 2) := by
  have h99991 : Nat.Prime 99991 := by norm_num
  obtain ⟨g, hg1, hg2, hg3, hg4⟩ :=
    find_group_count_some (100000 - n / 7) (n / 7) 99991 h99991 h (by omega)
  refine ⟨g, hg1, (is_prime_correct g).mp hg2, hg3, hg4, ?_⟩
  intro hn7
  have hz : n / 7 = 0 := by omega
  have hle2 : g ≤ 2 := by
    have := hg4 2 Nat.prime_two (by omega)
    exact this
  have hge2 : 2 ≤ g := ((is_prime_correct g).mp hg2).two_le
  omega

/-- Witness for C2 at `n = 100`: the group count is 17, the smallest prime
at least `100 / 7 = 14`. -/
theorem bnd4_hash_group_count_least_witness :
    ∃ g, hash_group_count 100 = some g ∧ Nat.Prime g ∧ 100 / 7 ≤ g ∧
      (∀ r, Nat.Prime r → 100 / 7 ≤ r → g ≤ r) ∧ (100 < 7 → g = 2) :=
  bnd4_hash_group_count_least 100 (by norm_num)

/-! ## `path_hash` (claim C3) -/

theorem path_hash_loop_spec (l : List Char) :
    ∀ i h, path_hash_loop i h l =
      h + ((List.enumFrom i l).map (fun ic => ic.1 * 37 + ic.2.toNat)).sum := by
  induction l with
  | nil => intro i h; simp [path_hash_loop]
  | cons c cs ih =>
      intro i h
      simp only [path_hash_loop, List.enumFrom, List.map, List.sum_cons, ih]
      omega

theorem path_hash_eq_spec (p : List Char) : path_hash p = path_hash_spec p := by
  simp [path_hash, path_hash_spec, path_hash_loop_spec, List.enum]

/-- Counterexample for C3 as stated: the input `"\a"` does not start with a
forward slash, yet its hash differs from the hash of `"/\a"` (the
backslash normalisation makes `"\a"` start with `/` before the
prepend-check runs, while `"/\a"` keeps its extra slash). -/
theorem path_hash_prepend_counterexample :
    ['\\', 'a'].head? ≠ some '/' ∧
      path_hash ['\\', 'a'] ≠ path_hash ('/' :: ['\\', 'a']) := by
  constructor
  · decide
  · decide

/-- Claim C3 as amended: `path_hash` is the sum over 0-based positions of
`i * 37 + ord(char_i)` of the normalised string; `"/a/b"` and `"a\b"` hash
equal; and prepending a slash leaves the hash unchanged for every string
that starts with neither a forward slash nor a backslash (a leading
backslash already normalises to the leading slash, so the original
prepend-closure claim fails there). -/
theorem path_hash_amended :
    (∀ p, path_hash p = path_hash_spec p) ∧
    path_hash ['/', 'a', '/', 'b'] = path_hash ['a', '\\', 'b'] ∧
    (∀ p, p.head? ≠ some '/' → p.head? ≠ some '\\' →
      path_hash p = path_hash ('/' :: p)) := by
  refine ⟨path_hash_eq_spec, by decide, ?_⟩
  intro p h1 h2
  have hnorm : path_hash_normalize p = path_hash_normalize ('/' :: p) := by
    unfold path_hash_normalize
    cases p with
    | nil => decide
    | cons c cs =>
        have hc1 : c ≠ '/' := by
          intro h; apply h1; rw [h]; rfl
        have hc2 : c ≠ '\\' := by
          intro h; apply h2; rw [h]; rfl
        have hmap : (if c = '\\' then '/' else c) = c := if_neg hc2
        simp only [List.map, hmap, List.head?]
        rw [if_neg (by simp [hc1]), if_pos (by simp)]
        norm_num
  unfold path_hash
  rw [hnorm]

/-- Witness for the amended C3 on the input `"a"`. -/
theorem path_hash_amended_witness : path_hash ['a'] = path_hash ['/', 'a'] :=
  path_hash_amended.2.2 ['a'] (by decide) (by decide)

/-! ## `add_entry` (claim C6) -/

theorem entries_by_id_keys_ok (es : List BNDEntry) :
    ∀ acc, (acc ++ es.map (fun e => e.id)).Nodup →
      entries_by_id_keys acc es = .ok (acc ++ es.map (fun e => e.id)) := by
  induction es with
  | nil => intro acc _; simp [entries_by_id_keys]
  | cons e rest ih =>
      intro acc hnd
      have hmem : e.id ∉ acc := by
        intro hmem
        have : ¬ (acc ++ e.id :: rest.map (fun e => e.id)).Nodup := by
          intro hnd2
          have hdisj := List.disjoint_of_nodup_append hnd2
          exact hdisj hmem (by simp)
        exact this (by simpa using hnd)
      simp only [entries_by_id_keys, if_neg hmem]
      have := ih (acc ++ [e.id]) (by simpa using hnd)
      simpa using this

/-- Counterexample for C6 as stated: once the archive already holds two
entries sharing id 1 (each addition of which succeeded), adding a third
entry that is not a duplicate of anything — not even of an id — raises
`BNDError` from the `entries_by_id` property that `add_entry` consults. -/
theorem add_entry_counterexample :
    except_ok (add_entry [] (BNDEntry.mk [0] (some 1) none 64)) = true ∧
    except_ok (add_entry [BNDEntry.mk [0] (some 1) none 64]
      (BNDEntry.mk [1] (some 1) none 64)) = true ∧
    (BNDEntry.mk [2] (some 2) none 64) ∉
      [BNDEntry.mk [0] (some 1) none 64, BNDEntry.mk [1] (some 1) none 64] ∧
    except_ok (add_entry
      [BNDEntry.mk [0] (some 1) none 64, BNDEntry.mk [1] (some 1) none 64]
      (BNDEntry.mk [2] (some 2) none 64)) = false := by
  refine ⟨by decide, by decide, by decide, by decide⟩

/-- Claim C6 as amended: provided the existing entries have pairwise
distinct ids (the state every `add_entry`-built archive is in until the
first duplicate id is admitted), `add_entry` fails exactly on a full
`(id, path, magic, data)` duplicate, and an entry that merely duplicates
an id succeeds with the logged warning. -/
theorem add_entry_amended (entries : List BNDEntry) (e : BNDEntry)
    (hnd : (entries.map (fun x => x.id)).Nodup) :
    (except_ok (add_entry entries e) = false ↔ e ∈ entries) ∧
    (e ∉ entries →
      add_entry entries e =
        .ok (entries ++ [e], e.id ∈ entries.map (fun x => x.id))) := by
  have hkeys := entries_by_id_keys_ok entries [] (by simpa using hnd)
  constructor
  · constructor
    · intro hfail
      by_contra hmem
      rw [add_entry, if_neg hmem] at hfail
      simp only at hkeys
      rw [hkeys] at hfail
      simp [except_ok] at hfail
    · intro hmem
      rw [add_entry, if_pos hmem]
      rfl
  · intro hmem
    rw [add_entry, if_neg hmem]
    simp only at hkeys
    rw [hkeys]
    simp

/-- Witness for the amended C6: one entry with id 1 present, adding a
different entry with the same id succeeds and sets the warning flag. -/
theorem add_entry_amended_witness :
    (except_ok (add_entry [BNDEntry.mk [0] (some 1) none 64]
        (BNDEntry.mk [1] (some 1) none 64)) = false ↔
      BNDEntry.mk [1] (some 1) none 64 ∈ [BNDEntry.mk [0] (some 1) none 64]) ∧
    (BNDEntry.mk [1] (some 1) none 64 ∉ [BNDEntry.mk [0] (some 1) none 64] →
      add_entry [BNDEntry.mk [0] (some 1) none 64]
          (BNDEntry.mk [1] (some 1) none 64) =
        .ok ([BNDEntry.mk [0] (some 1) none 64, BNDEntry.mk [1] (some 1) none 64],
          (some 1 : Option Int) ∈
            [BNDEntry.mk [0] (some 1) none 64].map (fun x => x.id))) :=
  add_entry_amended [BNDEntry.mk [0] (some 1) none 64]
    (BNDEntry.mk [1] (some 1) none 64) (by decide)

/-! ## Hash-table serialisation (claim C8) -/

theorem map_getD_range {α : Type} (ls : List α) (d : α) :
    (List.range ls.length).map (fun g => ls.getD g d) = ls := by
  induction ls with
  | nil => rfl
  | cons x xs ih =>
      simp only [List.length_cons, List.range_succ_eq_map, List.map_cons,
        List.getD_cons_zero, List.map_map]
      have htail : List.map ((fun g => (x :: xs).getD g d) ∘ Nat.succ)
          (List.range xs.length) =
          List.map (fun g => xs.getD g d) (List.range xs.length) := by
        apply List.map_congr_left
        intro a _
        simp [List.getD_cons_succ, Nat.succ_eq_add_one]
      rw [htail, ih]

theorem getD_set_self {α : Type} (ls : List α) (k : Nat) (x : α) (d : α)
    (h : k < ls.length) : (ls.set k x).getD k d = x := by
  rw [List.getD_eq_getElem?_getD, List.getElem?_set_self h]
  rfl

theorem getD_set_ne {α : Type} (ls : List α) (k g : Nat) (x : α) (d : α)
    (h : k ≠ g) : (ls.set k x).getD g d = ls.getD g d := by
  rw [List.getD_eq_getElem?_getD, List.getElem?_set_ne h,
    ← List.getD_eq_getElem?_getD]

theorem getD_map_range {α : Type} (f : Nat → α) (gc g : Nat) (d : α)
    (h : g < gc) : ((List.range gc).map f).getD g d = f g := by
  rw [List.getD_eq_getElem?_getD, List.getElem?_map, List.getElem?_range h]
  rfl

theorem build_hash_lists_spec (gc : Nat) (hgc : 0 < gc) :
    ∀ (hs : List Nat) (i : Nat) (ls : List (List (Nat × Nat))),
      ls.length = gc →
      build_hash_lists gc hs i ls = (List.range gc).map (fun g =>
        ls.getD g [] ++
          ((List.enumFrom i hs).map (fun ih => (ih.2, ih.1))).filter
            (fun hi => hi.1 % gc = g)) := by
  intro hs
  induction hs with
  | nil =>
      intro i ls hlen
      simp only [build_hash_lists, List.enumFrom, List.map, List.filter,
        List.append_nil]
      rw [← hlen, map_getD_range]
  | cons h rest ih =>
      intro i ls hlen
      have hk : h % gc < gc := Nat.mod_lt _ hgc
      simp only [build_hash_lists]
      rw [ih (i + 1) _ (by simpa using hlen)]
      apply List.map_congr_left
      intro g hg
      have hglt : g < gc := List.mem_range.mp hg
      by_cases hcase : h % gc = g
      · subst hcase
        rw [getD_set_self _ _ _ _ (by omega)]
        simp [List.enumFrom, List.filter_cons, List.append_assoc]
      · rw [getD_set_ne _ _ _ _ _ hcase]
        simp [List.enumFrom, List.filter_cons, hcase]

theorem build_groups_spec :
    ∀ (lists : List (List (Nat × Nat))) (total : Nat),
      build_groups lists total =
        ((List.range lists.length).map (fun g =>
            HashGroupRec.mk (total + ((lists.take g).map List.length).sum)
              ((lists.getD g []).length)),
          lists.flatten) := by
  intro lists
  induction lists with
  | nil => intro total; simp [build_groups]
  | cons l rest ih =>
      intro total
      have h1 : (List.range (l :: rest).length).map (fun g =>
          HashGroupRec.mk (total + (((l :: rest).take g).map List.length).sum)
            (((l :: rest).getD g []).length)) =
          HashGroupRec.mk total l.length ::
            (List.range rest.length).map (fun g =>
              HashGroupRec.mk ((total + l.length) + ((rest.take g).map List.length).sum)
                ((rest.getD g []).length)) := by
        simp only [List.length_cons, List.range_succ_eq_map, List.map_cons,
          List.map_map, List.take_zero, List.map_nil, List.sum_nil,
          Nat.add_zero, List.getD_cons_zero]
        have htail : List.map ((fun g =>
            HashGroupRec.mk (total + (((l :: rest).take g).map List.length).sum)
              (((l :: rest).getD g []).length)) ∘ Nat.succ)
            (List.range rest.length) =
            List.map (fun g =>
              HashGroupRec.mk ((total + l.length) + ((rest.take g).map List.length).sum)
                ((rest.getD g []).length)) (List.range rest.length) := by
          apply List.map_congr_left
          intro g _
          simp only [Function.comp_apply, Nat.succ_eq_add_one,
            List.take_succ_cons, List.map_cons, List.sum_cons,
            List.getD_cons_succ]
          congr 1
          omega
        rw [htail]
      simp only [build_groups, ih, List.flatten_cons, Prod.mk.injEq]
      refine ⟨by rw [h1], by simp⟩

theorem mapM_path_ok (es : List BNDEntry) (hp : ∀ e ∈ es, e.path ≠ none) :
    es.mapM (fun e =>
        match e.path with
        | none => Except.error "AttributeError: NoneType has no attribute replace"
        | some p => Except.ok p) =
      (Except.ok (es.map (fun e => e.path.getD [])) :
        Except String (List (List Char))) := by
  induction es with
  | nil => rfl
  | cons e rest ih =>
      have hep := hp e (by simp)
      match hpath : e.path with
      | none => exact absurd hpath hep
      | some p =>
          have hrest := ih (fun x hx => hp x (by simp [hx]))
          simp only [List.mapM_cons, hpath, List.map_cons, hpath]
          rw [show (Option.some p).getD [] = p from rfl]
          simp only [bind, Except.bind, hrest]
          rfl

/-- Counterexample for C8 as stated: for a one-entry archive the table the
code emits differs from the table described by the claim, because
`HASH_GROUP_STRUCT` declares (and therefore writes) each group record as
`(length, index)`, not `(start_index, length)`. -/
theorem bnd4_hash_table_layout_counterexample :
    (build_hash_table [BNDEntry.mk [] (some 0) (some ['a']) 64]).toOption ≠
      (build_hash_table_claim [BNDEntry.mk [] (some 0) (some ['a']) 64]).toOption ∧
    except_ok (build_hash_table [BNDEntry.mk [] (some 0) (some ['a']) 64]) = true := by
  refine ⟨by decide, by decide⟩

/-- Claim C8 as amended: the serialised hash table is the header record
(8 pad bytes, the self-relative offset `24 + 8·group_count` of the
path-hash array, the group count, the constant tag `0x00080810`), then one
record per group written as `(length, start_index)` — length first — where
`start_index` is the sum of the sizes of the earlier buckets, then the
flattened bucket-ordered `(hashed_value, entry_index)` array; each bucket
holds the entries with `hash % group_count` equal to its index and is a
permutation of its entry-ordered contents sorted ascending by the
lexicographic pair order (hash first, original index breaking ties). -/
theorem bnd4_hash_table_layout (entries : List BNDEntry) (gc : Nat)
    (hgc : hash_group_count entries.length = some gc) (hgc0 : 0 < gc)
    (hp : ∀ e ∈ entries, e.path ≠ none) :
    build_hash_table entries = .ok
      (pack_hash_table_header gc
        ++ ((List.range gc).map (fun g =>
              encInt 4 false ((sorted_bucket gc (entry_hashes entries) g).length : Int)
              ++ encInt 4 false ((bucket_start gc (entry_hashes entries) g : Nat) : Int))).flatten
        ++ ((List.range gc).map (fun g =>
              ((sorted_bucket gc (entry_hashes entries) g).map pack_path_hash).flatten)).flatten) ∧
    (∀ g, (sorted_bucket gc (entry_hashes entries) g).Perm
        (bucket_spec gc (entry_hashes entries) g)) ∧
    (∀ g, (sorted_bucket gc (entry_hashes entries) g).Sorted pair_le) := by
  refine ⟨?_, fun g => List.perm_insertionSort pair_le _,
    fun g => List.sorted_insertionSort pair_le _⟩
  have hpaths := mapM_path_ok entries hp
  have hgb : ∀ lists : List (List (Nat × Nat)),
      ((build_groups lists 0).1.map pack_hash_group).flatten =
        ((List.range lists.length).map (fun g =>
          encInt 4 false (((lists.getD g []).length : Nat) : Int) ++
            encInt 4 false ((((lists.take g).map List.length).sum : Nat) : Int))).flatten := by
    intro lists
    rw [build_groups_spec, List.map_map]
    refine congrArg List.flatten (List.map_congr_left ?_)
    intro g _
    simp [pack_hash_group]
  have hpb : ∀ lists : List (List (Nat × Nat)),
      ((build_groups lists 0).2.map pack_path_hash).flatten =
        (lists.map (fun l => (l.map pack_path_hash).flatten)).flatten := by
    intro lists
    rw [build_groups_spec]
    show ((lists.flatten).map pack_path_hash).flatten = _
    rw [List.map_flatten, List.flatten_flatten, List.map_map]
    rfl
  simp only [build_hash_table, hgc, bind, Except.bind, hpaths]
  have hhashes : List.map path_hash (entries.map (fun e => e.path.getD [])) =
      entry_hashes entries := by
    rw [entry_hashes, List.map_map]
    rfl
  rw [hhashes]
  rw [build_hash_lists_spec gc hgc0 (entry_hashes entries) 0
    (List.replicate gc []) (by simp)]
  have hbspec : (List.range gc).map (fun g =>
      (List.replicate gc ([] : List (Nat × Nat))).getD g [] ++
        ((List.enumFrom 0 (entry_hashes entries)).map
            (fun ih => (ih.2, ih.1))).filter (fun hi => hi.1 % gc = g)) =
      (List.range gc).map (fun g => bucket_spec gc (entry_hashes entries) g) := by
    apply List.map_congr_left
    intro g _
    have hrep : (List.replicate gc ([] : List (Nat × Nat))).getD g [] = [] := by
      rw [List.getD_eq_getElem?_getD, List.getElem?_replicate]
      split <;> rfl
    rw [hrep, List.nil_append]
    rfl
  rw [hbspec]
  have hmm : ((List.range gc).map
      (fun g => bucket_spec gc (entry_hashes entries) g)).map
        (List.insertionSort pair_le) =
      (List.range gc).map (fun g => sorted_bucket gc (entry_hashes entries) g) := by
    rw [List.map_map]
    rfl
  rw [hmm, hgb, hpb]
  have hlen2 : ((List.range gc).map
      (fun g => sorted_bucket gc (entry_hashes entries) g)).length = gc := by
    simp
  rw [hlen2]
  refine congrArg Except.ok ?_
  have hA : (List.range gc).map (fun g =>
      encInt 4 false (((((List.range gc).map
          (fun g => sorted_bucket gc (entry_hashes entries) g)).getD g []).length : Nat) : Int) ++
        encInt 4 false ((((((List.range gc).map
          (fun g => sorted_bucket gc (entry_hashes entries) g)).take g).map
            List.length).sum : Nat) : Int)) =
      (List.range gc).map (fun g =>
        encInt 4 false ((sorted_bucket gc (entry_hashes entries) g).length : Int)
        ++ encInt 4 false ((bucket_start gc (entry_hashes entries) g : Nat) : Int)) := by
    apply List.map_congr_left
    intro g hg
    have hglt : g < gc := List.mem_range.mp hg
    rw [getD_map_range _ _ _ _ hglt]
    have htake : ((((List.range gc).map
        (fun g => sorted_bucket gc (entry_hashes entries) g)).take g).map
          List.length).sum = bucket_start gc (entry_hashes entries) g := by
      rw [← List.map_take, List.take_range, Nat.min_eq_left (le_of_lt hglt),
        List.map_map]
      unfold bucket_start
      refine congrArg List.sum (List.map_congr_left ?_)
      intro g2 _
      simp only [Function.comp_apply]
      exact (List.perm_insertionSort pair_le _).length_eq
    rw [htake]
  have hB : ((List.range gc).map
      (fun g => sorted_bucket gc (entry_hashes entries) g)).map
        (fun l => (l.map pack_path_hash).flatten) =
      (List.range gc).map (fun g =>
        ((sorted_bucket gc (entry_hashes entries) g).map pack_path_hash).flatten) := by
    rw [List.map_map]
    rfl
  rw [hA, hB]

/-- Witness for the amended C8 on a two-entry archive. -/
theorem bnd4_hash_table_layout_witness :
    build_hash_table
        [BNDEntry.mk [] (some 0) (some ['a']) 64,
         BNDEntry.mk [] (some 1) (some ['b']) 64] = .ok
      (pack_hash_table_header 2
        ++ ((List.range 2).map (fun g =>
              encInt 4 false ((sorted_bucket 2 (entry_hashes
                  [BNDEntry.mk [] (some 0) (some ['a']) 64,
                   BNDEntry.mk [] (some 1) (some ['b']) 64]) g).length : Int)
              ++ encInt 4 false ((bucket_start 2 (entry_hashes
                  [BNDEntry.mk [] (some 0) (some ['a']) 64,
                   BNDEntry.mk [] (some 1) (some ['b']) 64]) g : Nat) : Int))).flatten
        ++ ((List.range 2).map (fun g =>
              ((sorted_bucket 2 (entry_hashes
                  [BNDEntry.mk [] (some 0) (some ['a']) 64,
                   BNDEntry.mk [] (some 1) (some ['b']) 64]) g).map pack_path_hash).flatten)).flatten) ∧
    (∀ g, (sorted_bucket 2 (entry_hashes
        [BNDEntry.mk [] (some 0) (some ['a']) 64,
         BNDEntry.mk [] (some 1) (some ['b']) 64]) g).Perm
      (bucket_spec 2 (entry_hashes
        [BNDEntry.mk [] (some 0) (some ['a']) 64,
         BNDEntry.mk [] (some 1) (some ['b']) 64]) g)) ∧
    (∀ g, (sorted_bucket 2 (entry_hashes
        [BNDEntry.mk [] (some 0) (some ['a']) 64,
         BNDEntry.mk [] (some 1) (some ['b']) 64]) g).Sorted pair_le) :=
  bnd4_hash_table_layout
    [BNDEntry.mk [] (some 0) (some ['a']) 64,
     BNDEntry.mk [] (some 1) (some ['b']) 64] 2 (by decide) (by decide)
    (by decide)

/-! ## Characterisation of the pack loops -/

theorem except_bind_ok_iff {ε α β : Type} (x : Except ε α) (f : α → Except ε β)
    (r : β) : (x >>= f = Except.ok r) ↔ ∃ a, x = Except.ok a ∧ f a = Except.ok r := by
  cases x <;> simp [bind, Except.bind]

theorem eid_branch_ok (R : MagicRules) (magic : Int) (e : BNDEntry)
    (eid : Option Int)
    (h : (if R.has_id magic then
            match e.id with
            | none => Except.error "struct error: required argument is not an integer"
            | some i => Except.ok (some i)
          else Except.ok (none : Option Int)) = Except.ok eid) :
    eid = (if R.has_id magic then e.id else none) ∧
      (R.has_id magic = true → e.id ≠ none) := by
  by_cases hid : R.has_id magic
  · rw [if_pos hid] at h
    rw [if_pos hid]
    match he : e.id with
    | none => rw [he] at h; exact absurd h (by simp)
    | some i =>
        rw [he] at h
        refine ⟨by injection h with h2; rw [← h2], by simp⟩
  · rw [if_neg hid] at h
    rw [if_neg hid]
    refine ⟨by injection h with h2; rw [← h2], fun hc => absurd hc hid⟩

theorem pp_branch_ok (R : MagicRules) (E : EncodingModel) (magic : Int)
    (e : BNDEntry) (pp : List Nat)
    (h : (if R.has_path magic then get_packed_path E e
          else Except.ok ([] : List Nat)) = Except.ok pp) :
    pp = packed_path_of R E magic e ∧ (R.has_path magic = true → e.path ≠ none) := by
  by_cases hp : R.has_path magic
  · rw [if_pos hp] at h
    unfold packed_path_of
    rw [if_pos hp]
    match he : e.path with
    | none => rw [get_packed_path, he] at h; exact absurd h (by simp)
    | some p =>
        rw [get_packed_path, he] at h
        refine ⟨?_, by simp [he]⟩
        injection h with h2
        rw [← h2]
        rfl
  · rw [if_neg hp] at h
    unfold packed_path_of
    rw [if_neg hp]
    refine ⟨by injection h with h2; rw [← h2], fun hc => absurd hc hp⟩

theorem compressed_size_eq (R : MagicRules) (Z : ZlibModel) (e : BNDEntry) :
    (if (get_data_for_pack R Z e).2 then ((get_data_for_pack R Z e).1.length : Int)
      else (e.data.length : Int)) = ((packed_data_of R Z e).length : Int) := by
  unfold get_data_for_pack packed_data_of
  by_cases hc : R.is_entry_compressed e.magic <;> simp [hc, get_data_for_pack]

theorem bnd3_entry_loop_ok (R : MagicRules) (Z : ZlibModel) (E : EncodingModel)
    (magic : Int) :
    ∀ (es : List BNDEntry) (poff doff : Nat) dicts paths data,
      bnd3_entry_loop R Z E magic poff doff es = .ok (dicts, paths, data) →
      dicts = bnd3_dicts_spec R Z E magic poff doff es ∧
      paths = (es.map (packed_path_of R E magic)).flatten ∧
      data = (es.map (packed_data_of R Z)).flatten ∧
      (∀ e ∈ es, (R.has_id magic = true → e.id ≠ none) ∧
        (R.has_path magic = true → e.path ≠ none)) := by
  intro es
  induction es with
  | nil =>
      intro poff doff dicts paths data h
      rw [bnd3_entry_loop] at h
      have h2 := Except.ok.inj h
      simp only [Prod.mk.injEq] at h2
      obtain ⟨h1, h2b, h3⟩ := h2
      subst h1; subst h2b; subst h3
      exact ⟨rfl, rfl, rfl, by simp⟩
  | cons e rest ih =>
      intro poff doff dicts paths data h
      rw [bnd3_entry_loop] at h
      obtain ⟨eid, heid, h⟩ := (except_bind_ok_iff _ _ _).mp h
      obtain ⟨pp, hpp, h⟩ := (except_bind_ok_iff _ _ _).mp h
      obtain ⟨res, hres, h⟩ := (except_bind_ok_iff _ _ _).mp h
      obtain ⟨heidv, heidc⟩ := eid_branch_ok R magic e eid heid
      obtain ⟨hppv, hppc⟩ := pp_branch_ok R E magic e pp hpp
      obtain ⟨hdicts, hpaths, hdata, hconds⟩ :=
        ih (poff + pp.length) (doff + (get_data_for_pack R Z e).1.length)
          res.1 res.2.1 res.2.2 hres
      have h2 := Except.ok.inj h
      simp only [Prod.mk.injEq] at h2
      obtain ⟨hd, hpth, hdat⟩ := h2
      subst hd; subst hpth; subst hdat
      rw [hppv] at hdicts
      rw [show (get_data_for_pack R Z e).1.length =
        (packed_data_of R Z e).length from rfl] at hdicts
      refine ⟨?_, ?_, ?_, ?_⟩
      · rw [bnd3_dicts_spec, ← hdicts]
        have hsz := compressed_size_eq R Z e
        simp [bnd3_dict_of, hsz, heidv]
      · rw [hppv, hpaths]
        simp [List.flatten_cons]
      · rw [hdata]
        simp [List.flatten_cons, packed_data_of]
      · intro x hx
        rcases List.mem_cons.mp hx with hx1 | hx2
        · subst hx1; exact ⟨heidc, hppc⟩
        · exact hconds x hx2

theorem bnd4_entry_loop_ok (R : MagicRules) (Z : ZlibModel) (E : EncodingModel)
    (magic : Int) :
    ∀ (es : List BNDEntry) (poff doff : Nat) dicts paths data,
      bnd4_entry_loop R Z E magic poff doff es = .ok (dicts, paths, data) →
      dicts = bnd4_dicts_spec R Z E magic poff doff es ∧
      paths = (es.map (packed_path_of R E magic)).flatten ∧
      data = (es.map (fun e => padBytes 10 ++ packed_data_of R Z e)).flatten ∧
      (∀ e ∈ es, (R.has_id magic = true → e.id ≠ none) ∧
        (R.has_path magic = true → e.path ≠ none)) := by
  intro es
  induction es with
  | nil =>
      intro poff doff dicts paths data h
      rw [bnd4_entry_loop] at h
      have h2 := Except.ok.inj h
      simp only [Prod.mk.injEq] at h2
      obtain ⟨h1, h2b, h3⟩ := h2
      subst h1; subst h2b; subst h3
      exact ⟨rfl, rfl, rfl, by simp⟩
  | cons e rest ih =>
      intro poff doff dicts paths data h
      rw [bnd4_entry_loop] at h
      obtain ⟨eid, heid, h⟩ := (except_bind_ok_iff _ _ _).mp h
      obtain ⟨pp, hpp, h⟩ := (except_bind_ok_iff _ _ _).mp h
      obtain ⟨res, hres, h⟩ := (except_bind_ok_iff _ _ _).mp h
      obtain ⟨heidv, heidc⟩ := eid_branch_ok R magic e eid heid
      obtain ⟨hppv, hppc⟩ := pp_branch_ok R E magic e pp hpp
      obtain ⟨hdicts, hpaths, hdata, hconds⟩ :=
        ih (poff + pp.length) (doff + 10 + (get_data_for_pack R Z e).1.length)
          res.1 res.2.1 res.2.2 hres
      have h2 := Except.ok.inj h
      simp only [Prod.mk.injEq] at h2
      obtain ⟨hd, hpth, hdat⟩ := h2
      subst hd; subst hpth; subst hdat
      rw [hppv] at hdicts
      rw [show (get_data_for_pack R Z e).1.length =
        (packed_data_of R Z e).length from rfl] at hdicts
      refine ⟨?_, ?_, ?_, ?_⟩
      · rw [bnd4_dicts_spec, ← hdicts]
        have hsz := compressed_size_eq R Z e
        simp [bnd4_dict_of, hsz, heidv]
      · rw [hppv, hpaths]
        simp [List.flatten_cons]
      · rw [hdata]
        simp [List.flatten_cons, packed_data_of, List.append_assoc]
      · intro x hx
        rcases List.mem_cons.mp hx with hx1 | hx2
        · subst hx1; exact ⟨heidc, hppc⟩
        · exact hconds x hx2

theorem bnd3_entry_loop_succeeds (R : MagicRules) (Z : ZlibModel)
    (E : EncodingModel) (magic : Int) :
    ∀ (es : List BNDEntry) (poff doff : Nat),
      (∀ e ∈ es, (R.has_id magic = true → e.id ≠ none) ∧
        (R.has_path magic = true → e.path ≠ none)) →
      bnd3_entry_loop R Z E magic poff doff es = .ok
        (bnd3_dicts_spec R Z E magic poff doff es,
         (es.map (packed_path_of R E magic)).flatten,
         (es.map (packed_data_of R Z)).flatten) := by
  intro es
  induction es with
  | nil => intro poff doff _; rw [bnd3_entry_loop]; rfl
  | cons e rest ih =>
      intro poff doff hcond
      have he := hcond e (by simp)
      have heid : (if R.has_id magic then
            match e.id with
            | none => Except.error "struct error: required argument is not an integer"
            | some i => Except.ok (some i)
          else Except.ok (none : Option Int)) =
          Except.ok (if R.has_id magic then e.id else none) := by
        by_cases hid : R.has_id magic
        · rw [if_pos hid, if_pos hid]
          match he2 : e.id with
          | none => exact absurd he2 (he.1 hid)
          | some i => rfl
        · rw [if_neg hid, if_neg hid]
      have hpp : (if R.has_path magic then get_packed_path E e
            else Except.ok ([] : List Nat)) =
          Except.ok (packed_path_of R E magic e) := by
        by_cases hp : R.has_path magic
        · rw [if_pos hp]
          unfold packed_path_of
          rw [if_pos hp]
          match he2 : e.path with
          | none => exact absurd he2 (he.2 hp)
          | some p => rw [get_packed_path, he2]; rfl
        · rw [if_neg hp]
          unfold packed_path_of
          rw [if_neg hp]
      rw [bnd3_entry_loop]
      simp only [heid, hpp, bind, Except.bind]
      rw [ih (poff + (packed_path_of R E magic e).length)
        (doff + (get_data_for_pack R Z e).1.length)
        (fun x hx => hcond x (by simp [hx]))]
      have hsz := compressed_size_eq R Z e
      simp [bind, Except.bind, bnd3_dicts_spec, bnd3_dict_of, hsz,
        packed_data_of, List.flatten_cons]

theorem bnd4_entry_loop_succeeds (R : MagicRules) (Z : ZlibModel)
    (E : EncodingModel) (magic : Int) :
    ∀ (es : List BNDEntry) (poff doff : Nat),
      (∀ e ∈ es, (R.has_id magic = true → e.id ≠ none) ∧
        (R.has_path magic = true → e.path ≠ none)) →
      bnd4_entry_loop R Z E magic poff doff es = .ok
        (bnd4_dicts_spec R Z E magic poff doff es,
         (es.map (packed_path_of R E magic)).flatten,
         (es.map (fun e => padBytes 10 ++ packed_data_of R Z e)).flatten) := by
  intro es
  induction es with
  | nil => intro poff doff _; rw [bnd4_entry_loop]; rfl
  | cons e rest ih =>
      intro poff doff hcond
      have he := hcond e (by simp)
      have heid : (if R.has_id magic then
            match e.id with
            | none => Except.error "struct error: required argument is not an integer"
            | some i => Except.ok (some i)
          else Except.ok (none : Option Int)) =
          Except.ok (if R.has_id magic then e.id else none) := by
        by_cases hid : R.has_id magic
        · rw [if_pos hid, if_pos hid]
          match he2 : e.id with
          | none => exact absurd he2 (he.1 hid)
          | some i => rfl
        · rw [if_neg hid, if_neg hid]
      have hpp : (if R.has_path magic then get_packed_path E e
            else Except.ok ([] : List Nat)) =
          Except.ok (packed_path_of R E magic e) := by
        by_cases hp : R.has_path magic
        · rw [if_pos hp]
          unfold packed_path_of
          rw [if_pos hp]
          match he2 : e.path with
          | none => exact absurd he2 (he.2 hp)
          | some p => rw [get_packed_path, he2]; rfl
        · rw [if_neg hp]
          unfold packed_path_of
          rw [if_neg hp]
      rw [bnd4_entry_loop]
      simp only [heid, hpp, bind, Except.bind]
      rw [ih (poff + (packed_path_of R E magic e).length)
        (doff + 10 + (get_data_for_pack R Z e).1.length)
        (fun x hx => hcond x (by simp [hx]))]
      have hsz := compressed_size_eq R Z e
      simp [bind, Except.bind, bnd4_dicts_spec, bnd4_dict_of, hsz,
        packed_data_of, List.flatten_cons, List.append_assoc]

/-! ## V4 data padding (claim C9) -/

theorem bnd4_dicts_spec_step (R : MagicRules) (Z : ZlibModel) (E : EncodingModel)
    (magic : Int) :
    ∀ (es : List BNDEntry) (poff doff i : Nat), i + 1 < es.length →
      ((bnd4_dicts_spec R Z E magic poff doff es).getD (i + 1)
          ⟨0, 0, 0, none, none, none⟩).data_offset =
        ((bnd4_dicts_spec R Z E magic poff doff es).getD i
            ⟨0, 0, 0, none, none, none⟩).data_offset +
          ((packed_data_of R Z (es.getD i ⟨[], none, none, 0⟩)).length : Int) + 10 := by
  intro es
  induction es with
  | nil => intro poff doff i h; simp at h
  | cons e rest ih =>
      intro poff doff i h
      cases i with
      | zero =>
          cases rest with
          | nil => simp at h
          | cons e2 rest2 =>
              simp only [bnd4_dicts_spec, bnd4_dict_of, List.getD_cons_zero,
                List.getD_cons_succ]
              push_cast
              ring
      | succ j =>
          have hj : j + 1 < rest.length := by
            simp only [List.length_cons] at h
            omega
          have := ih (poff + (packed_path_of R E magic e).length)
            (doff + 10 + (packed_data_of R Z e).length) j hj
          simpa [bnd4_dicts_spec, List.getD_cons_succ] using this

/-- Claim C9 (confirmed): in the V4 pack loop the entries' data are not
contiguous — a fixed run of ten zero pad bytes precedes every entry's data
in the data section, and for every pair of consecutive entries the second
entry's recorded data offset is ten bytes past the end of the first
entry's data. -/
theorem bnd4_pack_ten_byte_padding (R : MagicRules) (Z : ZlibModel)
    (E : EncodingModel) (magic : Int) (es : List BNDEntry) (poff doff : Nat)
    (dicts : List EntryHeaderDict) (paths data : List Nat)
    (h : bnd4_entry_loop R Z E magic poff doff es = .ok (dicts, paths, data)) :
    data = (es.map (fun e => padBytes 10 ++ packed_data_of R Z e)).flatten ∧
    ∀ i, i + 1 < es.length →
      (dicts.getD (i + 1) ⟨0, 0, 0, none, none, none⟩).data_offset =
        (dicts.getD i ⟨0, 0, 0, none, none, none⟩).data_offset +
          ((packed_data_of R Z (es.getD i ⟨[], none, none, 0⟩)).length : Int) + 10 := by
  obtain ⟨hdicts, _, hdata, _⟩ := bnd4_entry_loop_ok R Z E magic es poff doff
    dicts paths data h
  subst hdicts
  exact ⟨hdata, fun i hi => bnd4_dicts_spec_step R Z E magic es poff doff i hi⟩

/-- Witness for C9 on a concrete two-entry archive. -/
theorem bnd4_pack_ten_byte_padding_witness :
    ([padBytes 10 ++ packed_data_of testRulesNoId testZlib
        (BNDEntry.mk [1, 2] (some 0) none 64),
      padBytes 10 ++ packed_data_of testRulesNoId testZlib
        (BNDEntry.mk [3] (some 1) none 64)].flatten =
      ([BNDEntry.mk [1, 2] (some 0) none 64,
        BNDEntry.mk [3] (some 1) none 64].map
          (fun e => padBytes 10 ++ packed_data_of testRulesNoId testZlib e)).flatten) ∧
    ∀ i, i + 1 < ([BNDEntry.mk [1, 2] (some 0) none 64,
        BNDEntry.mk [3] (some 1) none 64] : List BNDEntry).length →
      ((bnd4_dicts_spec testRulesNoId testZlib testEncoding 64 0 0
          [BNDEntry.mk [1, 2] (some 0) none 64,
           BNDEntry.mk [3] (some 1) none 64]).getD (i + 1)
          ⟨0, 0, 0, none, none, none⟩).data_offset =
        ((bnd4_dicts_spec testRulesNoId testZlib testEncoding 64 0 0
            [BNDEntry.mk [1, 2] (some 0) none 64,
             BNDEntry.mk [3] (some 1) none 64]).getD i
            ⟨0, 0, 0, none, none, none⟩).data_offset +
          ((packed_data_of testRulesNoId testZlib
            ([BNDEntry.mk [1, 2] (some 0) none 64,
              BNDEntry.mk [3] (some 1) none 64].getD i
                ⟨[], none, none, 0⟩)).length : Int) + 10 := by
  have h := bnd4_pack_ten_byte_padding testRulesNoId testZlib testEncoding 64
    [BNDEntry.mk [1, 2] (some 0) none 64, BNDEntry.mk [3] (some 1) none 64]
    0 0
    (bnd4_dicts_spec testRulesNoId testZlib testEncoding 64 0 0
      [BNDEntry.mk [1, 2] (some 0) none 64, BNDEntry.mk [3] (some 1) none 64])
    (([BNDEntry.mk [1, 2] (some 0) none 64,
       BNDEntry.mk [3] (some 1) none 64].map
        (packed_path_of testRulesNoId testEncoding 64)).flatten)
    (([BNDEntry.mk [1, 2] (some 0) none 64,
       BNDEntry.mk [3] (some 1) none 64].map
        (fun e => padBytes 10 ++ packed_data_of testRulesNoId testZlib e)).flatten)
    (by decide)
  exact ⟨h.1 ▸ rfl, h.2⟩

/-! ## Pack leaves entries unmodified (claim C10) -/

theorem bnd3_sorted_entries_ok (entries sorted : List BNDEntry)
    (h : bnd3_sorted_entries entries = .ok sorted) :
    sorted = entries.insertionSort id_le ∧ sorted.Perm entries := by
  rw [bnd3_sorted_entries] at h
  split at h
  · exact absurd h (by simp)
  · injection h with h2
    exact ⟨h2.symm, h2 ▸ List.perm_insertionSort id_le entries⟩

/-- Claim C10 (confirmed): packing (V3 and V4) leaves every entry of the
archive unmodified — the V4 state returned by `pack` carries the same
entry list (only the count/path snapshots change; V3 `pack` assigns no
instance attribute at all, so its embedding returns only bytes) — while
the packed output's data section is built from `get_data_for_pack`, which
returns the zlib-compressed copy of `entry.data` for compressed-flag
entries without touching the entry. -/
theorem pack_entries_frame (R : MagicRules) (Z : ZlibModel) (E : EncodingModel)
    (b3 : BND3) (b4 : BND4) (out3 out4 : List Nat) (b4' : BND4)
    (h3 : bnd3_pack R Z E b3 = .ok out3)
    (h4 : bnd4_pack R Z E b4 = .ok (out4, b4')) :
    b4'.entries = b4.entries ∧
    (∀ e ∈ b4.entries, R.is_entry_compressed e.magic = true →
      (get_data_for_pack R Z e).1 = Z.compress e.data ∧
      (get_data_for_pack R Z e).2 = true) ∧
    (∃ pre4, out4 = pre4 ++
      (b4.entries.map (fun e => padBytes 10 ++ packed_data_of R Z e)).flatten) ∧
    (∃ sorted pre3, bnd3_sorted_entries b3.entries = .ok sorted ∧
      sorted.Perm b3.entries ∧
      out3 = pre3 ++ (sorted.map (packed_data_of R Z)).flatten) := by
  simp only [bnd4_pack] at h4
  obtain ⟨loop_res, hloop, h4⟩ := (except_bind_ok_iff _ _ _).mp h4
  obtain ⟨trip, htrip, h4⟩ := (except_bind_ok_iff _ _ _).mp h4
  have h42 := Except.ok.inj h4
  simp only [Prod.mk.injEq] at h42
  obtain ⟨hout4, hb4'⟩ := h42
  obtain ⟨_, _, hdata4, _⟩ := bnd4_entry_loop_ok R Z E b4.magic b4.entries 0 0
    loop_res.1 loop_res.2.1 loop_res.2.2 (by rw [hloop])
  refine ⟨?_, ?_, ?_, ?_⟩
  · rw [← hb4']
  · intro e _ hc
    rw [get_data_for_pack, if_pos hc]
    exact ⟨rfl, rfl⟩
  · rw [← hout4, hdata4]
    exact ⟨_, rfl⟩
  · simp only [bnd3_pack] at h3
    obtain ⟨sorted, hsorted, h3⟩ := (except_bind_ok_iff _ _ _).mp h3
    obtain ⟨loop3, hloop3, h3⟩ := (except_bind_ok_iff _ _ _).mp h3
    obtain ⟨hspec3, hperm3⟩ := bnd3_sorted_entries_ok b3.entries sorted hsorted
    obtain ⟨_, _, hdata3, _⟩ := bnd3_entry_loop_ok R Z E b3.magic sorted 0 0
      loop3.1 loop3.2.1 loop3.2.2 (by rw [hloop3])
    have hout3 := Except.ok.inj h3
    rw [← hout3, hdata3]
    exact ⟨sorted, _, hsorted, hperm3, rfl⟩

/-- Witness for C10 on concrete one-entry archives (the V4 entry carries
the compressed-magic `0x41`, so the packed output holds its compressed
form while the archive keeps the raw data). -/
theorem pack_entries_frame_witness :
    (bnd4_pack testRules testZlib testEncoding
        (BND4.mk [] 64 false false false false 0 0 [] 1
          [some ['a']] [BNDEntry.mk [5] (some 0) (some ['a']) 0x41])).toOption.map
        (fun r => r.2.entries) =
      some [BNDEntry.mk [5] (some 0) (some ['a']) 0x41] := by
  have hpack : ∃ r, bnd4_pack testRules testZlib testEncoding
      (BND4.mk [] 64 false false false false 0 0 [] 1
        [some ['a']] [BNDEntry.mk [5] (some 0) (some ['a']) 0x41]) = .ok r := by
    refine ⟨((bnd4_pack testRules testZlib testEncoding
      (BND4.mk [] 64 false false false false 0 0 [] 1
        [some ['a']] [BNDEntry.mk [5] (some 0) (some ['a']) 0x41])).toOption.getD
          ([], bnd4_new)), ?_⟩
    decide
  obtain ⟨r, hr⟩ := hpack
  have h3 : bnd3_pack testRules testZlib testEncoding
      (BND3.mk [] 64 false false [BNDEntry.mk [5] (some 0) (some ['a']) 0x41]) =
      .ok ((bnd3_pack testRules testZlib testEncoding
        (BND3.mk [] 64 false false
          [BNDEntry.mk [5] (some 0) (some ['a']) 0x41])).toOption.getD []) := by
    decide
  have := pack_entries_frame testRules testZlib testEncoding
    (BND3.mk [] 64 false false [BNDEntry.mk [5] (some 0) (some ['a']) 0x41])
    (BND4.mk [] 64 false false false false 0 0 [] 1
      [some ['a']] [BNDEntry.mk [5] (some 0) (some ['a']) 0x41])
    ((bnd3_pack testRules testZlib testEncoding
      (BND3.mk [] 64 false false
        [BNDEntry.mk [5] (some 0) (some ['a']) 0x41])).toOption.getD [])
    r.1 r.2 h3 (by rw [hr])
  rw [hr]
  simp [Except.toOption, this.1]

/-! ## Hash-table cache staleness (claim C4) -/

/-- Claim C4 (code bug): `BND4.pack` never refreshes
`_most_recent_hash_table` after rebuilding.  Concretely: an archive in a
post-unpack state (cached table built for path `"a"`), whose single
entry's path is then changed to `"b"`, rebuilds on the first pack and
emits the table for `"b"` — but the cache still holds the `"a"` table,
and the snapshots now say "unchanged", so a second pack without any
modification emits the stale `"a"` table: two consecutive packs of the
same archive produce different hash-table bytes, the second inconsistent
with the current paths. -/
theorem bnd4_hash_table_cache_stale :
    bnd4_rebuild_needed
      (BND4.mk [] 64 false false false false 4 0
        ((build_hash_table [BNDEntry.mk [5] (some 0) (some ['a']) 64]).toOption.getD [])
        1 [some ['a']]
        [BNDEntry.mk [5] (some 0) (some ['b']) 64]) = true ∧
    bnd4_packed_hash_table
      (BND4.mk [] 64 false false false false 4 0
        ((build_hash_table [BNDEntry.mk [5] (some 0) (some ['a']) 64]).toOption.getD [])
        1 [some ['a']]
        [BNDEntry.mk [5] (some 0) (some ['b']) 64]) true =
      build_hash_table [BNDEntry.mk [5] (some 0) (some ['b']) 64] ∧
    ((bnd4_pack testRules testZlib testEncoding
      (BND4.mk [] 64 false false false false 4 0
        ((build_hash_table [BNDEntry.mk [5] (some 0) (some ['a']) 64]).toOption.getD [])
        1 [some ['a']]
        [BNDEntry.mk [5] (some 0) (some ['b']) 64])).toOption.map
      (fun r => (bnd4_rebuild_needed r.2,
        bnd4_packed_hash_table r.2 (bnd4_rebuild_needed r.2)))) =
      some (false, .ok
        ((build_hash_table [BNDEntry.mk [5] (some 0) (some ['a']) 64]).toOption.getD [])) ∧
    build_hash_table [BNDEntry.mk [5] (some 0) (some ['b']) 64] ≠
      .ok ((build_hash_table [BNDEntry.mk [5] (some 0) (some ['a']) 64]).toOption.getD []) := by
  refine ⟨by decide, by decide, by decide, by decide⟩

/-! ## Unpack atomicity (claim C5) -/

theorem add_entry_ok_shape (st : List BNDEntry) (e : BNDEntry)
    (r : List BNDEntry × Bool) (h : add_entry st e = .ok r) :
    r.1 = st ++ [e] := by
  rw [add_entry] at h
  split at h
  · exact absurd h (by simp)
  · split at h
    · exact absurd h (by simp)
    · injection h with h2
      rw [← h2]

theorem add_entries_loop_spec (es : List BNDEntry) :
    ∀ st : List BNDEntry, ∃ k,
      (add_entries_loop st es).1 = st ++ es.take k ∧
      ((add_entries_loop st es).2 = none →
        (add_entries_loop st es).1 = st ++ es) := by
  induction es with
  | nil =>
      intro st
      exact ⟨0, by simp [add_entries_loop], fun _ => by simp [add_entries_loop]⟩
  | cons e rest ih =>
      intro st
      rw [add_entries_loop]
      cases hadd : add_entry st e with
      | error msg => exact ⟨0, by simp, by simp⟩
      | ok r =>
          have hsh := add_entry_ok_shape st e r hadd
          obtain ⟨k, hk1, hk2⟩ := ih r.1
          refine ⟨k + 1, ?_, ?_⟩
          · rw [hk1, hsh, List.take_succ_cons]
            simp
          · intro hnone
            rw [hk2 hnone, hsh]
            simp

/-- Counterexample for C5 as stated: a buffer whose entry table holds two
bit-identical entries parses fine, but the `add_entry` loop raises on the
second one after the first has already been appended — `unpack` raises
with the archive's entry collection changed. -/
theorem bnd3_unpack_atomicity_counterexample :
    except_ok (bnd3_pack testRules testZlib testEncoding
      (BND3.mk [] 64 false false
        [BNDEntry.mk [7] (some 1) (some ['a']) 64,
         BNDEntry.mk [7] (some 1) (some ['a']) 64])) = true ∧
    ((bnd3_unpack testRules testZlib testEncoding []
      ((bnd3_pack testRules testZlib testEncoding
        (BND3.mk [] 64 false false
          [BNDEntry.mk [7] (some 1) (some ['a']) 64,
           BNDEntry.mk [7] (some 1) (some ['a']) 64])).toOption.getD [])).2).isSome = true ∧
    (bnd3_unpack testRules testZlib testEncoding []
      ((bnd3_pack testRules testZlib testEncoding
        (BND3.mk [] 64 false false
          [BNDEntry.mk [7] (some 1) (some ['a']) 64,
           BNDEntry.mk [7] (some 1) (some ['a']) 64])).toOption.getD [])).1 ≠ [] := by
  refine ⟨by decide, by decide, by decide⟩

/-- Claim C5 as amended: if `unpack` fails during parsing — header reads,
entry-table decoding, path reads or decompression, i.e. anywhere before
entries are added — the archive's entry collection is unchanged; a failure
inside the `add_entry` loop (a duplicate parsed entry, or a duplicate id
among the entries added so far) leaves the entries added before the
failure, so the collection is the original extended by a prefix of the
parsed entries (the whole list when no error is raised).  The same holds
for V4: the resulting collection is always the original extended by some
suffix-free prefix of the parsed entries. -/
theorem bnd4_unpack_entries_spec (R : MagicRules) (Z : ZlibModel)
    (E : EncodingModel) (b : BND4) (buf : List Nat) :
    ((bnd4_unpack R Z E b buf).1.entries, (bnd4_unpack R Z E b buf).2.2) =
      (match bnd4_parse R Z E buf with
       | .error m => (b.entries, some m)
       | .ok parsed =>
          ((add_entries_loop b.entries parsed).1,
           (add_entries_loop b.entries parsed).2)) := by
  unfold bnd4_unpack bnd4_parse
  cases h1 : readBytesExact buf 0 12 with
  | error m => simp
  | ok start =>
      simp only []
      by_cases hv : start.take 4 ≠ [66, 78, 68, 52]
      · rw [if_pos hv, if_pos hv]
      · rw [if_neg hv, if_neg hv]
        cases h2 : readBytesExact buf 12 52 with
        | error m => simp
        | ok p2 =>
            simp only []
            by_cases hf : decSInt 8 (decide (decSInt 4 false ((start.drop 8).take 4) = 0x00000100)) ((p2.drop 20).take 8) ≠
                R.header_size (decSInt 1 false ((p2.drop 37).take 1))
            · rw [if_pos hf, if_pos hf]
            · rw [if_neg hf, if_neg hf]
              cases h3 : readBytesExact buf 64
                  (bnd4_entry_header_size R (decSInt 1 false ((p2.drop 37).take 1)) * ((decSInt 4 (decide (decSInt 4 false ((start.drop 8).take 4) = 0x00000100)) (p2.take 4))).toNat) with
              | error m => simp
              | ok hb =>
                  simp only []
                  cases h4 : bnd_entry_unpack R Z E buf
                      ((split_records (bnd4_entry_header_size R (decSInt 1 false ((p2.drop 37).take 1)))
                        ((decSInt 4 (decide (decSInt 4 false ((start.drop 8).take 4) = 0x00000100)) (p2.take 4))).toNat hb).map
                        (bnd4_parse_entry_header R (decSInt 1 false ((p2.drop 37).take 1)) (decide (decSInt 4 false ((start.drop 8).take 4) = 0x00000100)))) with
                  | error m => simp
                  | ok parsed =>
                      simp only []
                      cases h5 : (add_entries_loop b.entries parsed).2 with
                      | none => simp [h5]
                      | some m => simp [h5]

/-- C5 (amended): if unpacking (V3 or V4) fails while parsing — header
reads, entry-table decode, path reads, decompression, everything before
entries are added — the archive's entry collection is unchanged (and the
parse error is the raised error); once parsing succeeded, the collection
is the original extended by a prefix of the parsed entries, and by the full
parsed list when no error is raised in the add loop. -/
theorem unpack_atomicity_amended (R : MagicRules) (Z : ZlibModel)
    (E : EncodingModel) (st : List BNDEntry) (buf : List Nat) (b : BND4) :
    (∀ m, bnd3_parse R Z E buf = .error m →
      bnd3_unpack R Z E st buf = (st, some m)) ∧
    (∀ parsed, bnd3_parse R Z E buf = .ok parsed →
      ∃ k, (bnd3_unpack R Z E st buf).1 = st ++ parsed.take k ∧
        ((bnd3_unpack R Z E st buf).2 = none →
          (bnd3_unpack R Z E st buf).1 = st ++ parsed)) ∧
    (∀ m, bnd4_parse R Z E buf = .error m →
      (bnd4_unpack R Z E b buf).1.entries = b.entries ∧
      (bnd4_unpack R Z E b buf).2.2 = some m) ∧
    (∀ parsed, bnd4_parse R Z E buf = .ok parsed →
      ∃ k, (bnd4_unpack R Z E b buf).1.entries = b.entries ++ parsed.take k ∧
        ((bnd4_unpack R Z E b buf).2.2 = none →
          (bnd4_unpack R Z E b buf).1.entries = b.entries ++ parsed)) := by
  refine ⟨?_, ?_, ?_, ?_⟩
  · intro m hm
    rw [bnd3_unpack, hm]
  · intro parsed hp
    rw [bnd3_unpack, hp]
    exact add_entries_loop_spec parsed st
  · intro m hm
    have hs := bnd4_unpack_entries_spec R Z E b buf
    rw [hm] at hs
    simp only [Prod.mk.injEq] at hs
    exact hs
  · intro parsed hp
    have hs := bnd4_unpack_entries_spec R Z E b buf
    rw [hp] at hs
    simp only [Prod.mk.injEq] at hs
    obtain ⟨hA, hB⟩ := hs
    obtain ⟨k, hk1, hk2⟩ := add_entries_loop_spec parsed b.entries
    refine ⟨k, ?_, ?_⟩
    · rw [hA, hk1]
    · intro hnone
      rw [hA]
      exact hk2 (by rw [← hB, hnone])

/-- Witness for the amended C5 on a concrete successful unpack. -/
theorem unpack_atomicity_amended_witness :
    ∃ k, (bnd3_unpack testRules testZlib testEncoding []
        ((bnd3_pack testRules testZlib testEncoding
          (BND3.mk [] 64 false false
            [BNDEntry.mk [9] (some 1) (some ['a']) 64])).toOption.getD [])).1 =
      [] ++ ((bnd3_parse testRules testZlib testEncoding
        ((bnd3_pack testRules testZlib testEncoding
          (BND3.mk [] 64 false false
            [BNDEntry.mk [9] (some 1) (some ['a']) 64])).toOption.getD [])).toOption.getD
              []).take k :=
  ((unpack_atomicity_amended testRules testZlib testEncoding []
      ((bnd3_pack testRules testZlib testEncoding
        (BND3.mk [] 64 false false
          [BNDEntry.mk [9] (some 1) (some ['a']) 64])).toOption.getD [])
      bnd4_new).2.1
    (((bnd3_parse testRules testZlib testEncoding
        ((bnd3_pack testRules testZlib testEncoding
          (BND3.mk [] 64 false false
            [BNDEntry.mk [9] (some 1) (some ['a']) 64])).toOption.getD [])).toOption.getD
              []))
    (by decide)).elim (fun k hk => ⟨k, hk.1⟩)

/-! ## Header slicing lemmas -/

theorem append_extract (pre field post : List Nat) {buf : List Nat}
    (off len : Nat) (hbuf : buf = pre ++ (field ++ post))
    (hoff : pre.length = off) (hlen : field.length = len) :
    (buf.drop off).take len = field := by
  subst hbuf
  rw [List.drop_left' hoff, List.take_left' hlen]

theorem readBytesExact_ok (pre field post : List Nat) {buf : List Nat}
    (off len : Nat) (hbuf : buf = pre ++ (field ++ post))
    (hoff : pre.length = off) (hlen : field.length = len) :
    readBytesExact buf off len = .ok field := by
  subst hbuf
  have hle : off + len ≤ (pre ++ (field ++ post)).length := by
    simp only [List.length_append]
    omega
  rw [readBytesExact, if_pos hle,
    append_extract pre field post off len rfl hoff hlen]

theorem length_bnd4_pack_header (b : BND4)
    (n ehs doff hto : Int) (hsig : b.signature.length ≤ 8) :
    (bnd4_pack_header b n ehs doff hto).length = 64 := by
  simp [bnd4_pack_header, length_encInt, length_encBool, length_padBytes,
    fixedBytes]
  omega

theorem bnd4_header_parse (b : BND4) (n ehs doff hto : Int) (tail : List Nat)
    (hsig : b.signature.length ≤ 8) (hbig : b.big_endian = false)
    (hn : 0 ≤ n ∧ n < 2 ^ 31) (hehs : -(2 ^ 63) ≤ ehs ∧ ehs < 2 ^ 63)
    (hdoff : -(2 ^ 63) ≤ doff ∧ doff < 2 ^ 63)
    (hhto : -(2 ^ 63) ≤ hto ∧ hto < 2 ^ 63)
    (hmagic : -128 ≤ b.magic ∧ b.magic < 128)
    (hhtt : 0 ≤ b.hash_table_type ∧ b.hash_table_type < 256) :
    ∃ start p2,
      readBytesExact (bnd4_pack_header b n ehs doff hto ++ tail) 0 12 = .ok start ∧
      start.take 4 = [66, 78, 68, 52] ∧
      decBool ((start.drop 4).take 1) = b.flag1 ∧
      decBool ((start.drop 5).take 1) = b.flag2 ∧
      decSInt 4 false ((start.drop 8).take 4) = 0 ∧
      readBytesExact (bnd4_pack_header b n ehs doff hto ++ tail) 12 52 = .ok p2 ∧
      decSInt 4 false (p2.take 4) = n ∧
      decSInt 8 false ((p2.drop 20).take 8) = ehs ∧
      decSInt 8 false ((p2.drop 28).take 8) = doff ∧
      decBool ((p2.drop 36).take 1) = b.utf16_paths ∧
      decSInt 1 false ((p2.drop 37).take 1) = b.magic ∧
      decUInt false ((p2.drop 38).take 1) = b.hash_table_type.toNat ∧
      decSInt 8 false ((p2.drop 44).take 8) = hto := by
  refine ⟨fixedBytes 4 [66, 78, 68, 52] ++ encBool b.flag1 ++ encBool b.flag2 ++
      padBytes 2 ++ encInt 4 false 0,
    encInt 4 false n ++ encInt 8 false 64 ++
      fixedBytes 8 b.signature ++ encInt 8 false ehs ++
      encInt 8 false doff ++ encBool b.utf16_paths ++
      encInt 1 false b.magic ++ encInt 1 false b.hash_table_type ++
      padBytes 5 ++ encInt 8 false hto, ?_, ?_, ?_, ?_, ?_, ?_, ?_, ?_,
      ?_, ?_, ?_, ?_, ?_⟩
  · exact readBytesExact_ok []
      (fixedBytes 4 [66, 78, 68, 52] ++ encBool b.flag1 ++ encBool b.flag2 ++
        padBytes 2 ++ encInt 4 false 0)
      (encInt 4 false n ++ encInt 8 false 64 ++
        fixedBytes 8 b.signature ++ encInt 8 false ehs ++
        encInt 8 false doff ++ encBool b.utf16_paths ++
        encInt 1 false b.magic ++ encInt 1 false b.hash_table_type ++
        padBytes 5 ++ encInt 8 false hto ++ tail) 0 12
      (by simp [bnd4_pack_header, hbig, List.append_assoc]) rfl
      (by simp [length_encInt, length_encBool, length_padBytes, fixedBytes])
  · rfl
  · exact decBool_encBool b.flag1
  · exact decBool_encBool b.flag2
  · exact decSInt_encInt 4 false 0 (by norm_num) (by norm_num) (by norm_num)
  · exact readBytesExact_ok
      (fixedBytes 4 [66, 78, 68, 52] ++ encBool b.flag1 ++ encBool b.flag2 ++
        padBytes 2 ++ encInt 4 false 0)
      (encInt 4 false n ++ encInt 8 false 64 ++
        fixedBytes 8 b.signature ++ encInt 8 false ehs ++
        encInt 8 false doff ++ encBool b.utf16_paths ++
        encInt 1 false b.magic ++ encInt 1 false b.hash_table_type ++
        padBytes 5 ++ encInt 8 false hto)
      tail 12 52
      (by simp [bnd4_pack_header, hbig, List.append_assoc])
      (by simp [length_encInt, length_encBool, length_padBytes, fixedBytes])
      (by simp [length_encInt, length_encBool, length_padBytes,
        length_fixedBytes _ _ hsig])
  · exact decSInt_encInt 4 false n (by norm_num)
      (by have h1 := hn.1; omega) (by have h2 := hn.2; omega)
  · rw [append_extract
      (encInt 4 false n ++ encInt 8 false 64 ++ fixedBytes 8 b.signature)
      (encInt 8 false ehs)
      (encInt 8 false doff ++ encBool b.utf16_paths ++ encInt 1 false b.magic ++
        encInt 1 false b.hash_table_type ++ padBytes 5 ++ encInt 8 false hto)
      20 8 (by simp [List.append_assoc])
      (by simp [length_encInt, length_fixedBytes _ _ hsig])
      (length_encInt _ _ _)]
    exact decSInt_encInt 8 false ehs (by norm_num)
      (by have h1 := hehs.1; omega) (by have h2 := hehs.2; omega)
  · rw [append_extract
      (encInt 4 false n ++ encInt 8 false 64 ++ fixedBytes 8 b.signature ++
        encInt 8 false ehs)
      (encInt 8 false doff)
      (encBool b.utf16_paths ++ encInt 1 false b.magic ++
        encInt 1 false b.hash_table_type ++ padBytes 5 ++ encInt 8 false hto)
      28 8 (by simp [List.append_assoc])
      (by simp [length_encInt, length_fixedBytes _ _ hsig])
      (length_encInt _ _ _)]
    exact decSInt_encInt 8 false doff (by norm_num)
      (by have h1 := hdoff.1; omega) (by have h2 := hdoff.2; omega)
  · rw [append_extract
      (encInt 4 false n ++ encInt 8 false 64 ++ fixedBytes 8 b.signature ++
        encInt 8 false ehs ++ encInt 8 false doff)
      (encBool b.utf16_paths)
      (encInt 1 false b.magic ++ encInt 1 false b.hash_table_type ++
        padBytes 5 ++ encInt 8 false hto)
      36 1 (by simp [List.append_assoc])
      (by simp [length_encInt, length_fixedBytes _ _ hsig])
      (length_encBool _)]
    exact decBool_encBool _
  · rw [append_extract
      (encInt 4 false n ++ encInt 8 false 64 ++ fixedBytes 8 b.signature ++
        encInt 8 false ehs ++ encInt 8 false doff ++ encBool b.utf16_paths)
      (encInt 1 false b.magic)
      (encInt 1 false b.hash_table_type ++ padBytes 5 ++ encInt 8 false hto)
      37 1 (by simp [List.append_assoc])
      (by simp [length_encInt, length_encBool, length_fixedBytes _ _ hsig])
      (length_encInt _ _ _)]
    exact decSInt_encInt 1 false b.magic (by norm_num)
      (by have h1 := hmagic.1; omega) (by have h2 := hmagic.2; omega)
  · rw [append_extract
      (encInt 4 false n ++ encInt 8 false 64 ++ fixedBytes 8 b.signature ++
        encInt 8 false ehs ++ encInt 8 false doff ++ encBool b.utf16_paths ++
        encInt 1 false b.magic)
      (encInt 1 false b.hash_table_type)
      (padBytes 5 ++ encInt 8 false hto)
      38 1 (by simp [List.append_assoc])
      (by simp [length_encInt, length_encBool, length_fixedBytes _ _ hsig])
      (length_encInt _ _ _)]
    exact decUInt_encInt 1 false b.hash_table_type hhtt.1
      (by have h2 := hhtt.2; omega)
  · rw [append_extract
      (encInt 4 false n ++ encInt 8 false 64 ++ fixedBytes 8 b.signature ++
        encInt 8 false ehs ++ encInt 8 false doff ++ encBool b.utf16_paths ++
        encInt 1 false b.magic ++ encInt 1 false b.hash_table_type ++ padBytes 5)
      (encInt 8 false hto) []
      44 8 (by simp [List.append_assoc])
      (by simp [length_encInt, length_encBool, length_padBytes,
        length_fixedBytes _ _ hsig])
      (length_encInt _ _ _)]
    exact decSInt_encInt 8 false hto (by norm_num)
      (by have h1 := hhto.1; omega) (by have h2 := hhto.2; omega)

/-- Reduction of `bnd4_unpack` to the fatal entry-header-size `ValueError`,
for any buffer whose first two header reads decode as hypothesised (the
little-endian case: marker word 0) with a size declaration different from
the rule table's. -/
theorem bnd4_unpack_fatal_size (R : MagicRules) (Z : ZlibModel)
    (E : EncodingModel) (b : BND4) (buf s1 p1 : List Nat)
    (h1 : readBytesExact buf 0 12 = .ok s1)
    (h2 : s1.take 4 = [66, 78, 68, 52])
    (h5 : decSInt 4 false ((s1.drop 8).take 4) = 0)
    (h6 : readBytesExact buf 12 52 = .ok p1)
    (hc : decSInt 8 false ((p1.drop 20).take 8) ≠
      R.header_size (decSInt 1 false ((p1.drop 37).take 1))) :
    (bnd4_unpack R Z E b buf).2 =
      ([], some "ValueError: expected BND entry header size does not match header") ∧
    (bnd4_unpack R Z E b buf).1.entries = b.entries := by
  have hc2 : ¬ (s1.take 4 ≠ [66, 78, 68, 52]) := by simp [h2]
  have hbo : decide (decSInt 4 false ((s1.drop 8).take 4) = 0x00000100) =
      false := by
    rw [h5]; rfl
  unfold bnd4_unpack
  rw [h1]
  simp only []
  rw [if_neg hc2]
  rw [h6]
  simp only [hbo]
  rw [if_pos hc]
  exact ⟨rfl, rfl⟩

/-- Reduction of `bnd4_unpack` past the (passing) entry-header-size check
into the warning branch: with `hash_table_type != 4` and a non-zero
hash-table offset decoded from the header, the hash-table warning is in the
returned warning list whatever happens later in the unpack. -/
theorem bnd4_unpack_hash_warning (R : MagicRules) (Z : ZlibModel)
    (E : EncodingModel) (b : BND4) (buf s1 p1 : List Nat)
    (h1 : readBytesExact buf 0 12 = .ok s1)
    (h2 : s1.take 4 = [66, 78, 68, 52])
    (h5 : decSInt 4 false ((s1.drop 8).take 4) = 0)
    (h6 : readBytesExact buf 12 52 = .ok p1)
    (hcn : ¬ (decSInt 8 false ((p1.drop 20).take 8) ≠
      R.header_size (decSInt 1 false ((p1.drop 37).take 1))))
    (hcw : ((decUInt false ((p1.drop 38).take 1) : Nat) : Int) ≠ 4 ∧
      decSInt 8 false ((p1.drop 44).take 8) ≠ 0) :
    "found non-zero hash table offset, but header says this BND has no hash table" ∈
      (bnd4_unpack R Z E b buf).2.1 := by
  have hc2 : ¬ (s1.take 4 ≠ [66, 78, 68, 52]) := by simp [h2]
  have hbo : decide (decSInt 4 false ((s1.drop 8).take 4) = 0x00000100) =
      false := by
    rw [h5]; rfl
  unfold bnd4_unpack
  rw [h1]
  simp only []
  rw [if_neg hc2]
  rw [h6]
  simp only [hbo]
  rw [if_neg hcn]
  rw [if_pos hcw]
  split
  · simp
  · split
    · simp
    · split
      · simp
      · simp

/-- C7: during V4 unpack, a declared entry-header size different from the
variant rules' `header_size(magic)` raises the fatal `ValueError` (the call
aborts with no warnings and the entry collection unchanged), while a
non-zero hash-table offset together with `hash_table_type != 4` only adds
the hash-table warning to the returned warning list and unpack continues
past the check. -/
theorem bnd4_unpack_header_checks (R : MagicRules) (Z : ZlibModel)
    (E : EncodingModel) (b : BND4) (n ehs1 ehs2 doff hto : Int)
    (t1 t2 : List Nat)
    (hsig : b.signature.length ≤ 8) (hbig : b.big_endian = false)
    (hn : 0 ≤ n ∧ n < 2 ^ 31)
    (hehs1 : -(2 ^ 63) ≤ ehs1 ∧ ehs1 < 2 ^ 63)
    (hehs2 : -(2 ^ 63) ≤ ehs2 ∧ ehs2 < 2 ^ 63)
    (hdoff : -(2 ^ 63) ≤ doff ∧ doff < 2 ^ 63)
    (hhto : -(2 ^ 63) ≤ hto ∧ hto < 2 ^ 63)
    (hmagic : -128 ≤ b.magic ∧ b.magic < 128)
    (hhtt : 0 ≤ b.hash_table_type ∧ b.hash_table_type < 256)
    (hne : ehs1 ≠ R.header_size b.magic)
    (heq : ehs2 = R.header_size b.magic)
    (htt4 : b.hash_table_type ≠ 4) (hto0 : hto ≠ 0) :
    ((bnd4_unpack R Z E b (bnd4_pack_header b n ehs1 doff hto ++ t1)).2 =
        ([], some "ValueError: expected BND entry header size does not match header") ∧
      (bnd4_unpack R Z E b (bnd4_pack_header b n ehs1 doff hto ++ t1)).1.entries =
        b.entries) ∧
    "found non-zero hash table offset, but header says this BND has no hash table" ∈
      (bnd4_unpack R Z E b (bnd4_pack_header b n ehs2 doff hto ++ t2)).2.1 := by
  constructor
  · obtain ⟨s1, p1, h1, h2, h3, h4, h5, h6, h7, h8, h9, h10, h11, h12, h13⟩ :=
      bnd4_header_parse b n ehs1 doff hto t1 hsig hbig hn hehs1 hdoff hhto
        hmagic hhtt
    exact bnd4_unpack_fatal_size R Z E b _ s1 p1 h1 h2 h5 h6
      (by rw [h8, h11]; exact hne)
  · obtain ⟨s2, p2, g1, g2, g3, g4, g5, g6, g7, g8, g9, g10, g11, g12, g13⟩ :=
      bnd4_header_parse b n ehs2 doff hto t2 hsig hbig hn hehs2 hdoff hhto
        hmagic hhtt
    have htt_eq : ((decUInt false ((p2.drop 38).take 1) : Nat) : Int) =
        b.hash_table_type := by
      rw [g12]; exact Int.toNat_of_nonneg hhtt.1
    exact bnd4_unpack_hash_warning R Z E b _ s2 p2 g1 g2 g5 g6
      (by rw [g8, g11]; simp [heq])
      ⟨by rw [htt_eq]; exact htt4, by rw [g13]; exact hto0⟩

/-- Closed instance of the V4 header-check behaviour: a header declaring
entry-header size 99 against the rule table's 28 is fatal with no warnings
and no entry change, while size 28 with hash_table_type 0 and hash-table
offset 1 yields the non-fatal hash-table warning. -/
theorem bnd4_unpack_header_checks_witness :
    ((bnd4_unpack testRules testZlib testEncoding bnd4_new
        (bnd4_pack_header bnd4_new 0 99 64 1 ++ [])).2 =
        ([], some "ValueError: expected BND entry header size does not match header") ∧
      (bnd4_unpack testRules testZlib testEncoding bnd4_new
        (bnd4_pack_header bnd4_new 0 99 64 1 ++ [])).1.entries =
        bnd4_new.entries) ∧
    "found non-zero hash table offset, but header says this BND has no hash table" ∈
      (bnd4_unpack testRules testZlib testEncoding bnd4_new
        (bnd4_pack_header bnd4_new 0 28 64 1 ++ [])).2.1 :=
  bnd4_unpack_header_checks testRules testZlib testEncoding bnd4_new 0 99 28 64 1
    [] [] (by decide) rfl (by decide) (by decide) (by decide) (by decide)
    (by decide) (by decide) (by decide) (by decide) (by decide) (by decide)
    (by decide)

/-! ## Round-trip machinery (claim C1) -/

theorem testZlib_roundtrip (d : List Nat) :
    testZlib.decompress (testZlib.compress d) = some d := by
  simp [testZlib]

theorem takeWhile_toNat_ne_zero :
    ∀ q : List Char, (∀ c ∈ q, c.toNat ≠ 0) →
      (q.map Char.toNat).takeWhile (fun b => b ≠ 0) = q.map Char.toNat
  | [], _ => by simp
  | c :: q, h => by
      rw [List.map_cons,
        List.takeWhile_cons_of_pos (by simpa using h c (by simp)),
        takeWhile_toNat_ne_zero q (fun x hx => h x (by simp [hx]))]

theorem testEncoding_read_str (pre post : List Nat) (p : List Char)
    (hp : ∀ c ∈ p, c.toNat ≠ 0) :
    testEncoding.read_str (pre ++ (testEncoding.encode p ++ 0 :: post))
      pre.length = some p := by
  simp only [testEncoding]
  rw [List.drop_left' rfl]
  have hcont : (p.map Char.toNat ++ 0 :: post).contains 0 = true := by
    simp [List.contains_eq_any_beq]
  rw [if_pos (by simpa using hcont)]
  rw [List.takeWhile_append,
    if_pos (by rw [takeWhile_toNat_ne_zero p hp]),
    List.takeWhile_cons_of_neg (by simp)]
  rw [List.append_nil, List.map_map]
  have hmap : (p.map ((fun b => Char.ofNat b) ∘ Char.toNat)) = p.map id := by
    apply List.map_congr_left
    intro c _
    simp [Char.ofNat_toNat]
  rw [hmap, List.map_id]

theorem mapM_ok_of_forall {α β : Type} (f : α → Except String β) (g : α → β) :
    ∀ l : List α, (∀ a ∈ l, f a = .ok (g a)) → l.mapM f = .ok (l.map g)
  | [], _ => rfl
  | a :: l, h => by
      rw [List.mapM_cons, h a (by simp), mapM_ok_of_forall f g l
        (fun x hx => h x (by simp [hx]))]
      rfl

theorem length_bnd3_pack_entry_header (R : MagicRules) (magic : Int) (bo : Bool)
    (d : EntryHeaderDict) :
    (bnd3_pack_entry_header R magic bo d).length =
      bnd3_entry_header_size R magic := by
  rw [bnd3_pack_entry_header, bnd3_entry_header_size]
  by_cases h1 : R.has_id magic <;> by_cases h2 : R.has_path magic <;>
    by_cases h3 : R.has_uncompressed_size magic <;>
    simp [h1, h2, h3, length_encInt, length_padBytes]
 
theorem length_bnd4_pack_entry_header (R : MagicRules) (magic : Int) (bo : Bool)
    (d : EntryHeaderDict) :
    (bnd4_pack_entry_header R magic bo d).length =
      bnd4_entry_header_size R magic := by
  rw [bnd4_pack_entry_header, bnd4_entry_header_size]
  cases h1 : R.has_id magic <;> cases h2 : R.has_path magic <;>
    cases h3 : R.has_uncompressed_size magic <;>
    simp [h1, h2, h3, length_encInt, length_padBytes, apply_ite List.length] <;>
    omega

theorem flatten_length_uniform (sz : Nat) :
    ∀ ls : List (List Nat), (∀ l ∈ ls, l.length = sz) →
      ls.flatten.length = sz * ls.length
  | [], _ => by simp
  | l :: ls, h => by
      rw [List.flatten_cons, List.length_append, h l (by simp),
        flatten_length_uniform sz ls (fun x hx => h x (by simp [hx])),
        List.length_cons]
      ring

theorem split_records_flatten (sz : Nat) :
    ∀ (blocks : List (List Nat)) (rest : List Nat),
      (∀ bl ∈ blocks, bl.length = sz) →
      split_records sz blocks.length (blocks.flatten ++ rest) = blocks
  | [], _, _ => by simp [split_records]
  | bl :: blocks, rest, h => by
      rw [List.length_cons, split_records, List.flatten_cons, List.append_assoc]
      rw [List.take_left' (h bl (by simp)), List.drop_left' (h bl (by simp))]
      rw [split_records_flatten sz blocks rest (fun x hx => h x (by simp [hx]))]

theorem add_entries_loop_nodup :
    ∀ (es st : List BNDEntry),
      ((st ++ es).map (fun e => e.id)).Nodup →
      add_entries_loop st es = (st ++ es, none)
  | [], st, _ => by simp [add_entries_loop]
  | e :: es, st, h => by
      have hnotmem : e ∉ st := by
        intro hmem
        have hid : e.id ∈ st.map (fun e => e.id) := List.mem_map_of_mem _ hmem
        have : ¬ ((st.map (fun e => e.id)) ++
            e.id :: es.map (fun e => e.id)).Nodup := by
          intro hnd2
          exact (List.disjoint_of_nodup_append hnd2) hid (by simp)
        exact this (by simpa using h)
      have hkeys : entries_by_id_keys [] st = .ok (st.map (fun e => e.id)) := by
        have := entries_by_id_keys_ok st []
        simp only [List.nil_append] at this
        exact this (by
          have := h
          simp only [List.map_append] at this
          exact this.sublist (List.sublist_append_left _ _))
      rw [add_entries_loop, add_entry, if_neg hnotmem, hkeys]
      simp only []
      rw [add_entries_loop_nodup es (st ++ [e]) (by simpa using h)]
      simp

theorem headD_encInt_one (bo : Bool) (v : Int) (rest : List Nat)
    (h0 : 0 ≤ v) (h1 : v < 256) :
    (((encInt 1 bo v ++ rest).headD 0 : Nat) : Int) = v := by
  have he : ∀ u : Nat, encLE 1 u = [u % 256] := fun u => rfl
  cases bo <;> simp [encInt, he] <;> omega

theorem bnd3_header_roundtrip_one (R : MagicRules) (m : Int) (bo : Bool)
    (d : EntryHeaderDict)
    (hid : R.has_id m = true) (hpath : R.has_path m = true)
    (hem : 0 ≤ d.entry_magic ∧ d.entry_magic < 256)
    (hcs : 0 ≤ d.compressed_data_size ∧ d.compressed_data_size < 2 ^ 31)
    (hdo : 0 ≤ d.data_offset ∧ d.data_offset < 2 ^ 31)
    (hei : ∃ i, d.entry_id = some i ∧ -(2 ^ 31) ≤ i ∧ i < 2 ^ 31)
    (hpo : ∃ po, d.path_offset = some po ∧ 0 ≤ po ∧ po < 2 ^ 31)
    (hun : if R.has_uncompressed_size m then
        ∃ u, d.uncompressed_data_size = some u ∧ 0 ≤ u ∧ u < 2 ^ 31
      else d.uncompressed_data_size = none) :
    bnd3_parse_entry_header R m bo (bnd3_pack_entry_header R m bo d) = d := by
  obtain ⟨em, cs, doff, unc, eid, po'⟩ := d
  simp only at hem hcs hdo hei hpo hun
  obtain ⟨i, hi, hi1, hi2⟩ := hei
  obtain ⟨po, hpo', hpo1, hpo2⟩ := hpo
  subst hi
  subst hpo'
  rw [bnd3_pack_entry_header, bnd3_parse_entry_header]
  simp only [hid, hpath, if_true, Option.getD_some]
  have hhead : (((encInt 1 bo em ++ padBytes 3 ++ encInt 4 bo cs ++
      encInt 4 bo doff ++ encInt 4 bo i ++ encInt 4 bo po ++
      (if R.has_uncompressed_size m then
        encInt 4 bo (unc.getD 0) else [])).headD 0 : Nat) : Int) = em := by
    rw [show encInt 1 bo em ++ padBytes 3 ++ encInt 4 bo cs ++
        encInt 4 bo doff ++ encInt 4 bo i ++ encInt 4 bo po ++
        (if R.has_uncompressed_size m then encInt 4 bo (unc.getD 0) else []) =
      encInt 1 bo em ++ (padBytes 3 ++ encInt 4 bo cs ++
        encInt 4 bo doff ++ encInt 4 bo i ++ encInt 4 bo po ++
        (if R.has_uncompressed_size m then encInt 4 bo (unc.getD 0) else []))
      from by simp [List.append_assoc]]
    exact headD_encInt_one bo em _ hem.1 hem.2
  have hcs2 : decSInt 4 bo (((encInt 1 bo em ++ padBytes 3 ++ encInt 4 bo cs ++
      encInt 4 bo doff ++ encInt 4 bo i ++ encInt 4 bo po ++
      (if R.has_uncompressed_size m then encInt 4 bo (unc.getD 0) else [])).drop
        4).take 4) = cs := by
    rw [append_extract (encInt 1 bo em ++ padBytes 3) (encInt 4 bo cs)
      (encInt 4 bo doff ++ encInt 4 bo i ++ encInt 4 bo po ++
        (if R.has_uncompressed_size m then encInt 4 bo (unc.getD 0) else []))
      4 4 (by simp [List.append_assoc]) (by simp [length_encInt, length_padBytes])
      (length_encInt _ _ _)]
    exact decSInt_encInt 4 bo cs (by norm_num) (by have := hcs.1; omega)
      (by have := hcs.2; omega)
  have hdo2 : decSInt 4 bo (((encInt 1 bo em ++ padBytes 3 ++ encInt 4 bo cs ++
      encInt 4 bo doff ++ encInt 4 bo i ++ encInt 4 bo po ++
      (if R.has_uncompressed_size m then encInt 4 bo (unc.getD 0) else [])).drop
        8).take 4) = doff := by
    rw [append_extract (encInt 1 bo em ++ padBytes 3 ++ encInt 4 bo cs)
      (encInt 4 bo doff)
      (encInt 4 bo i ++ encInt 4 bo po ++
        (if R.has_uncompressed_size m then encInt 4 bo (unc.getD 0) else []))
      8 4 (by simp [List.append_assoc]) (by simp [length_encInt, length_padBytes])
      (length_encInt _ _ _)]
    exact decSInt_encInt 4 bo doff (by norm_num) (by have := hdo.1; omega)
      (by have := hdo.2; omega)
  have hid2 : decSInt 4 bo (((encInt 1 bo em ++ padBytes 3 ++ encInt 4 bo cs ++
      encInt 4 bo doff ++ encInt 4 bo i ++ encInt 4 bo po ++
      (if R.has_uncompressed_size m then encInt 4 bo (unc.getD 0) else [])).drop
        12).take 4) = i := by
    rw [append_extract (encInt 1 bo em ++ padBytes 3 ++ encInt 4 bo cs ++
        encInt 4 bo doff) (encInt 4 bo i)
      (encInt 4 bo po ++
        (if R.has_uncompressed_size m then encInt 4 bo (unc.getD 0) else []))
      12 4 (by simp [List.append_assoc]) (by simp [length_encInt, length_padBytes])
      (length_encInt _ _ _)]
    exact decSInt_encInt 4 bo i (by norm_num) (by omega) (by omega)
  have hpo2b : decSInt 4 bo (((encInt 1 bo em ++ padBytes 3 ++ encInt 4 bo cs ++
      encInt 4 bo doff ++ encInt 4 bo i ++ encInt 4 bo po ++
      (if R.has_uncompressed_size m then encInt 4 bo (unc.getD 0) else [])).drop
        16).take 4) = po := by
    rw [append_extract (encInt 1 bo em ++ padBytes 3 ++ encInt 4 bo cs ++
        encInt 4 bo doff ++ encInt 4 bo i) (encInt 4 bo po)
      (if R.has_uncompressed_size m then encInt 4 bo (unc.getD 0) else [])
      16 4 (by simp [List.append_assoc]) (by simp [length_encInt, length_padBytes])
      (length_encInt _ _ _)]
    exact decSInt_encInt 4 bo po (by norm_num) (by omega) (by omega)
  by_cases hu : R.has_uncompressed_size m
  · rw [if_pos hu] at hun
    obtain ⟨u, hu1, hu2, hu3⟩ := hun
    subst hu1
    simp only [hu, if_true, Option.getD_some] at hhead hcs2 hdo2 hid2 hpo2b ⊢
    have hun2 : decSInt 4 bo (((encInt 1 bo em ++ padBytes 3 ++ encInt 4 bo cs ++
        encInt 4 bo doff ++ encInt 4 bo i ++ encInt 4 bo po ++
        encInt 4 bo u).drop 20).take 4) = u := by
      rw [append_extract (encInt 1 bo em ++ padBytes 3 ++ encInt 4 bo cs ++
          encInt 4 bo doff ++ encInt 4 bo i ++ encInt 4 bo po) (encInt 4 bo u) []
        20 4 (by simp [List.append_assoc])
        (by simp [length_encInt, length_padBytes]) (length_encInt _ _ _)]
      exact decSInt_encInt 4 bo u (by norm_num) (by omega) (by omega)
    simp only [EntryHeaderDict.mk.injEq]
    exact ⟨hhead, hcs2, hdo2, by rw [hun2], by rw [hid2], by rw [hpo2b]⟩
  · rw [if_neg hu] at hun
    subst hun
    simp only [hu, if_false, List.append_nil] at hhead hcs2 hdo2 hid2 hpo2b ⊢
    simp only [EntryHeaderDict.mk.injEq]
    exact ⟨hhead, hcs2, hdo2, rfl, by rw [hid2], by rw [hpo2b]⟩

theorem bnd4_header_roundtrip_one (R : MagicRules) (m : Int) (bo : Bool)
    (d : EntryHeaderDict)
    (hid : R.has_id m = true) (hpath : R.has_path m = true)
    (hem : 0 ≤ d.entry_magic ∧ d.entry_magic < 256)
    (hcs : 0 ≤ d.compressed_data_size ∧ d.compressed_data_size < 2 ^ 31)
    (hdo : 0 ≤ d.data_offset ∧ d.data_offset < 2 ^ 31)
    (hei : ∃ i, d.entry_id = some i ∧ -(2 ^ 31) ≤ i ∧ i < 2 ^ 31)
    (hpo : ∃ po, d.path_offset = some po ∧ 0 ≤ po ∧ po < 2 ^ 31)
    (hun : if R.has_uncompressed_size m then
        ∃ u, d.uncompressed_data_size = some u ∧ 0 ≤ u ∧ u < 2 ^ 31
      else d.uncompressed_data_size = none) :
    bnd4_parse_entry_header R m bo (bnd4_pack_entry_header R m bo d) = d := by
  obtain ⟨em, cs, doff, unc, eid, po'⟩ := d
  simp only at hem hcs hdo hei hpo hun
  obtain ⟨i, hi, hi1, hi2⟩ := hei
  obtain ⟨po, hpo', hpo1, hpo2⟩ := hpo
  subst hi
  subst hpo'
  rw [bnd4_pack_entry_header, bnd4_parse_entry_header]
  simp only [hid, hpath, if_true, Option.getD_some]
  by_cases hu : R.has_uncompressed_size m
  · rw [if_pos hu] at hun
    obtain ⟨u, hu1, hu2, hu3⟩ := hun
    subst hu1
    simp only [hu, if_true, Option.getD_some]
    try simp only [show (16 + 8 : Nat) = 24 from rfl,
      show (24 + 4 : Nat) = 28 from rfl, show (28 + 4 : Nat) = 32 from rfl]
    have hhead : (((encInt 1 bo em ++ padBytes 3 ++ encInt 4 bo (-1) ++
        encInt 8 bo cs ++ encInt 8 bo u ++ encInt 4 bo doff ++ encInt 4 bo i ++
        encInt 4 bo po ++ (if m = 0x20 then padBytes 8 else [])).headD 0 :
          Nat) : Int) = em := by
      rw [show encInt 1 bo em ++ padBytes 3 ++ encInt 4 bo (-1) ++
          encInt 8 bo cs ++ encInt 8 bo u ++ encInt 4 bo doff ++ encInt 4 bo i ++
          encInt 4 bo po ++ (if m = 0x20 then padBytes 8 else []) =
        encInt 1 bo em ++ (padBytes 3 ++ encInt 4 bo (-1) ++
          encInt 8 bo cs ++ encInt 8 bo u ++ encInt 4 bo doff ++ encInt 4 bo i ++
          encInt 4 bo po ++ (if m = 0x20 then padBytes 8 else []))
        from by simp [List.append_assoc]]
      exact headD_encInt_one bo em _ hem.1 hem.2
    have hcs2 : decSInt 8 bo (((encInt 1 bo em ++ padBytes 3 ++
        encInt 4 bo (-1) ++ encInt 8 bo cs ++ encInt 8 bo u ++ encInt 4 bo doff ++
        encInt 4 bo i ++ encInt 4 bo po ++
        (if m = 0x20 then padBytes 8 else [])).drop 8).take 8) = cs := by
      rw [append_extract (encInt 1 bo em ++ padBytes 3 ++ encInt 4 bo (-1))
        (encInt 8 bo cs)
        (encInt 8 bo u ++ encInt 4 bo doff ++ encInt 4 bo i ++ encInt 4 bo po ++
          (if m = 0x20 then padBytes 8 else []))
        8 8 (by simp [List.append_assoc])
        (by simp [length_encInt, length_padBytes]) (length_encInt _ _ _)]
      exact decSInt_encInt 8 bo cs (by norm_num) (by have := hcs.1; omega)
        (by have := hcs.2; omega)
    have hun2 : decSInt 8 bo (((encInt 1 bo em ++ padBytes 3 ++
        encInt 4 bo (-1) ++ encInt 8 bo cs ++ encInt 8 bo u ++ encInt 4 bo doff ++
        encInt 4 bo i ++ encInt 4 bo po ++
        (if m = 0x20 then padBytes 8 else [])).drop 16).take 8) = u := by
      rw [append_extract (encInt 1 bo em ++ padBytes 3 ++ encInt 4 bo (-1) ++
          encInt 8 bo cs) (encInt 8 bo u)
        (encInt 4 bo doff ++ encInt 4 bo i ++ encInt 4 bo po ++
          (if m = 0x20 then padBytes 8 else []))
        16 8 (by simp [List.append_assoc])
        (by simp [length_encInt, length_padBytes]) (length_encInt _ _ _)]
      exact decSInt_encInt 8 bo u (by norm_num) (by omega) (by omega)
    have hdo2 : ((decUInt bo (((encInt 1 bo em ++ padBytes 3 ++
        encInt 4 bo (-1) ++ encInt 8 bo cs ++ encInt 8 bo u ++ encInt 4 bo doff ++
        encInt 4 bo i ++ encInt 4 bo po ++
        (if m = 0x20 then padBytes 8 else [])).drop 24).take 4) : Nat) : Int) =
        doff := by
      rw [append_extract (encInt 1 bo em ++ padBytes 3 ++ encInt 4 bo (-1) ++
          encInt 8 bo cs ++ encInt 8 bo u) (encInt 4 bo doff)
        (encInt 4 bo i ++ encInt 4 bo po ++
          (if m = 0x20 then padBytes 8 else []))
        24 4 (by simp [List.append_assoc])
        (by simp [length_encInt, length_padBytes]) (length_encInt _ _ _)]
      rw [decUInt_encInt 4 bo doff hdo.1 (by have := hdo.2; omega)]
      exact Int.toNat_of_nonneg hdo.1
    have hid2 : decSInt 4 bo (((encInt 1 bo em ++ padBytes 3 ++
        encInt 4 bo (-1) ++ encInt 8 bo cs ++ encInt 8 bo u ++ encInt 4 bo doff ++
        encInt 4 bo i ++ encInt 4 bo po ++
        (if m = 0x20 then padBytes 8 else [])).drop 28).take 4) = i := by
      rw [append_extract (encInt 1 bo em ++ padBytes 3 ++ encInt 4 bo (-1) ++
          encInt 8 bo cs ++ encInt 8 bo u ++ encInt 4 bo doff) (encInt 4 bo i)
        (encInt 4 bo po ++ (if m = 0x20 then padBytes 8 else []))
        28 4 (by simp [List.append_assoc])
        (by simp [length_encInt, length_padBytes]) (length_encInt _ _ _)]
      exact decSInt_encInt 4 bo i (by norm_num) (by omega) (by omega)
    have hpo2b : decSInt 4 bo (((encInt 1 bo em ++ padBytes 3 ++
        encInt 4 bo (-1) ++ encInt 8 bo cs ++ encInt 8 bo u ++ encInt 4 bo doff ++
        encInt 4 bo i ++ encInt 4 bo po ++
        (if m = 0x20 then padBytes 8 else [])).drop 32).take 4) = po := by
      rw [append_extract (encInt 1 bo em ++ padBytes 3 ++ encInt 4 bo (-1) ++
          encInt 8 bo cs ++ encInt 8 bo u ++ encInt 4 bo doff ++ encInt 4 bo i)
        (encInt 4 bo po) (if m = 0x20 then padBytes 8 else [])
        32 4 (by simp [List.append_assoc])
        (by simp [length_encInt, length_padBytes]) (length_encInt _ _ _)]
      exact decSInt_encInt 4 bo po (by norm_num) (by omega) (by omega)
    simp only [EntryHeaderDict.mk.injEq]
    exact ⟨hhead, hcs2, hdo2, by rw [hun2], by rw [hid2], by rw [hpo2b]⟩
  · rw [if_neg hu] at hun
    subst hun
    simp only [hu, Bool.false_eq_true, if_false, List.append_nil]
    try simp only [show (16 + 0 : Nat) = 16 from rfl,
      show (16 + 4 : Nat) = 20 from rfl, show (20 + 4 : Nat) = 24 from rfl]
    have hhead : (((encInt 1 bo em ++ padBytes 3 ++ encInt 4 bo (-1) ++
        encInt 8 bo cs ++ encInt 4 bo doff ++ encInt 4 bo i ++
        encInt 4 bo po ++ (if m = 0x20 then padBytes 8 else [])).headD 0 :
          Nat) : Int) = em := by
      rw [show encInt 1 bo em ++ padBytes 3 ++ encInt 4 bo (-1) ++
          encInt 8 bo cs ++ encInt 4 bo doff ++ encInt 4 bo i ++
          encInt 4 bo po ++ (if m = 0x20 then padBytes 8 else []) =
        encInt 1 bo em ++ (padBytes 3 ++ encInt 4 bo (-1) ++
          encInt 8 bo cs ++ encInt 4 bo doff ++ encInt 4 bo i ++
          encInt 4 bo po ++ (if m = 0x20 then padBytes 8 else []))
        from by simp [List.append_assoc]]

      exact headD_encInt_one bo em _ hem.1 hem.2
    have hcs2 : decSInt 8 bo (((encInt 1 bo em ++ padBytes 3 ++
        encInt 4 bo (-1) ++ encInt 8 bo cs ++ encInt 4 bo doff ++
        encInt 4 bo i ++ encInt 4 bo po ++
        (if m = 0x20 then padBytes 8 else [])).drop 8).take 8) = cs := by
      rw [append_extract (encInt 1 bo em ++ padBytes 3 ++ encInt 4 bo (-1))
        (encInt 8 bo cs)
        (encInt 4 bo doff ++ encInt 4 bo i ++ encInt 4 bo po ++
          (if m = 0x20 then padBytes 8 else []))
        8 8 (by simp [List.append_assoc])
        (by simp [length_encInt, length_padBytes]) (length_encInt _ _ _)]
      exact decSInt_encInt 8 bo cs (by norm_num) (by have := hcs.1; omega)
        (by have := hcs.2; omega)
    have hdo2 : ((decUInt bo (((encInt 1 bo em ++ padBytes 3 ++
        encInt 4 bo (-1) ++ encInt 8 bo cs ++ encInt 4 bo doff ++
        encInt 4 bo i ++ encInt 4 bo po ++
        (if m = 0x20 then padBytes 8 else [])).drop 16).take 4) : Nat) : Int) =
        doff := by
      rw [append_extract (encInt 1 bo em ++ padBytes 3 ++ encInt 4 bo (-1) ++
          encInt 8 bo cs) (encInt 4 bo doff)
        (encInt 4 bo i ++ encInt 4 bo po ++
          (if m = 0x20 then padBytes 8 else []))
        16 4 (by simp [List.append_assoc])
        (by simp [length_encInt, length_padBytes]) (length_encInt _ _ _)]
      rw [decUInt_encInt 4 bo doff hdo.1 (by have := hdo.2; omega)]
      exact Int.toNat_of_nonneg hdo.1
    have hid2 : decSInt 4 bo (((encInt 1 bo em ++ padBytes 3 ++
        encInt 4 bo (-1) ++ encInt 8 bo cs ++ encInt 4 bo doff ++
        encInt 4 bo i ++ encInt 4 bo po ++
        (if m = 0x20 then padBytes 8 else [])).drop 20).take 4) = i := by
      rw [append_extract (encInt 1 bo em ++ padBytes 3 ++ encInt 4 bo (-1) ++
          encInt 8 bo cs ++ encInt 4 bo doff) (encInt 4 bo i)
        (encInt 4 bo po ++ (if m = 0x20 then padBytes 8 else []))
        20 4 (by simp [List.append_assoc])
        (by simp [length_encInt, length_padBytes]) (length_encInt _ _ _)]
      exact decSInt_encInt 4 bo i (by norm_num) (by omega) (by omega)
    have hpo2b : decSInt 4 bo (((encInt 1 bo em ++ padBytes 3 ++
        encInt 4 bo (-1) ++ encInt 8 bo cs ++ encInt 4 bo doff ++
        encInt 4 bo i ++ encInt 4 bo po ++
        (if m = 0x20 then padBytes 8 else [])).drop 24).take 4) = po := by
      rw [append_extract (encInt 1 bo em ++ padBytes 3 ++ encInt 4 bo (-1) ++
          encInt 8 bo cs ++ encInt 4 bo doff ++ encInt 4 bo i)
        (encInt 4 bo po) (if m = 0x20 then padBytes 8 else [])
        24 4 (by simp [List.append_assoc])
        (by simp [length_encInt, length_padBytes]) (length_encInt _ _ _)]
      exact decSInt_encInt 4 bo po (by norm_num) (by omega) (by omega)
    simp only [EntryHeaderDict.mk.injEq]
    exact ⟨hhead, hcs2, hdo2, trivial, by rw [hid2], by rw [hpo2b]⟩

theorem bnd3_dicts_rebase (R : MagicRules) (Z : ZlibModel) (E : EncodingModel)
    (m : Int) (A B : Nat) :
    ∀ (es : List BNDEntry) (poff doff : Nat),
      (bnd3_dicts_spec R Z E m poff doff es).map (fun d =>
        { d with
            data_offset := d.data_offset + (B : Int)
            path_offset :=
              if R.has_path m then d.path_offset.map (fun po => po + (A : Int))
              else d.path_offset }) =
      bnd3_dicts_spec R Z E m (poff + A) (doff + B) es
  | [], _, _ => by simp [bnd3_dicts_spec]
  | e :: es, poff, doff => by
      rw [bnd3_dicts_spec, bnd3_dicts_spec, List.map_cons,
        bnd3_dicts_rebase R Z E m A B es (poff + (packed_path_of R E m e).length)
          (doff + (packed_data_of R Z e).length)]
      have hhd : ({ bnd3_dict_of R Z m e poff doff with
          data_offset := (bnd3_dict_of R Z m e poff doff).data_offset + (B : Int)
          path_offset :=
            if R.has_path m then
              (bnd3_dict_of R Z m e poff doff).path_offset.map
                (fun po => po + (A : Int))
            else (bnd3_dict_of R Z m e poff doff).path_offset } :
          EntryHeaderDict) = bnd3_dict_of R Z m e (poff + A) (doff + B) := by
        by_cases hp : R.has_path m <;>
          simp [bnd3_dict_of, hp, EntryHeaderDict.mk.injEq] <;> push_cast <;> ring
      rw [hhd]
      have h1 : poff + (packed_path_of R E m e).length + A =
          poff + A + (packed_path_of R E m e).length := by ring
      have h2 : doff + (packed_data_of R Z e).length + B =
          doff + B + (packed_data_of R Z e).length := by ring
      rw [h1, h2]

theorem bnd4_dicts_rebase (R : MagicRules) (Z : ZlibModel) (E : EncodingModel)
    (m : Int) (A B : Nat) :
    ∀ (es : List BNDEntry) (poff doff : Nat),
      (bnd4_dicts_spec R Z E m poff doff es).map (fun d =>
        { d with
            data_offset := d.data_offset + (B : Int)
            path_offset :=
              if R.has_path m then d.path_offset.map (fun po => po + (A : Int))
              else d.path_offset }) =
      bnd4_dicts_spec R Z E m (poff + A) (doff + B) es
  | [], _, _ => by simp [bnd4_dicts_spec]
  | e :: es, poff, doff => by
      rw [bnd4_dicts_spec, bnd4_dicts_spec, List.map_cons,
        bnd4_dicts_rebase R Z E m A B es (poff + (packed_path_of R E m e).length)
          (doff + 10 + (packed_data_of R Z e).length)]
      have hhd : ({ bnd4_dict_of R Z m e poff doff with
          data_offset := (bnd4_dict_of R Z m e poff doff).data_offset + (B : Int)
          path_offset :=
            if R.has_path m then
              (bnd4_dict_of R Z m e poff doff).path_offset.map
                (fun po => po + (A : Int))
            else (bnd4_dict_of R Z m e poff doff).path_offset } :
          EntryHeaderDict) = bnd4_dict_of R Z m e (poff + A) (doff + B) := by
        by_cases hp : R.has_path m <;>
          simp [bnd4_dict_of, hp, EntryHeaderDict.mk.injEq] <;> push_cast <;> ring
      rw [hhd]
      have h1 : poff + (packed_path_of R E m e).length + A =
          poff + A + (packed_path_of R E m e).length := by ring
      have h2 : doff + 10 + (packed_data_of R Z e).length + B =
          doff + B + 10 + (packed_data_of R Z e).length := by ring
      rw [h1, h2]

theorem bnd3_headers_table_roundtrip (R : MagicRules) (Z : ZlibModel)
    (E : EncodingModel) (m : Int) (bo : Bool)
    (hid : R.has_id m = true) (hpath : R.has_path m = true) :
    ∀ (es : List BNDEntry) (poff doff : Nat),
      (∀ e ∈ es, (∃ i, e.id = some i ∧ -(2 ^ 31) ≤ i ∧ i < 2 ^ 31) ∧
        0 ≤ e.magic ∧ e.magic < 256 ∧ e.data.length < 2 ^ 31) →
      poff + ((es.map (packed_path_of R E m)).flatten).length < 2 ^ 31 →
      doff + ((es.map (packed_data_of R Z)).flatten).length < 2 ^ 31 →
      (bnd3_dicts_spec R Z E m poff doff es).map
        (fun d => bnd3_parse_entry_header R m bo (bnd3_pack_entry_header R m bo d)) =
      bnd3_dicts_spec R Z E m poff doff es
  | [], _, _, _, _, _ => by simp [bnd3_dicts_spec]
  | e :: es, poff, doff, hc, hpb, hdb => by
      simp only [List.map_cons, List.flatten_cons, List.length_append] at hpb hdb
      rw [bnd3_dicts_spec, List.map_cons]
      have he := hc e (by simp)
      obtain ⟨⟨i, hi, hi1, hi2⟩, hm1, hm2, hdl⟩ := he
      have hone : bnd3_parse_entry_header R m bo
          (bnd3_pack_entry_header R m bo (bnd3_dict_of R Z m e poff doff)) =
          bnd3_dict_of R Z m e poff doff := by
        apply bnd3_header_roundtrip_one R m bo _ hid hpath
        · constructor <;> simp [bnd3_dict_of, hm1, hm2]
        · constructor
          · simp [bnd3_dict_of]
          · simp only [bnd3_dict_of]
            have : (packed_data_of R Z e).length < 2 ^ 31 := by omega
            exact_mod_cast this
        · constructor
          · simp [bnd3_dict_of]
          · simp only [bnd3_dict_of]
            have : doff < 2 ^ 31 := by omega
            exact_mod_cast this
        · refine ⟨i, ?_, hi1, hi2⟩
          simp [bnd3_dict_of, hid, hi]
        · refine ⟨(poff : Int), ?_, by positivity, ?_⟩
          · simp [bnd3_dict_of, hpath]
          · have : poff < 2 ^ 31 := by omega
            exact_mod_cast this
        · by_cases hu : R.has_uncompressed_size m
          · rw [if_pos hu]
            refine ⟨(e.data.length : Int), ?_, by positivity, ?_⟩
            · simp [bnd3_dict_of, hu]
            · exact_mod_cast hdl
          · rw [if_neg hu]
            simp [bnd3_dict_of, hu]
      rw [hone, bnd3_headers_table_roundtrip R Z E m bo hid hpath es
        (poff + (packed_path_of R E m e).length)
        (doff + (packed_data_of R Z e).length)
        (fun x hx => hc x (by simp [hx])) (by omega) (by omega)]

theorem bnd4_headers_table_roundtrip (R : MagicRules) (Z : ZlibModel)
    (E : EncodingModel) (m : Int) (bo : Bool)
    (hid : R.has_id m = true) (hpath : R.has_path m = true) :
    ∀ (es : List BNDEntry) (poff doff : Nat),
      (∀ e ∈ es, (∃ i, e.id = some i ∧ -(2 ^ 31) ≤ i ∧ i < 2 ^ 31) ∧
        0 ≤ e.magic ∧ e.magic < 256 ∧ e.data.length < 2 ^ 31) →
      poff + ((es.map (packed_path_of R E m)).flatten).length < 2 ^ 31 →
      doff + ((es.map (fun e => padBytes 10 ++ packed_data_of R Z e)).flatten).length
        < 2 ^ 31 →
      (bnd4_dicts_spec R Z E m poff doff es).map
        (fun d => bnd4_parse_entry_header R m bo (bnd4_pack_entry_header R m bo d)) =
      bnd4_dicts_spec R Z E m poff doff es
  | [], _, _, _, _, _ => by simp [bnd4_dicts_spec]
  | e :: es, poff, doff, hc, hpb, hdb => by
      simp only [List.map_cons, List.flatten_cons, List.length_append,
        length_padBytes] at hpb hdb
      rw [bnd4_dicts_spec, List.map_cons]
      have he := hc e (by simp)
      obtain ⟨⟨i, hi, hi1, hi2⟩, hm1, hm2, hdl⟩ := he
      have hone : bnd4_parse_entry_header R m bo
          (bnd4_pack_entry_header R m bo (bnd4_dict_of R Z m e poff doff)) =
          bnd4_dict_of R Z m e poff doff := by
        apply bnd4_header_roundtrip_one R m bo _ hid hpath
        · constructor <;> simp [bnd4_dict_of, hm1, hm2]
        · constructor
          · simp [bnd4_dict_of]
          · simp only [bnd4_dict_of]
            have : (packed_data_of R Z e).length < 2 ^ 31 := by omega
            exact_mod_cast this
        · constructor
          · simp only [bnd4_dict_of]
            positivity
          · simp only [bnd4_dict_of]
            have : doff + 10 < 2 ^ 31 := by omega
            exact_mod_cast this
        · refine ⟨i, ?_, hi1, hi2⟩
          simp [bnd4_dict_of, hid, hi]
        · refine ⟨(poff : Int), ?_, by positivity, ?_⟩
          · simp [bnd4_dict_of, hpath]
          · have : poff < 2 ^ 31 := by omega
            exact_mod_cast this
        · by_cases hu : R.has_uncompressed_size m
          · rw [if_pos hu]
            refine ⟨(e.data.length : Int), ?_, by positivity, ?_⟩
            · simp [bnd4_dict_of, hu]
            · exact_mod_cast hdl
          · rw [if_neg hu]
            simp [bnd4_dict_of, hu]
      rw [hone, bnd4_headers_table_roundtrip R Z E m bo hid hpath es
        (poff + (packed_path_of R E m e).length)
        (doff + 10 + (packed_data_of R Z e).length)
        (fun x hx => hc x (by simp [hx])) (by omega) (by omega)]

theorem bnd3_entries_unpack_ok (R : MagicRules) (Z : ZlibModel)
    (E : EncodingModel) (m : Int)
    (hid : R.has_id m = true) (hpath : R.has_path m = true)
    (hZ : ∀ dd, Z.decompress (Z.compress dd) = some dd) :
    ∀ (es : List BNDEntry) (buf ppre psuf dpre dsuf : List Nat),
      buf = ppre ++ ((es.map (packed_path_of R E m)).flatten ++ psuf) →
      buf = dpre ++ ((es.map (packed_data_of R Z)).flatten ++ dsuf) →
      (∀ e ∈ es, e.path ≠ none) →
      (∀ pre post e, e ∈ es →
        E.read_str (pre ++ (E.encode (e.path.getD []) ++ 0 :: post)) pre.length =
          some (e.path.getD [])) →
      bnd_entry_unpack R Z E buf
        (bnd3_dicts_spec R Z E m ppre.length dpre.length es) = .ok es
  | [], buf, ppre, psuf, dpre, dsuf, _, _, _, _ => rfl
  | e :: es, buf, ppre, psuf, dpre, dsuf, hbufP, hbufD, hpaths, hread => by
      obtain ⟨p0, hp0⟩ : ∃ p0, e.path = some p0 :=
        Option.ne_none_iff_exists.mp (hpaths e (by simp)) |>.imp
          (fun _ h => h.symm)
      have hrd : E.read_str buf ppre.length = some (e.path.getD []) := by
        rw [show buf = ppre ++ (E.encode (e.path.getD []) ++
            0 :: ((es.map (packed_path_of R E m)).flatten ++ psuf)) from by
          rw [hbufP]
          simp [packed_path_of, hpath, List.flatten_cons, List.append_assoc]]
        exact hread ppre _ e (by simp)
      have hraw : (buf.drop dpre.length).take (packed_data_of R Z e).length =
          packed_data_of R Z e :=
        append_extract dpre (packed_data_of R Z e)
          ((es.map (packed_data_of R Z)).flatten ++ dsuf) dpre.length
          (packed_data_of R Z e).length
          (by rw [hbufD]; simp [List.flatten_cons, List.append_assoc]) rfl rfl
      have hone : bnd_entry_unpack_one R Z E buf
          (bnd3_dict_of R Z m e ppre.length dpre.length) = .ok e := by
        rw [bnd_entry_unpack_one]
        simp only [bnd3_dict_of, hpath, hid, if_true]
        rw [if_neg (by simp)]
        rw [Int.toNat_natCast, hrd]
        simp only [bind, Except.bind]
        rw [if_neg (by simp)]
        simp only [Int.toNat_natCast, Int.toNat_natCast, Int.toNat_ofNat]
        rw [hraw]
        by_cases hcmp : R.is_entry_compressed e.magic
        · rw [if_pos hcmp]
          rw [show packed_data_of R Z e = Z.compress e.data from by
            simp [packed_data_of, get_data_for_pack, hcmp]]
          rw [hZ e.data]
          simp only []
          obtain ⟨dat, eid, pth, mg⟩ := e
          simp only at hp0
          subst hp0
          rfl
        · rw [if_neg hcmp]
          rw [show packed_data_of R Z e = e.data from by
            simp [packed_data_of, get_data_for_pack, hcmp]]
          simp only []
          obtain ⟨dat, eid, pth, mg⟩ := e
          simp only at hp0
          subst hp0
          rfl
      rw [bnd3_dicts_spec, bnd_entry_unpack, List.mapM_cons, hone]
      have hrest := bnd3_entries_unpack_ok R Z E m hid hpath hZ es buf
        (ppre ++ packed_path_of R E m e) psuf
        (dpre ++ packed_data_of R Z e) dsuf
        (by rw [hbufP]; simp [List.flatten_cons, List.append_assoc])
        (by rw [hbufD]; simp [List.flatten_cons, List.append_assoc])
        (fun x hx => hpaths x (by simp [hx]))
        (fun pre post x hx => hread pre post x (by simp [hx]))
      rw [bnd_entry_unpack] at hrest
      simp only [List.length_append] at hrest
      rw [hrest]
      rfl

theorem bnd4_entries_unpack_ok (R : MagicRules) (Z : ZlibModel)
    (E : EncodingModel) (m : Int)
    (hid : R.has_id m = true) (hpath : R.has_path m = true)
    (hZ : ∀ dd, Z.decompress (Z.compress dd) = some dd) :
    ∀ (es : List BNDEntry) (buf ppre psuf dpre dsuf : List Nat),
      buf = ppre ++ ((es.map (packed_path_of R E m)).flatten ++ psuf) →
      buf = dpre ++
        ((es.map (fun e => padBytes 10 ++ packed_data_of R Z e)).flatten ++ dsuf) →
      (∀ e ∈ es, e.path ≠ none) →
      (∀ pre post e, e ∈ es →
        E.read_str (pre ++ (E.encode (e.path.getD []) ++ 0 :: post)) pre.length =
          some (e.path.getD [])) →
      bnd_entry_unpack R Z E buf
        (bnd4_dicts_spec R Z E m ppre.length dpre.length es) = .ok es
  | [], buf, ppre, psuf, dpre, dsuf, _, _, _, _ => rfl
  | e :: es, buf, ppre, psuf, dpre, dsuf, hbufP, hbufD, hpaths, hread => by
      obtain ⟨p0, hp0⟩ : ∃ p0, e.path = some p0 :=
        Option.ne_none_iff_exists.mp (hpaths e (by simp)) |>.imp
          (fun _ h => h.symm)
      have hrd : E.read_str buf ppre.length = some (e.path.getD []) := by
        rw [show buf = ppre ++ (E.encode (e.path.getD []) ++
            0 :: ((es.map (packed_path_of R E m)).flatten ++ psuf)) from by
          rw [hbufP]
          simp [packed_path_of, hpath, List.flatten_cons, List.append_assoc]]
        exact hread ppre _ e (by simp)
      have hraw : (buf.drop (dpre.length + 10)).take
          (packed_data_of R Z e).length = packed_data_of R Z e :=
        append_extract (dpre ++ padBytes 10) (packed_data_of R Z e)
          ((es.map (fun e => padBytes 10 ++ packed_data_of R Z e)).flatten ++ dsuf)
          (dpre.length + 10) (packed_data_of R Z e).length
          (by rw [hbufD]; simp [List.flatten_cons, List.append_assoc])
          (by simp [length_padBytes]) rfl
      have hone : bnd_entry_unpack_one R Z E buf
          (bnd4_dict_of R Z m e ppre.length dpre.length) = .ok e := by
        rw [bnd_entry_unpack_one]
        simp only [bnd4_dict_of, hpath, hid, if_true]
        rw [if_neg (by simp)]
        rw [Int.toNat_natCast, hrd]
        simp only [bind, Except.bind]
        rw [if_neg (by simp only [not_lt]; positivity)]
        simp only [Int.toNat_natCast, Int.toNat_ofNat]
        rw [hraw]
        by_cases hcmp : R.is_entry_compressed e.magic
        · rw [if_pos hcmp]
          rw [show packed_data_of R Z e = Z.compress e.data from by
            simp [packed_data_of, get_data_for_pack, hcmp]]
          rw [hZ e.data]
          simp only []
          obtain ⟨dat, eid, pth, mg⟩ := e
          simp only at hp0
          subst hp0
          rfl
        · rw [if_neg hcmp]
          rw [show packed_data_of R Z e = e.data from by
            simp [packed_data_of, get_data_for_pack, hcmp]]
          simp only []
          obtain ⟨dat, eid, pth, mg⟩ := e
          simp only at hp0
          subst hp0
          rfl
      rw [bnd4_dicts_spec, bnd_entry_unpack, List.mapM_cons, hone]
      have hrest := bnd4_entries_unpack_ok R Z E m hid hpath hZ es buf
        (ppre ++ packed_path_of R E m e) psuf
        (dpre ++ (padBytes 10 ++ packed_data_of R Z e)) dsuf
        (by rw [hbufP]; simp [List.flatten_cons, List.append_assoc])
        (by rw [hbufD]; simp [List.flatten_cons, List.append_assoc])
        (fun x hx => hpaths x (by simp [hx]))
        (fun pre post x hx => hread pre post x (by simp [hx]))
      rw [bnd_entry_unpack] at hrest
      simp only [List.length_append, length_padBytes] at hrest
      rw [show dpre.length + (10 + (packed_data_of R Z e).length) =
        dpre.length + 10 + (packed_data_of R Z e).length from by ring] at hrest
      rw [hrest]
      rfl

theorem length_bnd3_pack_header (b : BND3) (n fs : Int)
    (hsig : b.signature.length ≤ 8) :
    (bnd3_pack_header b n fs).length = 32 := by
  simp [bnd3_pack_header, length_encInt, length_encBool, length_padBytes,
    fixedBytes]
  omega

theorem bnd3_dicts_spec_length (R : MagicRules) (Z : ZlibModel)
    (E : EncodingModel) (m : Int) :
    ∀ (es : List BNDEntry) (poff doff : Nat),
      (bnd3_dicts_spec R Z E m poff doff es).length = es.length
  | [], _, _ => rfl
  | e :: es, poff, doff => by
      rw [bnd3_dicts_spec, List.length_cons, List.length_cons,
        bnd3_dicts_spec_length R Z E m es _ _]

theorem bnd4_dicts_spec_length (R : MagicRules) (Z : ZlibModel)
    (E : EncodingModel) (m : Int) :
    ∀ (es : List BNDEntry) (poff doff : Nat),
      (bnd4_dicts_spec R Z E m poff doff es).length = es.length
  | [], _, _ => rfl
  | e :: es, poff, doff => by
      rw [bnd4_dicts_spec, List.length_cons, List.length_cons,
        bnd4_dicts_spec_length R Z E m es _ _]

theorem flatten_map_length_perm (f : BNDEntry → List Nat)
    {l1 l2 : List BNDEntry} (h : l1.Perm l2) :
    ((l1.map f).flatten).length = ((l2.map f).flatten).length := by
  rw [List.length_flatten, List.length_flatten, List.map_map, List.map_map]
  exact (h.map (List.length ∘ f)).sum_eq

theorem bnd3_parse_reduce (R : MagicRules) (Z : ZlibModel) (E : EncodingModel)
    (buf s14 g18 eh : List Nat) (m : Int) (be : Bool) (n : Nat)
    (dicts : List EntryHeaderDict)
    (r1 : readBytesExact buf 0 14 = .ok s14)
    (h4 : s14.take 4 = [66, 78, 68, 51])
    (hm : decSInt 1 false ((s14.drop 12).take 1) = m)
    (hf : decBool ((s14.drop 13).take 1) = be)
    (hbo : (be || R.is_big_endian m) = be)
    (r2 : readBytesExact buf 14 18 = .ok g18)
    (hcnt : decSInt 4 be ((g18.drop 2).take 4) = (n : Int))
    (r3 : readBytesExact buf 32 (bnd3_entry_header_size R m * n) = .ok eh)
    (hsplit : (split_records (bnd3_entry_header_size R m) n eh).map
        (bnd3_parse_entry_header R m be) = dicts) :
    bnd3_parse R Z E buf = bnd_entry_unpack R Z E buf dicts := by
  rw [bnd3_parse]
  simp only [r1, bind, Except.bind]
  rw [if_neg (by simp [h4])]
  simp only [hm, hf, hbo, r2, hcnt, Int.toNat_natCast, r3, hsplit]

theorem bnd3_roundtrip (R : MagicRules) (Z : ZlibModel) (E : EncodingModel)
    (b : BND3)
    (hid : R.has_id b.magic = true) (hpath : R.has_path b.magic = true)
    (hZ : ∀ dd, Z.decompress (Z.compress dd) = some dd)
    (hsig : b.signature.length ≤ 8)
    (hmg : 0 ≤ b.magic ∧ b.magic < 128)
    (hendian : R.is_big_endian b.magic = true → b.big_endian = true)
    (hcanon : ∀ e ∈ b.entries,
      (∃ i, e.id = some i ∧ -(2 ^ 31) ≤ i ∧ i < 2 ^ 31) ∧ e.path ≠ none ∧
        0 ≤ e.magic ∧ e.magic < 256 ∧ e.data.length < 2 ^ 31)
    (hread : ∀ pre post e, e ∈ b.entries →
      E.read_str (pre ++ (E.encode (e.path.getD []) ++ 0 :: post)) pre.length =
        some (e.path.getD []))
    (hnodup : (b.entries.map (fun e => e.id)).Nodup)
    (hsize : bnd3_header_size +
        bnd3_entry_header_size R b.magic * b.entries.length +
        ((b.entries.map (packed_path_of R E b.magic)).flatten).length +
        ((b.entries.map (packed_data_of R Z)).flatten).length < 2 ^ 31) :
    bnd3_pack R Z E b = .ok ((bnd3_pack_header b (b.entries.length : Int) (((((bnd3_header_size + bnd3_entry_header_size R b.magic * b.entries.length) + (((b.entries.insertionSort id_le).map (packed_path_of R E b.magic)).flatten).length) + (((b.entries.insertionSort id_le).map (packed_data_of R Z)).flatten).length) : Nat) : Int)) ++ (((bnd3_dicts_spec R Z E b.magic (bnd3_header_size + bnd3_entry_header_size R b.magic * b.entries.length) ((bnd3_header_size + bnd3_entry_header_size R b.magic * b.entries.length) + (((b.entries.insertionSort id_le).map (packed_path_of R E b.magic)).flatten).length) (b.entries.insertionSort id_le)).map (bnd3_pack_entry_header R b.magic b.big_endian)).flatten) ++ (((b.entries.insertionSort id_le).map (packed_path_of R E b.magic)).flatten) ++ (((b.entries.insertionSort id_le).map (packed_data_of R Z)).flatten)) ∧
    bnd3_unpack R Z E [] ((bnd3_pack_header b (b.entries.length : Int) (((((bnd3_header_size + bnd3_entry_header_size R b.magic * b.entries.length) + (((b.entries.insertionSort id_le).map (packed_path_of R E b.magic)).flatten).length) + (((b.entries.insertionSort id_le).map (packed_data_of R Z)).flatten).length) : Nat) : Int)) ++ (((bnd3_dicts_spec R Z E b.magic (bnd3_header_size + bnd3_entry_header_size R b.magic * b.entries.length) ((bnd3_header_size + bnd3_entry_header_size R b.magic * b.entries.length) + (((b.entries.insertionSort id_le).map (packed_path_of R E b.magic)).flatten).length) (b.entries.insertionSort id_le)).map (bnd3_pack_entry_header R b.magic b.big_endian)).flatten) ++ (((b.entries.insertionSort id_le).map (packed_path_of R E b.magic)).flatten) ++ (((b.entries.insertionSort id_le).map (packed_data_of R Z)).flatten)) = ((b.entries.insertionSort id_le), none) := by
  have hperm := List.perm_insertionSort id_le b.entries
  have hcanonS : ∀ e ∈ (b.entries.insertionSort id_le),
      (∃ i, e.id = some i ∧ -(2 ^ 31) ≤ i ∧ i < 2 ^ 31) ∧ e.path ≠ none ∧
        0 ≤ e.magic ∧ e.magic < 256 ∧ e.data.length < 2 ^ 31 :=
    fun e he => hcanon e (hperm.mem_iff.mp he)
  have hsorted : bnd3_sorted_entries b.entries = .ok (b.entries.insertionSort id_le) := by
    rw [bnd3_sorted_entries, if_neg]
    rintro ⟨-, hany⟩
    rw [List.any_eq_true] at hany
    obtain ⟨x, hx, hxn⟩ := hany
    obtain ⟨⟨i, hi, -, -⟩, -⟩ := hcanon x hx
    rw [hi] at hxn
    simp at hxn
  have hloop := bnd3_entry_loop_succeeds R Z E b.magic (b.entries.insertionSort id_le) 0 0
    (fun e he => ⟨fun _ => by
        obtain ⟨⟨i, hi, -, -⟩, -, -⟩ := hcanonS e he
        simp [hi],
      fun _ => (hcanonS e he).2.1⟩)
  have hpack : bnd3_pack R Z E b = .ok ((bnd3_pack_header b (b.entries.length : Int) (((((bnd3_header_size + bnd3_entry_header_size R b.magic * b.entries.length) + (((b.entries.insertionSort id_le).map (packed_path_of R E b.magic)).flatten).length) + (((b.entries.insertionSort id_le).map (packed_data_of R Z)).flatten).length) : Nat) : Int)) ++ (((bnd3_dicts_spec R Z E b.magic (bnd3_header_size + bnd3_entry_header_size R b.magic * b.entries.length) ((bnd3_header_size + bnd3_entry_header_size R b.magic * b.entries.length) + (((b.entries.insertionSort id_le).map (packed_path_of R E b.magic)).flatten).length) (b.entries.insertionSort id_le)).map (bnd3_pack_entry_header R b.magic b.big_endian)).flatten) ++ (((b.entries.insertionSort id_le).map (packed_path_of R E b.magic)).flatten) ++ (((b.entries.insertionSort id_le).map (packed_data_of R Z)).flatten)) := by
    rw [bnd3_pack]
    simp only [hsorted, hloop, bind, Except.bind]
    rw [bnd3_dicts_rebase R Z E b.magic (bnd3_header_size + bnd3_entry_header_size R b.magic * b.entries.length) ((bnd3_header_size + bnd3_entry_header_size R b.magic * b.entries.length) + (((b.entries.insertionSort id_le).map (packed_path_of R E b.magic)).flatten).length) (b.entries.insertionSort id_le) 0 0]
    simp only [Nat.zero_add]
  refine ⟨hpack, ?_⟩
  have hHlen : ((bnd3_pack_header b (b.entries.length : Int) (((((bnd3_header_size + bnd3_entry_header_size R b.magic * b.entries.length) + (((b.entries.insertionSort id_le).map (packed_path_of R E b.magic)).flatten).length) + (((b.entries.insertionSort id_le).map (packed_data_of R Z)).flatten).length) : Nat) : Int))).length = 32 := length_bnd3_pack_header b _ _ hsig
  have hHlen2 : ((bnd3_pack_header b (b.entries.length : Int) (((((bnd3_header_size + bnd3_entry_header_size R b.magic * b.entries.length) + (((b.entries.insertionSort id_le).map (packed_path_of R E b.magic)).flatten).length) + (((b.entries.insertionSort id_le).map (packed_data_of R Z)).flatten).length) : Nat) : Int))).length = bnd3_header_size := hHlen
  have hblocks : ∀ bl ∈ (bnd3_dicts_spec R Z E b.magic (bnd3_header_size + bnd3_entry_header_size R b.magic * b.entries.length) ((bnd3_header_size + bnd3_entry_header_size R b.magic * b.entries.length) + (((b.entries.insertionSort id_le).map (packed_path_of R E b.magic)).flatten).length) (b.entries.insertionSort id_le)).map (bnd3_pack_entry_header R b.magic b.big_endian),
      bl.length = bnd3_entry_header_size R b.magic := by
    intro bl hbl
    obtain ⟨d, -, rfl⟩ := List.mem_map.mp hbl
    exact length_bnd3_pack_entry_header R b.magic b.big_endian d
  have hmaplen : ((bnd3_dicts_spec R Z E b.magic (bnd3_header_size + bnd3_entry_header_size R b.magic * b.entries.length) ((bnd3_header_size + bnd3_entry_header_size R b.magic * b.entries.length) + (((b.entries.insertionSort id_le).map (packed_path_of R E b.magic)).flatten).length) (b.entries.insertionSort id_le)).map (bnd3_pack_entry_header R b.magic b.big_endian)).length =
      b.entries.length := by
    rw [List.length_map, bnd3_dicts_spec_length, List.length_insertionSort]
  have hEHlen : ((((bnd3_dicts_spec R Z E b.magic (bnd3_header_size + bnd3_entry_header_size R b.magic * b.entries.length) ((bnd3_header_size + bnd3_entry_header_size R b.magic * b.entries.length) + (((b.entries.insertionSort id_le).map (packed_path_of R E b.magic)).flatten).length) (b.entries.insertionSort id_le)).map (bnd3_pack_entry_header R b.magic b.big_endian)).flatten)).length =
      bnd3_entry_header_size R b.magic * b.entries.length := by
    rw [flatten_length_uniform _ _ hblocks, hmaplen]
  have hehspos : 0 < bnd3_entry_header_size R b.magic := by
    rw [bnd3_entry_header_size]; omega
  have hlenle : b.entries.length ≤
      bnd3_entry_header_size R b.magic * b.entries.length :=
    Nat.le_mul_of_pos_left _ hehspos
  have hlen31 : b.entries.length < 2 ^ 31 := by
    have h32 : bnd3_header_size = 32 := rfl
    omega
  have hPSe : ((((b.entries.insertionSort id_le).map (packed_path_of R E b.magic)).flatten)).length =
      ((b.entries.map (packed_path_of R E b.magic)).flatten).length :=
    flatten_map_length_perm _ hperm
  have hDSe : ((((b.entries.insertionSort id_le).map (packed_data_of R Z)).flatten)).length =
      ((b.entries.map (packed_data_of R Z)).flatten).length :=
    flatten_map_length_perm _ hperm
  have r1 : readBytesExact ((bnd3_pack_header b (b.entries.length : Int) (((((bnd3_header_size + bnd3_entry_header_size R b.magic * b.entries.length) + (((b.entries.insertionSort id_le).map (packed_path_of R E b.magic)).flatten).length) + (((b.entries.insertionSort id_le).map (packed_data_of R Z)).flatten).length) : Nat) : Int)) ++ (((bnd3_dicts_spec R Z E b.magic (bnd3_header_size + bnd3_entry_header_size R b.magic * b.entries.length) ((bnd3_header_size + bnd3_entry_header_size R b.magic * b.entries.length) + (((b.entries.insertionSort id_le).map (packed_path_of R E b.magic)).flatten).length) (b.entries.insertionSort id_le)).map (bnd3_pack_entry_header R b.magic b.big_endian)).flatten) ++ (((b.entries.insertionSort id_le).map (packed_path_of R E b.magic)).flatten) ++ (((b.entries.insertionSort id_le).map (packed_data_of R Z)).flatten)) 0 14 = .ok (fixedBytes 4 [66, 78, 68, 51] ++ fixedBytes 8 b.signature ++ encInt 1 false b.magic ++ encBool b.big_endian) :=
    readBytesExact_ok [] (fixedBytes 4 [66, 78, 68, 51] ++ fixedBytes 8 b.signature ++ encInt 1 false b.magic ++ encBool b.big_endian)
      ((encBool b.unknown ++ encInt 1 b.big_endian 0 ++ encInt 4 b.big_endian (b.entries.length : Int) ++ encInt 4 b.big_endian (((((bnd3_header_size + bnd3_entry_header_size R b.magic * b.entries.length) + (((b.entries.insertionSort id_le).map (packed_path_of R E b.magic)).flatten).length) + (((b.entries.insertionSort id_le).map (packed_data_of R Z)).flatten).length) : Nat) : Int) ++ padBytes 8) ++ (((bnd3_dicts_spec R Z E b.magic (bnd3_header_size + bnd3_entry_header_size R b.magic * b.entries.length) ((bnd3_header_size + bnd3_entry_header_size R b.magic * b.entries.length) + (((b.entries.insertionSort id_le).map (packed_path_of R E b.magic)).flatten).length) (b.entries.insertionSort id_le)).map (bnd3_pack_entry_header R b.magic b.big_endian)).flatten) ++ (((b.entries.insertionSort id_le).map (packed_path_of R E b.magic)).flatten) ++ (((b.entries.insertionSort id_le).map (packed_data_of R Z)).flatten)) 0 14
      (by simp [bnd3_pack_header, List.append_assoc]) rfl
      (by rw [List.length_append, List.length_append, List.length_append,
        length_fixedBytes _ _ hsig, length_encInt, length_encBool]; rfl)
  have hmg2 : decSInt 1 false (((fixedBytes 4 [66, 78, 68, 51] ++ fixedBytes 8 b.signature ++ encInt 1 false b.magic ++ encBool b.big_endian).drop 12).take 1) = b.magic := by
    rw [append_extract (fixedBytes 4 [66, 78, 68, 51] ++ fixedBytes 8 b.signature)
      (encInt 1 false b.magic) (encBool b.big_endian) 12 1
      (by simp [List.append_assoc])
      (by rw [List.length_append, length_fixedBytes _ _ hsig]; rfl)
      (length_encInt _ _ _)]
    exact decSInt_encInt 1 false b.magic (by norm_num)
      (by have := hmg.1; omega) (by have := hmg.2; omega)
  have hflag : decBool (((fixedBytes 4 [66, 78, 68, 51] ++ fixedBytes 8 b.signature ++ encInt 1 false b.magic ++ encBool b.big_endian).drop 13).take 1) = b.big_endian := by
    rw [append_extract (fixedBytes 4 [66, 78, 68, 51] ++ fixedBytes 8 b.signature ++
        encInt 1 false b.magic) (encBool b.big_endian) [] 13 1
      (by simp [List.append_assoc])
      (by rw [List.length_append, List.length_append, length_fixedBytes _ _ hsig,
        length_encInt]; rfl)
      (length_encBool _)]
    exact decBool_encBool _
  have hbo : (b.big_endian || R.is_big_endian b.magic) = b.big_endian := by
    cases hbi : R.is_big_endian b.magic
    · simp
    · rw [hendian hbi]
      rfl
  have r2 : readBytesExact ((bnd3_pack_header b (b.entries.length : Int) (((((bnd3_header_size + bnd3_entry_header_size R b.magic * b.entries.length) + (((b.entries.insertionSort id_le).map (packed_path_of R E b.magic)).flatten).length) + (((b.entries.insertionSort id_le).map (packed_data_of R Z)).flatten).length) : Nat) : Int)) ++ (((bnd3_dicts_spec R Z E b.magic (bnd3_header_size + bnd3_entry_header_size R b.magic * b.entries.length) ((bnd3_header_size + bnd3_entry_header_size R b.magic * b.entries.length) + (((b.entries.insertionSort id_le).map (packed_path_of R E b.magic)).flatten).length) (b.entries.insertionSort id_le)).map (bnd3_pack_entry_header R b.magic b.big_endian)).flatten) ++ (((b.entries.insertionSort id_le).map (packed_path_of R E b.magic)).flatten) ++ (((b.entries.insertionSort id_le).map (packed_data_of R Z)).flatten)) 14 18 = .ok (encBool b.unknown ++ encInt 1 b.big_endian 0 ++ encInt 4 b.big_endian (b.entries.length : Int) ++ encInt 4 b.big_endian (((((bnd3_header_size + bnd3_entry_header_size R b.magic * b.entries.length) + (((b.entries.insertionSort id_le).map (packed_path_of R E b.magic)).flatten).length) + (((b.entries.insertionSort id_le).map (packed_data_of R Z)).flatten).length) : Nat) : Int) ++ padBytes 8) :=
    readBytesExact_ok (fixedBytes 4 [66, 78, 68, 51] ++ fixedBytes 8 b.signature ++ encInt 1 false b.magic ++ encBool b.big_endian) (encBool b.unknown ++ encInt 1 b.big_endian 0 ++ encInt 4 b.big_endian (b.entries.length : Int) ++ encInt 4 b.big_endian (((((bnd3_header_size + bnd3_entry_header_size R b.magic * b.entries.length) + (((b.entries.insertionSort id_le).map (packed_path_of R E b.magic)).flatten).length) + (((b.entries.insertionSort id_le).map (packed_data_of R Z)).flatten).length) : Nat) : Int) ++ padBytes 8) ((((bnd3_dicts_spec R Z E b.magic (bnd3_header_size + bnd3_entry_header_size R b.magic * b.entries.length) ((bnd3_header_size + bnd3_entry_header_size R b.magic * b.entries.length) + (((b.entries.insertionSort id_le).map (packed_path_of R E b.magic)).flatten).length) (b.entries.insertionSort id_le)).map (bnd3_pack_entry_header R b.magic b.big_endian)).flatten) ++ (((b.entries.insertionSort id_le).map (packed_path_of R E b.magic)).flatten) ++ (((b.entries.insertionSort id_le).map (packed_data_of R Z)).flatten)) 14 18
      (by simp [bnd3_pack_header, List.append_assoc])
      (by rw [List.length_append, List.length_append, List.length_append,
        length_fixedBytes _ _ hsig, length_encInt, length_encBool]; rfl)
      (by simp [length_encInt, length_encBool, length_padBytes])
  have hcnt : decSInt 4 b.big_endian (((encBool b.unknown ++ encInt 1 b.big_endian 0 ++ encInt 4 b.big_endian (b.entries.length : Int) ++ encInt 4 b.big_endian (((((bnd3_header_size + bnd3_entry_header_size R b.magic * b.entries.length) + (((b.entries.insertionSort id_le).map (packed_path_of R E b.magic)).flatten).length) + (((b.entries.insertionSort id_le).map (packed_data_of R Z)).flatten).length) : Nat) : Int) ++ padBytes 8).drop 2).take 4) =
      (b.entries.length : Int) := by
    rw [append_extract (encBool b.unknown ++ encInt 1 b.big_endian 0)
      (encInt 4 b.big_endian (b.entries.length : Int))
      (encInt 4 b.big_endian (((((bnd3_header_size + bnd3_entry_header_size R b.magic * b.entries.length) + (((b.entries.insertionSort id_le).map (packed_path_of R E b.magic)).flatten).length) + (((b.entries.insertionSort id_le).map (packed_data_of R Z)).flatten).length) : Nat) : Int) ++ padBytes 8) 2 4
      (by simp [List.append_assoc])
      (by simp [length_encInt, length_encBool])
      (length_encInt _ _ _)]
    exact decSInt_encInt 4 b.big_endian _ (by norm_num)
      (le_trans (by norm_num) (Int.natCast_nonneg _))
      (by exact_mod_cast hlen31)
  have r3 : readBytesExact ((bnd3_pack_header b (b.entries.length : Int) (((((bnd3_header_size + bnd3_entry_header_size R b.magic * b.entries.length) + (((b.entries.insertionSort id_le).map (packed_path_of R E b.magic)).flatten).length) + (((b.entries.insertionSort id_le).map (packed_data_of R Z)).flatten).length) : Nat) : Int)) ++ (((bnd3_dicts_spec R Z E b.magic (bnd3_header_size + bnd3_entry_header_size R b.magic * b.entries.length) ((bnd3_header_size + bnd3_entry_header_size R b.magic * b.entries.length) + (((b.entries.insertionSort id_le).map (packed_path_of R E b.magic)).flatten).length) (b.entries.insertionSort id_le)).map (bnd3_pack_entry_header R b.magic b.big_endian)).flatten) ++ (((b.entries.insertionSort id_le).map (packed_path_of R E b.magic)).flatten) ++ (((b.entries.insertionSort id_le).map (packed_data_of R Z)).flatten)) 32
      (bnd3_entry_header_size R b.magic * b.entries.length) = .ok (((bnd3_dicts_spec R Z E b.magic (bnd3_header_size + bnd3_entry_header_size R b.magic * b.entries.length) ((bnd3_header_size + bnd3_entry_header_size R b.magic * b.entries.length) + (((b.entries.insertionSort id_le).map (packed_path_of R E b.magic)).flatten).length) (b.entries.insertionSort id_le)).map (bnd3_pack_entry_header R b.magic b.big_endian)).flatten) :=
    readBytesExact_ok (bnd3_pack_header b (b.entries.length : Int) (((((bnd3_header_size + bnd3_entry_header_size R b.magic * b.entries.length) + (((b.entries.insertionSort id_le).map (packed_path_of R E b.magic)).flatten).length) + (((b.entries.insertionSort id_le).map (packed_data_of R Z)).flatten).length) : Nat) : Int)) (((bnd3_dicts_spec R Z E b.magic (bnd3_header_size + bnd3_entry_header_size R b.magic * b.entries.length) ((bnd3_header_size + bnd3_entry_header_size R b.magic * b.entries.length) + (((b.entries.insertionSort id_le).map (packed_path_of R E b.magic)).flatten).length) (b.entries.insertionSort id_le)).map (bnd3_pack_entry_header R b.magic b.big_endian)).flatten) ((((b.entries.insertionSort id_le).map (packed_path_of R E b.magic)).flatten) ++ (((b.entries.insertionSort id_le).map (packed_data_of R Z)).flatten)) 32
      (bnd3_entry_header_size R b.magic * b.entries.length)
      (by simp [List.append_assoc]) hHlen hEHlen
  have hsplit := split_records_flatten (bnd3_entry_header_size R b.magic)
    ((bnd3_dicts_spec R Z E b.magic (bnd3_header_size + bnd3_entry_header_size R b.magic * b.entries.length) ((bnd3_header_size + bnd3_entry_header_size R b.magic * b.entries.length) + (((b.entries.insertionSort id_le).map (packed_path_of R E b.magic)).flatten).length) (b.entries.insertionSort id_le)).map (bnd3_pack_entry_header R b.magic b.big_endian)) [] hblocks
  rw [List.append_nil, hmaplen] at hsplit
  have htable := bnd3_headers_table_roundtrip R Z E b.magic b.big_endian hid hpath
    (b.entries.insertionSort id_le) (bnd3_header_size + bnd3_entry_header_size R b.magic * b.entries.length) ((bnd3_header_size + bnd3_entry_header_size R b.magic * b.entries.length) + (((b.entries.insertionSort id_le).map (packed_path_of R E b.magic)).flatten).length)
    (fun e he => ⟨(hcanonS e he).1, (hcanonS e he).2.2.1,
      (hcanonS e he).2.2.2.1, (hcanonS e he).2.2.2.2⟩)
    (by have h32 : bnd3_header_size = 32 := rfl; omega)
    (by have h32 : bnd3_header_size = 32 := rfl; omega)
  have hwork := bnd3_entries_unpack_ok R Z E b.magic hid hpath hZ (b.entries.insertionSort id_le) ((bnd3_pack_header b (b.entries.length : Int) (((((bnd3_header_size + bnd3_entry_header_size R b.magic * b.entries.length) + (((b.entries.insertionSort id_le).map (packed_path_of R E b.magic)).flatten).length) + (((b.entries.insertionSort id_le).map (packed_data_of R Z)).flatten).length) : Nat) : Int)) ++ (((bnd3_dicts_spec R Z E b.magic (bnd3_header_size + bnd3_entry_header_size R b.magic * b.entries.length) ((bnd3_header_size + bnd3_entry_header_size R b.magic * b.entries.length) + (((b.entries.insertionSort id_le).map (packed_path_of R E b.magic)).flatten).length) (b.entries.insertionSort id_le)).map (bnd3_pack_entry_header R b.magic b.big_endian)).flatten) ++ (((b.entries.insertionSort id_le).map (packed_path_of R E b.magic)).flatten) ++ (((b.entries.insertionSort id_le).map (packed_data_of R Z)).flatten))
    ((bnd3_pack_header b (b.entries.length : Int) (((((bnd3_header_size + bnd3_entry_header_size R b.magic * b.entries.length) + (((b.entries.insertionSort id_le).map (packed_path_of R E b.magic)).flatten).length) + (((b.entries.insertionSort id_le).map (packed_data_of R Z)).flatten).length) : Nat) : Int)) ++ (((bnd3_dicts_spec R Z E b.magic (bnd3_header_size + bnd3_entry_header_size R b.magic * b.entries.length) ((bnd3_header_size + bnd3_entry_header_size R b.magic * b.entries.length) + (((b.entries.insertionSort id_le).map (packed_path_of R E b.magic)).flatten).length) (b.entries.insertionSort id_le)).map (bnd3_pack_entry_header R b.magic b.big_endian)).flatten)) (((b.entries.insertionSort id_le).map (packed_data_of R Z)).flatten) ((bnd3_pack_header b (b.entries.length : Int) (((((bnd3_header_size + bnd3_entry_header_size R b.magic * b.entries.length) + (((b.entries.insertionSort id_le).map (packed_path_of R E b.magic)).flatten).length) + (((b.entries.insertionSort id_le).map (packed_data_of R Z)).flatten).length) : Nat) : Int)) ++ (((bnd3_dicts_spec R Z E b.magic (bnd3_header_size + bnd3_entry_header_size R b.magic * b.entries.length) ((bnd3_header_size + bnd3_entry_header_size R b.magic * b.entries.length) + (((b.entries.insertionSort id_le).map (packed_path_of R E b.magic)).flatten).length) (b.entries.insertionSort id_le)).map (bnd3_pack_entry_header R b.magic b.big_endian)).flatten) ++ (((b.entries.insertionSort id_le).map (packed_path_of R E b.magic)).flatten)) []
    (by simp [List.append_assoc])
    (by simp [List.append_assoc])
    (fun e he => (hcanonS e he).2.1)
    (fun pre post e he => hread pre post e (hperm.mem_iff.mp he))
  simp only [List.length_append, hHlen2, hEHlen] at hwork
  have hparse : bnd3_parse R Z E ((bnd3_pack_header b (b.entries.length : Int) (((((bnd3_header_size + bnd3_entry_header_size R b.magic * b.entries.length) + (((b.entries.insertionSort id_le).map (packed_path_of R E b.magic)).flatten).length) + (((b.entries.insertionSort id_le).map (packed_data_of R Z)).flatten).length) : Nat) : Int)) ++ (((bnd3_dicts_spec R Z E b.magic (bnd3_header_size + bnd3_entry_header_size R b.magic * b.entries.length) ((bnd3_header_size + bnd3_entry_header_size R b.magic * b.entries.length) + (((b.entries.insertionSort id_le).map (packed_path_of R E b.magic)).flatten).length) (b.entries.insertionSort id_le)).map (bnd3_pack_entry_header R b.magic b.big_endian)).flatten) ++ (((b.entries.insertionSort id_le).map (packed_path_of R E b.magic)).flatten) ++ (((b.entries.insertionSort id_le).map (packed_data_of R Z)).flatten)) = .ok (b.entries.insertionSort id_le) := by
    rw [bnd3_parse_reduce R Z E ((bnd3_pack_header b (b.entries.length : Int) (((((bnd3_header_size + bnd3_entry_header_size R b.magic * b.entries.length) + (((b.entries.insertionSort id_le).map (packed_path_of R E b.magic)).flatten).length) + (((b.entries.insertionSort id_le).map (packed_data_of R Z)).flatten).length) : Nat) : Int)) ++ (((bnd3_dicts_spec R Z E b.magic (bnd3_header_size + bnd3_entry_header_size R b.magic * b.entries.length) ((bnd3_header_size + bnd3_entry_header_size R b.magic * b.entries.length) + (((b.entries.insertionSort id_le).map (packed_path_of R E b.magic)).flatten).length) (b.entries.insertionSort id_le)).map (bnd3_pack_entry_header R b.magic b.big_endian)).flatten) ++ (((b.entries.insertionSort id_le).map (packed_path_of R E b.magic)).flatten) ++ (((b.entries.insertionSort id_le).map (packed_data_of R Z)).flatten)) (fixedBytes 4 [66, 78, 68, 51] ++ fixedBytes 8 b.signature ++ encInt 1 false b.magic ++ encBool b.big_endian) (encBool b.unknown ++ encInt 1 b.big_endian 0 ++ encInt 4 b.big_endian (b.entries.length : Int) ++ encInt 4 b.big_endian (((((bnd3_header_size + bnd3_entry_header_size R b.magic * b.entries.length) + (((b.entries.insertionSort id_le).map (packed_path_of R E b.magic)).flatten).length) + (((b.entries.insertionSort id_le).map (packed_data_of R Z)).flatten).length) : Nat) : Int) ++ padBytes 8) (((bnd3_dicts_spec R Z E b.magic (bnd3_header_size + bnd3_entry_header_size R b.magic * b.entries.length) ((bnd3_header_size + bnd3_entry_header_size R b.magic * b.entries.length) + (((b.entries.insertionSort id_le).map (packed_path_of R E b.magic)).flatten).length) (b.entries.insertionSort id_le)).map (bnd3_pack_entry_header R b.magic b.big_endian)).flatten) b.magic b.big_endian
      b.entries.length (bnd3_dicts_spec R Z E b.magic (bnd3_header_size + bnd3_entry_header_size R b.magic * b.entries.length) ((bnd3_header_size + bnd3_entry_header_size R b.magic * b.entries.length) + (((b.entries.insertionSort id_le).map (packed_path_of R E b.magic)).flatten).length) (b.entries.insertionSort id_le)) r1 rfl hmg2 hflag hbo r2 hcnt r3
      (by rw [hsplit, List.map_map]
          simp only [Function.comp_def]
          exact htable)]
    exact hwork
  rw [bnd3_unpack]
  simp only [hparse]
  have hnodupS : (((b.entries.insertionSort id_le)).map (fun e => e.id)).Nodup :=
    ((hperm.map (fun e => e.id)).symm).nodup hnodup
  rw [add_entries_loop_nodup (b.entries.insertionSort id_le) [] (by simpa using hnodupS)]
  simp

theorem bnd4_unpack_reduce (R : MagicRules) (Z : ZlibModel) (E : EncodingModel)
    (b : BND4) (buf s1 p2 hb : List Nat) (m : Int) (n : Nat)
    (parsed : List BNDEntry)
    (h1 : readBytesExact buf 0 12 = .ok s1)
    (h2 : s1.take 4 = [66, 78, 68, 52])
    (h5 : decSInt 4 false ((s1.drop 8).take 4) = 0)
    (h6 : readBytesExact buf 12 52 = .ok p2)
    (hcnt : decSInt 4 false (p2.take 4) = (n : Int))
    (hm : decSInt 1 false ((p2.drop 37).take 1) = m)
    (hdecl : decSInt 8 false ((p2.drop 20).take 8) = R.header_size m)
    (hsz2 : R.header_size m = (bnd4_entry_header_size R m : Int))
    (hw1 : ¬(((decUInt false ((p2.drop 38).take 1) : Nat) : Int) ≠ 4 ∧
        decSInt 8 false ((p2.drop 44).take 8) ≠ 0))
    (r3 : readBytesExact buf 64 (bnd4_entry_header_size R m * n) = .ok hb)
    (hdicts : bnd_entry_unpack R Z E buf
        ((split_records (bnd4_entry_header_size R m) n hb).map
          (bnd4_parse_entry_header R m false)) = .ok parsed)
    (hadd : (add_entries_loop b.entries parsed).2 = none) :
    (bnd4_unpack R Z E b buf).1.entries = (add_entries_loop b.entries parsed).1 ∧
    (bnd4_unpack R Z E b buf).2.1 = [] ∧
    (bnd4_unpack R Z E b buf).2.2 = none := by
  have hc2 : ¬ (s1.take 4 ≠ [66, 78, 68, 52]) := by simp [h2]
  have hbo : decide (decSInt 4 false ((s1.drop 8).take 4) = 0x00000100) =
      false := by
    rw [h5]; rfl
  have hcn : ¬ (decSInt 8 false ((p2.drop 20).take 8) ≠ R.header_size m) := by
    rw [hdecl]
    simp
  have hc3 : ¬ (decSInt 8 false ((p2.drop 20).take 8) ≠
      ((bnd4_entry_header_size R m : Nat) : Int)) := by
    rw [hdecl]
    simp [hsz2]
  unfold bnd4_unpack
  rw [h1]
  simp only []
  rw [if_neg hc2]
  rw [h6]
  simp only [hbo, hm, hcnt, Int.toNat_natCast]
  rw [if_neg hcn]
  rw [if_neg hw1]
  rw [if_neg hc3]
  rw [r3]
  simp only []
  rw [hdicts]
  simp only []
  simp only [hadd]
  exact ⟨trivial, rfl, trivial⟩

theorem bnd4_roundtrip (R : MagicRules) (Z : ZlibModel) (E : EncodingModel)
    (b b0 : BND4) (W : List Nat)
    (hid : R.has_id b.magic = true) (hpath : R.has_path b.magic = true)
    (hZ : ∀ dd, Z.decompress (Z.compress dd) = some dd)
    (hsig : b.signature.length ≤ 8)
    (hmg : 0 ≤ b.magic ∧ b.magic < 128)
    (hbig : b.big_endian = false)
    (hhtt : 0 ≤ b.hash_table_type ∧ b.hash_table_type < 256)
    (hsz2 : R.header_size b.magic = (bnd4_entry_header_size R b.magic : Int))
    (hW4 : b.hash_table_type = 4 →
      bnd4_packed_hash_table b (bnd4_rebuild_needed b) = .ok W)
    (hWn : b.hash_table_type ≠ 4 → W = [])
    (hcanon : ∀ e ∈ b.entries,
      (∃ i, e.id = some i ∧ -(2 ^ 31) ≤ i ∧ i < 2 ^ 31) ∧ e.path ≠ none ∧
        0 ≤ e.magic ∧ e.magic < 256 ∧ e.data.length < 2 ^ 31)
    (hread : ∀ pre post e, e ∈ b.entries →
      E.read_str (pre ++ (E.encode (e.path.getD []) ++ 0 :: post)) pre.length =
        some (e.path.getD []))
    (hnodup : (b.entries.map (fun e => e.id)).Nodup)
    (hb0 : b0.entries = [])
    (hsize : bnd4_header_size +
        bnd4_entry_header_size R b.magic * b.entries.length +
        (((b.entries.map (packed_path_of R E b.magic)).flatten)).length + W.length + (((b.entries.map (fun e => padBytes 10 ++ packed_data_of R Z e)).flatten)).length < 2 ^ 31) :
    bnd4_pack R Z E b = .ok (((bnd4_pack_header b (b.entries.length : Int) ((bnd4_entry_header_size R b.magic) : Int) (((((bnd4_header_size + (bnd4_entry_header_size R b.magic) * b.entries.length) + ((b.entries.map (packed_path_of R E b.magic)).flatten).length) + W.length) : Nat) : Int) (((if b.hash_table_type = 4 then ((bnd4_header_size + (bnd4_entry_header_size R b.magic) * b.entries.length) + ((b.entries.map (packed_path_of R E b.magic)).flatten).length) else 0) : Nat) : Int)) ++ (((bnd4_dicts_spec R Z E b.magic (bnd4_header_size + (bnd4_entry_header_size R b.magic) * b.entries.length) (((bnd4_header_size + (bnd4_entry_header_size R b.magic) * b.entries.length) + ((b.entries.map (packed_path_of R E b.magic)).flatten).length) + W.length) b.entries).map (bnd4_pack_entry_header R b.magic false)).flatten) ++ ((b.entries.map (packed_path_of R E b.magic)).flatten) ++ W ++ ((b.entries.map (fun e => padBytes 10 ++ packed_data_of R Z e)).flatten)), ({ b with most_recent_entry_count := b.entries.length, most_recent_paths := b.entries.map (fun e => e.path) } : BND4)) ∧
    (bnd4_unpack R Z E b0 ((bnd4_pack_header b (b.entries.length : Int) ((bnd4_entry_header_size R b.magic) : Int) (((((bnd4_header_size + (bnd4_entry_header_size R b.magic) * b.entries.length) + ((b.entries.map (packed_path_of R E b.magic)).flatten).length) + W.length) : Nat) : Int) (((if b.hash_table_type = 4 then ((bnd4_header_size + (bnd4_entry_header_size R b.magic) * b.entries.length) + ((b.entries.map (packed_path_of R E b.magic)).flatten).length) else 0) : Nat) : Int)) ++ (((bnd4_dicts_spec R Z E b.magic (bnd4_header_size + (bnd4_entry_header_size R b.magic) * b.entries.length) (((bnd4_header_size + (bnd4_entry_header_size R b.magic) * b.entries.length) + ((b.entries.map (packed_path_of R E b.magic)).flatten).length) + W.length) b.entries).map (bnd4_pack_entry_header R b.magic false)).flatten) ++ ((b.entries.map (packed_path_of R E b.magic)).flatten) ++ W ++ ((b.entries.map (fun e => padBytes 10 ++ packed_data_of R Z e)).flatten))).1.entries = b.entries ∧
    (bnd4_unpack R Z E b0 ((bnd4_pack_header b (b.entries.length : Int) ((bnd4_entry_header_size R b.magic) : Int) (((((bnd4_header_size + (bnd4_entry_header_size R b.magic) * b.entries.length) + ((b.entries.map (packed_path_of R E b.magic)).flatten).length) + W.length) : Nat) : Int) (((if b.hash_table_type = 4 then ((bnd4_header_size + (bnd4_entry_header_size R b.magic) * b.entries.length) + ((b.entries.map (packed_path_of R E b.magic)).flatten).length) else 0) : Nat) : Int)) ++ (((bnd4_dicts_spec R Z E b.magic (bnd4_header_size + (bnd4_entry_header_size R b.magic) * b.entries.length) (((bnd4_header_size + (bnd4_entry_header_size R b.magic) * b.entries.length) + ((b.entries.map (packed_path_of R E b.magic)).flatten).length) + W.length) b.entries).map (bnd4_pack_entry_header R b.magic false)).flatten) ++ ((b.entries.map (packed_path_of R E b.magic)).flatten) ++ W ++ ((b.entries.map (fun e => padBytes 10 ++ packed_data_of R Z e)).flatten))).2.1 = [] ∧
    (bnd4_unpack R Z E b0 ((bnd4_pack_header b (b.entries.length : Int) ((bnd4_entry_header_size R b.magic) : Int) (((((bnd4_header_size + (bnd4_entry_header_size R b.magic) * b.entries.length) + ((b.entries.map (packed_path_of R E b.magic)).flatten).length) + W.length) : Nat) : Int) (((if b.hash_table_type = 4 then ((bnd4_header_size + (bnd4_entry_header_size R b.magic) * b.entries.length) + ((b.entries.map (packed_path_of R E b.magic)).flatten).length) else 0) : Nat) : Int)) ++ (((bnd4_dicts_spec R Z E b.magic (bnd4_header_size + (bnd4_entry_header_size R b.magic) * b.entries.length) (((bnd4_header_size + (bnd4_entry_header_size R b.magic) * b.entries.length) + ((b.entries.map (packed_path_of R E b.magic)).flatten).length) + W.length) b.entries).map (bnd4_pack_entry_header R b.magic false)).flatten) ++ ((b.entries.map (packed_path_of R E b.magic)).flatten) ++ W ++ ((b.entries.map (fun e => padBytes 10 ++ packed_data_of R Z e)).flatten))).2.2 = none := by
  have hloop := bnd4_entry_loop_succeeds R Z E b.magic b.entries 0 0
    (fun e he => ⟨fun _ => by
        obtain ⟨⟨i, hi, -, -⟩, -, -⟩ := hcanon e he
        simp [hi],
      fun _ => (hcanon e he).2.1⟩)
  have hpack : bnd4_pack R Z E b = .ok (((bnd4_pack_header b (b.entries.length : Int) ((bnd4_entry_header_size R b.magic) : Int) (((((bnd4_header_size + (bnd4_entry_header_size R b.magic) * b.entries.length) + ((b.entries.map (packed_path_of R E b.magic)).flatten).length) + W.length) : Nat) : Int) (((if b.hash_table_type = 4 then ((bnd4_header_size + (bnd4_entry_header_size R b.magic) * b.entries.length) + ((b.entries.map (packed_path_of R E b.magic)).flatten).length) else 0) : Nat) : Int)) ++ (((bnd4_dicts_spec R Z E b.magic (bnd4_header_size + (bnd4_entry_header_size R b.magic) * b.entries.length) (((bnd4_header_size + (bnd4_entry_header_size R b.magic) * b.entries.length) + ((b.entries.map (packed_path_of R E b.magic)).flatten).length) + W.length) b.entries).map (bnd4_pack_entry_header R b.magic false)).flatten) ++ ((b.entries.map (packed_path_of R E b.magic)).flatten) ++ W ++ ((b.entries.map (fun e => padBytes 10 ++ packed_data_of R Z e)).flatten)), ({ b with most_recent_entry_count := b.entries.length, most_recent_paths := b.entries.map (fun e => e.path) } : BND4)) := by
    rw [bnd4_pack]
    simp only [hloop, bind, Except.bind]
    by_cases hh : b.hash_table_type = 4
    · rw [if_pos hh, if_pos hh]
      simp only [hW4 hh, bind, Except.bind]
      rw [bnd4_dicts_rebase R Z E b.magic (bnd4_header_size + (bnd4_entry_header_size R b.magic) * b.entries.length) (((bnd4_header_size + (bnd4_entry_header_size R b.magic) * b.entries.length) + ((b.entries.map (packed_path_of R E b.magic)).flatten).length) + W.length) b.entries 0 0]
      simp only [Nat.zero_add, hbig]
    · rw [if_neg hh, if_neg hh]
      simp only [bind, Except.bind]
      have hW := hWn hh
      subst hW
      rw [bnd4_dicts_rebase R Z E b.magic (bnd4_header_size + (bnd4_entry_header_size R b.magic) * b.entries.length) ((bnd4_header_size + (bnd4_entry_header_size R b.magic) * b.entries.length) + ((b.entries.map (packed_path_of R E b.magic)).flatten).length) b.entries 0 0]
      simp only [Nat.zero_add, hbig, List.length_nil, Nat.add_zero,
        List.append_nil]
  refine ⟨hpack, ?_⟩
  have hEHSle : (bnd4_entry_header_size R b.magic) ≤ 44 := by
    rw [bnd4_entry_header_size]
    split_ifs <;> omega
  have hEHSpos : 0 < (bnd4_entry_header_size R b.magic) := by
    rw [bnd4_entry_header_size]
    omega
  have hlenle : b.entries.length ≤ (bnd4_entry_header_size R b.magic) * b.entries.length :=
    Nat.le_mul_of_pos_left _ hEHSpos
  have h64 : bnd4_header_size = 64 := rfl
  have hlen31 : b.entries.length < 2 ^ 31 := by omega
  have hHTOle : (if b.hash_table_type = 4 then ((bnd4_header_size + (bnd4_entry_header_size R b.magic) * b.entries.length) + ((b.entries.map (packed_path_of R E b.magic)).flatten).length) else 0) ≤ ((bnd4_header_size + (bnd4_entry_header_size R b.magic) * b.entries.length) + ((b.entries.map (packed_path_of R E b.magic)).flatten).length) := by
    by_cases hh : b.hash_table_type = 4 <;> simp [hh]
  obtain ⟨s1, p2, g1, g2, g3, g4, g5, g6, g7, g8, g9, g10, g11, g12, g13⟩ :=
    bnd4_header_parse b (b.entries.length : Int) ((bnd4_entry_header_size R b.magic) : Int)
      (((((bnd4_header_size + (bnd4_entry_header_size R b.magic) * b.entries.length) + ((b.entries.map (packed_path_of R E b.magic)).flatten).length) + W.length) : Nat) : Int) (((if b.hash_table_type = 4 then ((bnd4_header_size + (bnd4_entry_header_size R b.magic) * b.entries.length) + ((b.entries.map (packed_path_of R E b.magic)).flatten).length) else 0) : Nat) : Int)
      ((((bnd4_dicts_spec R Z E b.magic (bnd4_header_size + (bnd4_entry_header_size R b.magic) * b.entries.length) (((bnd4_header_size + (bnd4_entry_header_size R b.magic) * b.entries.length) + ((b.entries.map (packed_path_of R E b.magic)).flatten).length) + W.length) b.entries).map (bnd4_pack_entry_header R b.magic false)).flatten) ++ (((b.entries.map (packed_path_of R E b.magic)).flatten) ++ (W ++ ((b.entries.map (fun e => padBytes 10 ++ packed_data_of R Z e)).flatten)))) hsig hbig
      (⟨Int.natCast_nonneg _, by exact_mod_cast hlen31⟩)
      (⟨le_trans (by norm_num) (Int.natCast_nonneg _), by
        have : (bnd4_entry_header_size R b.magic) < 2 ^ 63 := by omega
        exact_mod_cast this⟩)
      (⟨le_trans (by norm_num) (Int.natCast_nonneg _), by
        have : (((bnd4_header_size + (bnd4_entry_header_size R b.magic) * b.entries.length) + ((b.entries.map (packed_path_of R E b.magic)).flatten).length) + W.length) < 2 ^ 63 := by omega
        exact_mod_cast this⟩)
      (⟨le_trans (by norm_num) (Int.natCast_nonneg _), by
        have : (if b.hash_table_type = 4 then ((bnd4_header_size + (bnd4_entry_header_size R b.magic) * b.entries.length) + ((b.entries.map (packed_path_of R E b.magic)).flatten).length) else 0) < 2 ^ 63 := by omega
        exact_mod_cast this⟩)
      ⟨le_trans (by norm_num) hmg.1, hmg.2⟩ hhtt
  have hOUT : ((bnd4_pack_header b (b.entries.length : Int) ((bnd4_entry_header_size R b.magic) : Int) (((((bnd4_header_size + (bnd4_entry_header_size R b.magic) * b.entries.length) + ((b.entries.map (packed_path_of R E b.magic)).flatten).length) + W.length) : Nat) : Int) (((if b.hash_table_type = 4 then ((bnd4_header_size + (bnd4_entry_header_size R b.magic) * b.entries.length) + ((b.entries.map (packed_path_of R E b.magic)).flatten).length) else 0) : Nat) : Int)) ++ (((bnd4_dicts_spec R Z E b.magic (bnd4_header_size + (bnd4_entry_header_size R b.magic) * b.entries.length) (((bnd4_header_size + (bnd4_entry_header_size R b.magic) * b.entries.length) + ((b.entries.map (packed_path_of R E b.magic)).flatten).length) + W.length) b.entries).map (bnd4_pack_entry_header R b.magic false)).flatten) ++ ((b.entries.map (packed_path_of R E b.magic)).flatten) ++ W ++ ((b.entries.map (fun e => padBytes 10 ++ packed_data_of R Z e)).flatten)) = bnd4_pack_header b (b.entries.length : Int) ((bnd4_entry_header_size R b.magic) : Int)
      (((((bnd4_header_size + (bnd4_entry_header_size R b.magic) * b.entries.length) + ((b.entries.map (packed_path_of R E b.magic)).flatten).length) + W.length) : Nat) : Int) (((if b.hash_table_type = 4 then ((bnd4_header_size + (bnd4_entry_header_size R b.magic) * b.entries.length) + ((b.entries.map (packed_path_of R E b.magic)).flatten).length) else 0) : Nat) : Int) ++
      ((((bnd4_dicts_spec R Z E b.magic (bnd4_header_size + (bnd4_entry_header_size R b.magic) * b.entries.length) (((bnd4_header_size + (bnd4_entry_header_size R b.magic) * b.entries.length) + ((b.entries.map (packed_path_of R E b.magic)).flatten).length) + W.length) b.entries).map (bnd4_pack_entry_header R b.magic false)).flatten) ++ (((b.entries.map (packed_path_of R E b.magic)).flatten) ++ (W ++ ((b.entries.map (fun e => padBytes 10 ++ packed_data_of R Z e)).flatten)))) := by
    simp [List.append_assoc]
  rw [← hOUT] at g1 g6
  have hHlen2 : ((bnd4_pack_header b (b.entries.length : Int) ((bnd4_entry_header_size R b.magic) : Int) (((((bnd4_header_size + (bnd4_entry_header_size R b.magic) * b.entries.length) + ((b.entries.map (packed_path_of R E b.magic)).flatten).length) + W.length) : Nat) : Int) (((if b.hash_table_type = 4 then ((bnd4_header_size + (bnd4_entry_header_size R b.magic) * b.entries.length) + ((b.entries.map (packed_path_of R E b.magic)).flatten).length) else 0) : Nat) : Int))).length = bnd4_header_size :=
    length_bnd4_pack_header b _ _ _ _ hsig
  have hblocks : ∀ bl ∈ (bnd4_dicts_spec R Z E b.magic (bnd4_header_size + (bnd4_entry_header_size R b.magic) * b.entries.length) (((bnd4_header_size + (bnd4_entry_header_size R b.magic) * b.entries.length) + ((b.entries.map (packed_path_of R E b.magic)).flatten).length) + W.length) b.entries).map (bnd4_pack_entry_header R b.magic false),
      bl.length = bnd4_entry_header_size R b.magic := by
    intro bl hbl
    obtain ⟨d, -, rfl⟩ := List.mem_map.mp hbl
    exact length_bnd4_pack_entry_header R b.magic false d
  have hmaplen : ((bnd4_dicts_spec R Z E b.magic (bnd4_header_size + (bnd4_entry_header_size R b.magic) * b.entries.length) (((bnd4_header_size + (bnd4_entry_header_size R b.magic) * b.entries.length) + ((b.entries.map (packed_path_of R E b.magic)).flatten).length) + W.length) b.entries).map (bnd4_pack_entry_header R b.magic false)).length =
      b.entries.length := by
    rw [List.length_map, bnd4_dicts_spec_length]
  have hEHlen : ((((bnd4_dicts_spec R Z E b.magic (bnd4_header_size + (bnd4_entry_header_size R b.magic) * b.entries.length) (((bnd4_header_size + (bnd4_entry_header_size R b.magic) * b.entries.length) + ((b.entries.map (packed_path_of R E b.magic)).flatten).length) + W.length) b.entries).map (bnd4_pack_entry_header R b.magic false)).flatten)).length = (bnd4_entry_header_size R b.magic) * b.entries.length := by
    rw [flatten_length_uniform _ _ hblocks, hmaplen]
  have r3 : readBytesExact ((bnd4_pack_header b (b.entries.length : Int) ((bnd4_entry_header_size R b.magic) : Int) (((((bnd4_header_size + (bnd4_entry_header_size R b.magic) * b.entries.length) + ((b.entries.map (packed_path_of R E b.magic)).flatten).length) + W.length) : Nat) : Int) (((if b.hash_table_type = 4 then ((bnd4_header_size + (bnd4_entry_header_size R b.magic) * b.entries.length) + ((b.entries.map (packed_path_of R E b.magic)).flatten).length) else 0) : Nat) : Int)) ++ (((bnd4_dicts_spec R Z E b.magic (bnd4_header_size + (bnd4_entry_header_size R b.magic) * b.entries.length) (((bnd4_header_size + (bnd4_entry_header_size R b.magic) * b.entries.length) + ((b.entries.map (packed_path_of R E b.magic)).flatten).length) + W.length) b.entries).map (bnd4_pack_entry_header R b.magic false)).flatten) ++ ((b.entries.map (packed_path_of R E b.magic)).flatten) ++ W ++ ((b.entries.map (fun e => padBytes 10 ++ packed_data_of R Z e)).flatten)) 64 ((bnd4_entry_header_size R b.magic) * b.entries.length) = .ok (((bnd4_dicts_spec R Z E b.magic (bnd4_header_size + (bnd4_entry_header_size R b.magic) * b.entries.length) (((bnd4_header_size + (bnd4_entry_header_size R b.magic) * b.entries.length) + ((b.entries.map (packed_path_of R E b.magic)).flatten).length) + W.length) b.entries).map (bnd4_pack_entry_header R b.magic false)).flatten) :=
    readBytesExact_ok (bnd4_pack_header b (b.entries.length : Int) ((bnd4_entry_header_size R b.magic) : Int) (((((bnd4_header_size + (bnd4_entry_header_size R b.magic) * b.entries.length) + ((b.entries.map (packed_path_of R E b.magic)).flatten).length) + W.length) : Nat) : Int) (((if b.hash_table_type = 4 then ((bnd4_header_size + (bnd4_entry_header_size R b.magic) * b.entries.length) + ((b.entries.map (packed_path_of R E b.magic)).flatten).length) else 0) : Nat) : Int)) (((bnd4_dicts_spec R Z E b.magic (bnd4_header_size + (bnd4_entry_header_size R b.magic) * b.entries.length) (((bnd4_header_size + (bnd4_entry_header_size R b.magic) * b.entries.length) + ((b.entries.map (packed_path_of R E b.magic)).flatten).length) + W.length) b.entries).map (bnd4_pack_entry_header R b.magic false)).flatten) (((b.entries.map (packed_path_of R E b.magic)).flatten) ++ W ++ ((b.entries.map (fun e => padBytes 10 ++ packed_data_of R Z e)).flatten)) 64
      ((bnd4_entry_header_size R b.magic) * b.entries.length)
      (by simp [List.append_assoc]) hHlen2 hEHlen
  have hsplit := split_records_flatten (bnd4_entry_header_size R b.magic)
    ((bnd4_dicts_spec R Z E b.magic (bnd4_header_size + (bnd4_entry_header_size R b.magic) * b.entries.length) (((bnd4_header_size + (bnd4_entry_header_size R b.magic) * b.entries.length) + ((b.entries.map (packed_path_of R E b.magic)).flatten).length) + W.length) b.entries).map (bnd4_pack_entry_header R b.magic false)) [] hblocks
  rw [List.append_nil, hmaplen] at hsplit
  have htable := bnd4_headers_table_roundtrip R Z E b.magic false hid hpath
    b.entries (bnd4_header_size + (bnd4_entry_header_size R b.magic) * b.entries.length) (((bnd4_header_size + (bnd4_entry_header_size R b.magic) * b.entries.length) + ((b.entries.map (packed_path_of R E b.magic)).flatten).length) + W.length)
    (fun e he => ⟨(hcanon e he).1, (hcanon e he).2.2.1,
      (hcanon e he).2.2.2.1, (hcanon e he).2.2.2.2⟩)
    (by omega) (by omega)
  have hwork := bnd4_entries_unpack_ok R Z E b.magic hid hpath hZ b.entries ((bnd4_pack_header b (b.entries.length : Int) ((bnd4_entry_header_size R b.magic) : Int) (((((bnd4_header_size + (bnd4_entry_header_size R b.magic) * b.entries.length) + ((b.entries.map (packed_path_of R E b.magic)).flatten).length) + W.length) : Nat) : Int) (((if b.hash_table_type = 4 then ((bnd4_header_size + (bnd4_entry_header_size R b.magic) * b.entries.length) + ((b.entries.map (packed_path_of R E b.magic)).flatten).length) else 0) : Nat) : Int)) ++ (((bnd4_dicts_spec R Z E b.magic (bnd4_header_size + (bnd4_entry_header_size R b.magic) * b.entries.length) (((bnd4_header_size + (bnd4_entry_header_size R b.magic) * b.entries.length) + ((b.entries.map (packed_path_of R E b.magic)).flatten).length) + W.length) b.entries).map (bnd4_pack_entry_header R b.magic false)).flatten) ++ ((b.entries.map (packed_path_of R E b.magic)).flatten) ++ W ++ ((b.entries.map (fun e => padBytes 10 ++ packed_data_of R Z e)).flatten))
    ((bnd4_pack_header b (b.entries.length : Int) ((bnd4_entry_header_size R b.magic) : Int) (((((bnd4_header_size + (bnd4_entry_header_size R b.magic) * b.entries.length) + ((b.entries.map (packed_path_of R E b.magic)).flatten).length) + W.length) : Nat) : Int) (((if b.hash_table_type = 4 then ((bnd4_header_size + (bnd4_entry_header_size R b.magic) * b.entries.length) + ((b.entries.map (packed_path_of R E b.magic)).flatten).length) else 0) : Nat) : Int)) ++ (((bnd4_dicts_spec R Z E b.magic (bnd4_header_size + (bnd4_entry_header_size R b.magic) * b.entries.length) (((bnd4_header_size + (bnd4_entry_header_size R b.magic) * b.entries.length) + ((b.entries.map (packed_path_of R E b.magic)).flatten).length) + W.length) b.entries).map (bnd4_pack_entry_header R b.magic false)).flatten)) (W ++ ((b.entries.map (fun e => padBytes 10 ++ packed_data_of R Z e)).flatten)) ((bnd4_pack_header b (b.entries.length : Int) ((bnd4_entry_header_size R b.magic) : Int) (((((bnd4_header_size + (bnd4_entry_header_size R b.magic) * b.entries.length) + ((b.entries.map (packed_path_of R E b.magic)).flatten).length) + W.length) : Nat) : Int) (((if b.hash_table_type = 4 then ((bnd4_header_size + (bnd4_entry_header_size R b.magic) * b.entries.length) + ((b.entries.map (packed_path_of R E b.magic)).flatten).length) else 0) : Nat) : Int)) ++ (((bnd4_dicts_spec R Z E b.magic (bnd4_header_size + (bnd4_entry_header_size R b.magic) * b.entries.length) (((bnd4_header_size + (bnd4_entry_header_size R b.magic) * b.entries.length) + ((b.entries.map (packed_path_of R E b.magic)).flatten).length) + W.length) b.entries).map (bnd4_pack_entry_header R b.magic false)).flatten) ++ ((b.entries.map (packed_path_of R E b.magic)).flatten) ++ W) []
    (by simp [List.append_assoc])
    (by simp [List.append_assoc])
    (fun e he => (hcanon e he).2.1)
    hread
  simp only [List.length_append, hHlen2, hEHlen] at hwork
  have hdicts : bnd_entry_unpack R Z E ((bnd4_pack_header b (b.entries.length : Int) ((bnd4_entry_header_size R b.magic) : Int) (((((bnd4_header_size + (bnd4_entry_header_size R b.magic) * b.entries.length) + ((b.entries.map (packed_path_of R E b.magic)).flatten).length) + W.length) : Nat) : Int) (((if b.hash_table_type = 4 then ((bnd4_header_size + (bnd4_entry_header_size R b.magic) * b.entries.length) + ((b.entries.map (packed_path_of R E b.magic)).flatten).length) else 0) : Nat) : Int)) ++ (((bnd4_dicts_spec R Z E b.magic (bnd4_header_size + (bnd4_entry_header_size R b.magic) * b.entries.length) (((bnd4_header_size + (bnd4_entry_header_size R b.magic) * b.entries.length) + ((b.entries.map (packed_path_of R E b.magic)).flatten).length) + W.length) b.entries).map (bnd4_pack_entry_header R b.magic false)).flatten) ++ ((b.entries.map (packed_path_of R E b.magic)).flatten) ++ W ++ ((b.entries.map (fun e => padBytes 10 ++ packed_data_of R Z e)).flatten))
      ((split_records (bnd4_entry_header_size R b.magic) b.entries.length (((bnd4_dicts_spec R Z E b.magic (bnd4_header_size + (bnd4_entry_header_size R b.magic) * b.entries.length) (((bnd4_header_size + (bnd4_entry_header_size R b.magic) * b.entries.length) + ((b.entries.map (packed_path_of R E b.magic)).flatten).length) + W.length) b.entries).map (bnd4_pack_entry_header R b.magic false)).flatten)).map
        (bnd4_parse_entry_header R b.magic false)) = .ok b.entries := by
    rw [hsplit, List.map_map]
    simp only [Function.comp_def]
    rw [htable]
    exact hwork
  have hadd4 : add_entries_loop b0.entries b.entries = (b.entries, none) := by
    rw [hb0, add_entries_loop_nodup b.entries [] (by simpa using hnodup)]
    simp
  have htt_eq : ((b.hash_table_type.toNat : Nat) : Int) = b.hash_table_type :=
    Int.toNat_of_nonneg hhtt.1
  have hw1 : ¬(((decUInt false ((p2.drop 38).take 1) : Nat) : Int) ≠ 4 ∧
      decSInt 8 false ((p2.drop 44).take 8) ≠ 0) := by
    rw [g12, g13, htt_eq]
    rintro ⟨hA, hB⟩
    by_cases hh : b.hash_table_type = 4
    · exact hA hh
    · apply hB
      simp [hh]
  have hred := bnd4_unpack_reduce R Z E b0 ((bnd4_pack_header b (b.entries.length : Int) ((bnd4_entry_header_size R b.magic) : Int) (((((bnd4_header_size + (bnd4_entry_header_size R b.magic) * b.entries.length) + ((b.entries.map (packed_path_of R E b.magic)).flatten).length) + W.length) : Nat) : Int) (((if b.hash_table_type = 4 then ((bnd4_header_size + (bnd4_entry_header_size R b.magic) * b.entries.length) + ((b.entries.map (packed_path_of R E b.magic)).flatten).length) else 0) : Nat) : Int)) ++ (((bnd4_dicts_spec R Z E b.magic (bnd4_header_size + (bnd4_entry_header_size R b.magic) * b.entries.length) (((bnd4_header_size + (bnd4_entry_header_size R b.magic) * b.entries.length) + ((b.entries.map (packed_path_of R E b.magic)).flatten).length) + W.length) b.entries).map (bnd4_pack_entry_header R b.magic false)).flatten) ++ ((b.entries.map (packed_path_of R E b.magic)).flatten) ++ W ++ ((b.entries.map (fun e => padBytes 10 ++ packed_data_of R Z e)).flatten)) s1 p2 (((bnd4_dicts_spec R Z E b.magic (bnd4_header_size + (bnd4_entry_header_size R b.magic) * b.entries.length) (((bnd4_header_size + (bnd4_entry_header_size R b.magic) * b.entries.length) + ((b.entries.map (packed_path_of R E b.magic)).flatten).length) + W.length) b.entries).map (bnd4_pack_entry_header R b.magic false)).flatten) b.magic
    b.entries.length b.entries g1 g2 g5 g6 g7 g11
    (by rw [hsz2]; exact g8) hsz2 hw1 r3 hdicts
    (by rw [hadd4])
  rw [hadd4] at hred
  exact hred

/-- C1 counterexample: the unrestricted round-trip claim fails.  (i) Under a
rule table without ids or paths (a real has-id=false/has-path=false flag
combination), a V3 archive holding one entry with id 5 packs and unpacks to
an entry with id `none`: the multiset of (id, path, magic, data) is not
preserved.  (ii) A V4 archive with `big_endian = true` does not survive at
all: pack writes the endianness marker as the integer 1, unpack tests the
marker against 0x00000100 and decodes the header little-endian, and the
scrambled entry-header size raises the fatal `ValueError`. -/
theorem bnd_roundtrip_counterexample :
    ((bnd3_pack testRulesNoId testZlib testEncoding
        { signature := [], magic := 0, big_endian := false, unknown := false,
          entries :=
            [{ data := [7], id := some 5, path := none, magic := 0 }] }).toOption.map
      (fun out => (bnd3_unpack testRulesNoId testZlib testEncoding [] out).1) =
      some [{ data := [7], id := none, path := none, magic := 0 }]) ∧
    [({ data := [7], id := none, path := none, magic := 0 } : BNDEntry)] ≠
      [({ data := [7], id := some 5, path := none, magic := 0 } : BNDEntry)] ∧
    ((bnd4_pack testRules testZlib testEncoding
        { signature := [], magic := -1, big_endian := true,
          entries :=
            [{ data := [7], id := some 1, path := some ['a'], magic := 0 }] }).toOption.map
      (fun pr => (bnd4_unpack testRules testZlib testEncoding bnd4_new pr.1).2.2)) =
      some (some "ValueError: expected BND entry header size does not match header") := by
  decide

/-- C1 (amended): round-trip holds for archives whose rule table enables ids
and paths, whose entries carry distinct in-range ids, non-NUL-readable
paths and byte-sized magics, under an inverse compression codec, with V3
endianness hints consistent with the archive flag and V4 restricted to
little-endian; V3 unpacks to the ID-sorted entry list and V4 to the
original entry list, with no error and no warnings. -/
theorem bnd_roundtrip_amended (R : MagicRules) (Z : ZlibModel)
    (E : EncodingModel) (b3 : BND3) (b4 b0 : BND4) (W : List Nat)
    (hid3 : R.has_id b3.magic = true) (hpath3 : R.has_path b3.magic = true)
    (hZ : ∀ dd, Z.decompress (Z.compress dd) = some dd)
    (hsig3 : b3.signature.length ≤ 8)
    (hmg3 : 0 ≤ b3.magic ∧ b3.magic < 128)
    (hendian : R.is_big_endian b3.magic = true → b3.big_endian = true)
    (hcanon3 : ∀ e ∈ b3.entries,
      (∃ i, e.id = some i ∧ -(2 ^ 31) ≤ i ∧ i < 2 ^ 31) ∧ e.path ≠ none ∧
        0 ≤ e.magic ∧ e.magic < 256 ∧ e.data.length < 2 ^ 31)
    (hread3 : ∀ pre post e, e ∈ b3.entries →
      E.read_str (pre ++ (E.encode (e.path.getD []) ++ 0 :: post)) pre.length =
        some (e.path.getD []))
    (hnodup3 : (b3.entries.map (fun e => e.id)).Nodup)
    (hsize3 : bnd3_header_size +
        bnd3_entry_header_size R b3.magic * b3.entries.length +
        ((b3.entries.map (packed_path_of R E b3.magic)).flatten).length +
        ((b3.entries.map (packed_data_of R Z)).flatten).length < 2 ^ 31)
    (hid4 : R.has_id b4.magic = true) (hpath4 : R.has_path b4.magic = true)
    (hsig4 : b4.signature.length ≤ 8)
    (hmg4 : 0 ≤ b4.magic ∧ b4.magic < 128)
    (hbig4 : b4.big_endian = false)
    (hhtt4 : 0 ≤ b4.hash_table_type ∧ b4.hash_table_type < 256)
    (hsz4 : R.header_size b4.magic = (bnd4_entry_header_size R b4.magic : Int))
    (hW4 : b4.hash_table_type = 4 →
      bnd4_packed_hash_table b4 (bnd4_rebuild_needed b4) = .ok W)
    (hWn : b4.hash_table_type ≠ 4 → W = [])
    (hcanon4 : ∀ e ∈ b4.entries,
      (∃ i, e.id = some i ∧ -(2 ^ 31) ≤ i ∧ i < 2 ^ 31) ∧ e.path ≠ none ∧
        0 ≤ e.magic ∧ e.magic < 256 ∧ e.data.length < 2 ^ 31)
    (hread4 : ∀ pre post e, e ∈ b4.entries →
      E.read_str (pre ++ (E.encode (e.path.getD []) ++ 0 :: post)) pre.length =
        some (e.path.getD []))
    (hnodup4 : (b4.entries.map (fun e => e.id)).Nodup)
    (hb0 : b0.entries = [])
    (hsize4 : bnd4_header_size +
        bnd4_entry_header_size R b4.magic * b4.entries.length +
        ((b4.entries.map (packed_path_of R E b4.magic)).flatten).length +
        W.length +
        ((b4.entries.map (fun e => padBytes 10 ++ packed_data_of R Z e)).flatten).length
        < 2 ^ 31) :
    (∃ out, bnd3_pack R Z E b3 = .ok out ∧
      bnd3_unpack R Z E [] out = (b3.entries.insertionSort id_le, none)) ∧
    (∃ out b2, bnd4_pack R Z E b4 = .ok (out, b2) ∧
      (bnd4_unpack R Z E b0 out).1.entries = b4.entries ∧
      (bnd4_unpack R Z E b0 out).2.1 = [] ∧
      (bnd4_unpack R Z E b0 out).2.2 = none) := by
  obtain ⟨hp3, hu3⟩ := bnd3_roundtrip R Z E b3 hid3 hpath3 hZ hsig3 hmg3
    hendian hcanon3 hread3 hnodup3 hsize3
  obtain ⟨hp4, hu4a, hu4b, hu4c⟩ := bnd4_roundtrip R Z E b4 b0 W hid4 hpath4
    hZ hsig4 hmg4 hbig4 hhtt4 hsz4 hW4 hWn hcanon4 hread4 hnodup4 hb0 hsize4
  exact ⟨⟨_, hp3, hu3⟩, ⟨_, _, hp4, hu4a, hu4b, hu4c⟩⟩

/-- Closed instance of the amended round-trip: a two-entry archive (one
entry compression-flagged, ids out of order) packs and unpacks losslessly
under the concrete rule table / codec models, V3 emerging ID-sorted and V4
in original order. -/
theorem bnd_roundtrip_amended_witness :
    (∃ out, bnd3_pack testRules testZlib testEncoding ({ signature := [66], magic := 1, big_endian := false, unknown := false, entries := [({ data := [1, 2], id := some 2, path := some ['b'], magic := 0x41 } : BNDEntry), ({ data := [3], id := some 1, path := some ['a'], magic := 0 } : BNDEntry)] } : BND3) = .ok out ∧
      bnd3_unpack testRules testZlib testEncoding [] out =
        ((({ signature := [66], magic := 1, big_endian := false, unknown := false, entries := [({ data := [1, 2], id := some 2, path := some ['b'], magic := 0x41 } : BNDEntry), ({ data := [3], id := some 1, path := some ['a'], magic := 0 } : BNDEntry)] } : BND3)).entries.insertionSort id_le, none)) ∧
    (∃ out b2, bnd4_pack testRules testZlib testEncoding ({ signature := [], magic := 1, entries := [({ data := [1, 2], id := some 2, path := some ['b'], magic := 0x41 } : BNDEntry), ({ data := [3], id := some 1, path := some ['a'], magic := 0 } : BNDEntry)] } : BND4) = .ok (out, b2) ∧
      (bnd4_unpack testRules testZlib testEncoding bnd4_new out).1.entries =
        (({ signature := [], magic := 1, entries := [({ data := [1, 2], id := some 2, path := some ['b'], magic := 0x41 } : BNDEntry), ({ data := [3], id := some 1, path := some ['a'], magic := 0 } : BNDEntry)] } : BND4)).entries ∧
      (bnd4_unpack testRules testZlib testEncoding bnd4_new out).2.1 = [] ∧
      (bnd4_unpack testRules testZlib testEncoding bnd4_new out).2.2 = none) := by
  apply bnd_roundtrip_amended testRules testZlib testEncoding ({ signature := [66], magic := 1, big_endian := false, unknown := false, entries := [({ data := [1, 2], id := some 2, path := some ['b'], magic := 0x41 } : BNDEntry), ({ data := [3], id := some 1, path := some ['a'], magic := 0 } : BNDEntry)] } : BND3) ({ signature := [], magic := 1, entries := [({ data := [1, 2], id := some 2, path := some ['b'], magic := 0x41 } : BNDEntry), ({ data := [3], id := some 1, path := some ['a'], magic := 0 } : BNDEntry)] } : BND4)
    bnd4_new []
  · rfl
  · rfl
  · exact testZlib_roundtrip
  · decide
  · decide
  · decide
  · intro e he
    simp only [List.mem_cons, List.not_mem_nil, or_false] at he
    rcases he with rfl | rfl
    · exact ⟨⟨2, rfl, by decide, by decide⟩, by decide, by decide, by decide,
        by decide⟩
    · exact ⟨⟨1, rfl, by decide, by decide⟩, by decide, by decide, by decide,
        by decide⟩
  · intro pre post e he
    simp only [List.mem_cons, List.not_mem_nil, or_false] at he
    rcases he with rfl | rfl
    · exact testEncoding_read_str pre post ['b'] (by decide)
    · exact testEncoding_read_str pre post ['a'] (by decide)
  · decide
  · decide
  · rfl
  · rfl
  · decide
  · decide
  · rfl
  · decide
  · decide
  · decide
  · decide
  · intro e he
    simp only [List.mem_cons, List.not_mem_nil, or_false] at he
    rcases he with rfl | rfl
    · exact ⟨⟨2, rfl, by decide, by decide⟩, by decide, by decide, by decide,
        by decide⟩
    · exact ⟨⟨1, rfl, by decide, by decide⟩, by decide, by decide, by decide,
        by decide⟩
  · intro pre post e he
    simp only [List.mem_cons, List.not_mem_nil, or_false] at he
    rcases he with rfl | rfl
    · exact testEncoding_read_str pre post ['b'] (by decide)
    · exact testEncoding_read_str pre post ['a'] (by decide)
  · decide
  · rfl
  · decide

end SoulstructBND
